import Mathlib

/-!
# Tundra `simpleavatar.js`: a shallow embedding

The script `bin/scenes/Avatar/simpleavatar.js` drives a walking avatar: a
server-side locomotion controller, an animation resolver shared by both
roles, and a client-side view controller.  The script object and the entity
components it touches become records; every script function becomes a pure
function on those records.  Components owned by external subsystems (physics
body, animation player, attribute store, placeable) keep, next to their
visible fields, the list of calls the script made on them, in call order.

Numbers: the motion intents are integers; camera distance, angles, masses and
vector components are rationals (every literal of the script is a rational).
Vectors that go through `Normalized` or through the avatar's world transform
are kept as the expression the script builds (`Vec`), because their value is
decided by the math library and by the placeable's current orientation.
-/

namespace Tundra

/-! ## Data model -/

/-- A `float3` literal of the script. -/
structure float3 where
  x : ℚ
  y : ℚ
  z : ℚ
deriving DecidableEq, Repr

/-- Vector expressions the script hands to the physics body or the placeable. -/
inductive Vec where
  /-- The vector `new float3(x, y, z)`. -/
  | lit (v : float3)
  /-- The vector `v.Normalized().Mul(k)`. -/
  | NormalizedMul (v : float3) (k : ℚ)
  /-- The vector `placeable.LocalToWorld().MulDir(v)`. -/
  | MulDir (v : Vec)
deriving DecidableEq, Repr

/-- Playback rates passed to `SetAnimationSpeed`. -/
inductive Speed where
  /-- A literal rate. -/
  | lit (q : ℚ)
  /-- The rate `Math.sqrt(v.x * v.x + v.z * v.z) * k`. -/
  | horizontal (v : float3) (k : ℚ)
deriving DecidableEq, Repr

/-- Calls received by the attribute store after the attributes exist. -/
inductive AttrCall where
  | SetAttribute (name : String) (value : ℚ)
deriving DecidableEq, Repr

/-- The avatar's `dynamiccomponent`: the capability flags and the camera distance. -/
structure DynamicComponent where
  enableWalk : Bool
  enableJump : Bool
  enableFly : Bool
  enableRotate : Bool
  enableAnimation : Bool
  enableZoom : Bool
  cameraDistance : ℚ
  calls : List AttrCall
deriving DecidableEq, Repr

/-- Calls received by the animation player. -/
inductive AnimCall where
  | EnableAnimation (name : String) (looped : Bool) (fadein : ℚ) (exclusive : Bool)
  | DisableAnimation (name : String) (fadeout : ℚ)
  | SetAnimationSpeed (name : String) (speed : Speed)
deriving DecidableEq, Repr

/-- Modelled from the spec: the animation player is an external collaborator
"exposing available-clip enumeration, enable/disable-with-crossfade, per-clip
playback-rate, and is-active query".  It is a replicated `animationState`
attribute, the clips of the loaded skeleton, and the set of clips that are
active; enabling and disabling update that set at once. -/
structure AnimationController where
  animationState : String
  availableAnimations : List String
  activeAnimations : List String
  calls : List AnimCall
deriving DecidableEq, Repr

/-- Calls received by the physics body. -/
inductive BodyCall where
  | SetMass (m : ℚ)
  | ApplyImpulse (v : Vec)
  | SetRotation (yaw : String)
deriving DecidableEq, Repr

/-- The avatar's `rigidbody`.  The script writes `mass`; `linearVelocity` and
`active` are what the physics engine currently reports.  `SetRotation yaw`
stands for `SetRotation(new float3(0, parseFloat(yaw), 0))`. -/
structure RigidBody where
  mass : ℚ
  linearVelocity : float3
  active : Bool
  calls : List BodyCall
deriving DecidableEq, Repr

/-- The avatar's `placeable`: the offsets the script added to `transform.pos`. -/
structure Placeable where
  offsets : List Vec
deriving DecidableEq, Repr

/-- The crosshair widget of the owning client. -/
structure Crosshair where
  active : Bool
  isUsingLabel : Bool
deriving DecidableEq, Repr

/-- The entity `this.me`.  The server script dereferences `dynamiccomponent`,
`rigidbody` and `placeable` without a guard (`ServerInitialize` creates the body
before any handler is connected), so they are always there; the animation
controller is created later by the avatar asset and is null until then. -/
structure Entity where
  name : String
  dynamiccomponent : DynamicComponent
  animationcontroller : Option AnimationController
  rigidbody : RigidBody
  placeable : Placeable
deriving DecidableEq, Repr

/-- A piece appended to the text held by `this.yaw`: the string form of a
number, or the source text of a function. -/
inductive YawPiece where
  | number (q : ℚ)
  | method
deriving DecidableEq, Repr

/-- The value of `this.yaw`.  It starts as the number 0; `+=` with a function
operand turns it into a string.  `text start rest` is the string made of the
string form of `start` (`none` for `NaN`), then the source text of the function,
then the pieces of `rest` in order; such a string is never a numeric literal. -/
inductive Yaw where
  | number (q : ℚ)
  | NaN
  | text (start : Option ℚ) (rest : List YawPiece)
deriving DecidableEq, Repr

/-- The assignment `yaw += n` with a number operand: addition on a number,
string concatenation on a string. -/
def Yaw.add : Yaw → ℚ → Yaw
  | Yaw.number q, n => Yaw.number (q + n)
  | Yaw.NaN, _ => Yaw.NaN
  | Yaw.text start rest, n => Yaw.text start (rest ++ [YawPiece.number n])

/-- The assignment `yaw -= n`: the left operand is converted to a number, which
gives `NaN` for a string that holds a function's source text. -/
def Yaw.sub : Yaw → ℚ → Yaw
  | Yaw.number q, n => Yaw.number (q - n)
  | Yaw.NaN, _ => Yaw.NaN
  | Yaw.text _ _, _ => Yaw.NaN

/-- The assignment `yaw += f` with a function operand: both operands are
converted to strings and concatenated. -/
def Yaw.addMethod : Yaw → Yaw
  | Yaw.number q => Yaw.text (some q) []
  | Yaw.NaN => Yaw.text none []
  | Yaw.text start rest => Yaw.text start (rest ++ [YawPiece.method])

/-- The script object (`this`). -/
structure SimpleAvatar where
  me : Entity
  motionX : Int
  motionY : Int
  motionZ : Int
  yaw : Yaw
  pitch : ℚ
  rotate : Int
  isServer : Bool
  ownAvatar : Bool
  flying : Bool
  falling : Bool
  crosshair : Option Crosshair
  isMouseLookLockedOnX : Bool
  standAnimName : String
  walkAnimName : String
  flyAnimName : String
  hoverAnimName : String
  animList : List String
  animsDetected : Bool
  listenGesture : Bool
deriving DecidableEq, Repr

/-! ## Constants of the constructor -/

def rotateSpeed : ℚ := 100
def mouseRotateSensitivity : ℚ := 2 / 10
def moveForce : ℚ := 15
def flySpeedFactor : ℚ := 25 / 100
def dampingForce : ℚ := 3
def walkAnimSpeed : ℚ := 5 / 10
def avatarCameraHeight : ℚ := 1
def avatarMass : ℚ := 10

/-! ## Component operations -/

/-- The call `animcontroller.IsAnimationActive(name)`. -/
def AnimationController.IsAnimationActive (ac : AnimationController) (name : String) : Bool :=
  decide (name ∈ ac.activeAnimations)

/-- The call `animcontroller.EnableAnimation(name, looped, fadein, exclusive)`. -/
def AnimationController.EnableAnimation (ac : AnimationController) (name : String)
    (looped : Bool) (fadein : ℚ) (exclusive : Bool) : AnimationController :=
  { ac with
    activeAnimations :=
      if name ∈ ac.activeAnimations then ac.activeAnimations else ac.activeAnimations ++ [name]
    calls := ac.calls ++ [AnimCall.EnableAnimation name looped fadein exclusive] }

/-- The call `animcontroller.DisableAnimation(name, fadeout)`. -/
def AnimationController.DisableAnimation (ac : AnimationController) (name : String)
    (fadeout : ℚ) : AnimationController :=
  { ac with
    activeAnimations := ac.activeAnimations.filter (fun n => n != name)
    calls := ac.calls ++ [AnimCall.DisableAnimation name fadeout] }

/-- The call `animcontroller.SetAnimationSpeed(name, speed)`. -/
def AnimationController.SetAnimationSpeed (ac : AnimationController) (name : String)
    (speed : Speed) : AnimationController :=
  { ac with calls := ac.calls ++ [AnimCall.SetAnimationSpeed name speed] }

/-- The assignment `rigidbody.mass = m`. -/
def RigidBody.setMass (rb : RigidBody) (m : ℚ) : RigidBody :=
  { rb with mass := m, calls := rb.calls ++ [BodyCall.SetMass m] }

/-- The call `rigidbody.ApplyImpulse(v)`. -/
def RigidBody.ApplyImpulse (rb : RigidBody) (v : Vec) : RigidBody :=
  { rb with calls := rb.calls ++ [BodyCall.ApplyImpulse v] }

/-- The call `rigidbody.SetRotation(new float3(0, parseFloat(yaw), 0))`. -/
def RigidBody.SetRotation (rb : RigidBody) (yaw : String) : RigidBody :=
  { rb with calls := rb.calls ++ [BodyCall.SetRotation yaw] }

/-- The call `attrs.SetAttribute("cameraDistance", d)`. -/
def DynamicComponent.setCameraDistance (a : DynamicComponent) (d : ℚ) : DynamicComponent :=
  { a with cameraDistance := d, calls := a.calls ++ [AttrCall.SetAttribute "cameraDistance" d] }

/-- Replace the entity's rigid body. -/
def SimpleAvatar.withBody (s : SimpleAvatar) (rb : RigidBody) : SimpleAvatar :=
  { s with me := { s.me with rigidbody := rb } }

/-- Replace the entity's animation controller. -/
def SimpleAvatar.withAnim (s : SimpleAvatar) (ac : AnimationController) : SimpleAvatar :=
  { s with me := { s.me with animationcontroller := some ac } }

/-- Replace the entity's attribute store. -/
def SimpleAvatar.withAttrs (s : SimpleAvatar) (a : DynamicComponent) : SimpleAvatar :=
  { s with me := { s.me with dynamiccomponent := a } }

/-! ## Server side: locomotion controller -/

/-- The local `animName` of `ServerSetAnimationState` after lines 310-320. -/
def resolveAnimName (s : SimpleAvatar) : String :=
  let animName := s.standAnimName
  let animName := if s.motionX != 0 || s.motionZ != 0 then s.walkAnimName else animName
  let animName :=
    if s.flying || s.falling then
      (if s.motionZ == 0 then s.hoverAnimName else s.flyAnimName)
    else animName
  animName

/-- Script function `SimpleAvatar.prototype.ServerSetAnimationState` (lines 309-332). -/
def ServerSetAnimationState (s : SimpleAvatar) : SimpleAvatar :=
  let animName := resolveAnimName s
  if animName == "" then s
  else
    match s.me.animationcontroller with
    | none => s
    | some ac =>
      if ac.animationState != animName then s.withAnim { ac with animationState := animName }
      else s

/-- Script function `SimpleAvatar.prototype.ServerHandleMove` (lines 234-253). -/
def ServerHandleMove (s : SimpleAvatar) (param : String) : SimpleAvatar :=
  let s :=
    if s.me.dynamiccomponent.enableWalk then
      let s := if param == "forward" then { s with motionZ := 1 } else s
      let s := if param == "back" then { s with motionZ := -1 } else s
      let s := if param == "right" then { s with motionX := 1 } else s
      let s := if param == "left" then { s with motionX := -1 } else s
      s
    else s
  let s := if param == "up" then { s with motionY := 1 } else s
  let s := if param == "down" then { s with motionY := -1 } else s
  ServerSetAnimationState s

/-- Script function `SimpleAvatar.prototype.ServerHandleStop` (lines 255-270). -/
def ServerHandleStop (s : SimpleAvatar) (param : String) : SimpleAvatar :=
  let s := if param == "forward" && s.motionZ == 1 then { s with motionZ := 0 } else s
  let s := if param == "back" && s.motionZ == -1 then { s with motionZ := 0 } else s
  let s := if param == "right" && s.motionX == 1 then { s with motionX := 0 } else s
  let s := if param == "left" && s.motionX == -1 then { s with motionX := 0 } else s
  let s := if param == "up" && s.motionY == 1 then { s with motionY := 0 } else s
  let s := if param == "down" && s.motionY == -1 then { s with motionY := 0 } else s
  ServerSetAnimationState s

/-- The vector `new float3(motionX * 120, motionY * 120, -motionZ * 120)` pushed
through the avatar's orientation when flight ends (lines 294-295). -/
def pushVec (s : SimpleAvatar) : Vec :=
  Vec.MulDir (Vec.lit ⟨s.motionX * 120, s.motionY * 120, -s.motionZ * 120⟩)

/-- Script function `SimpleAvatar.prototype.ServerSetFlying` (lines 276-299). -/
def ServerSetFlying (s : SimpleAvatar) (newFlying : Bool) : SimpleAvatar :=
  let newFlying := if !s.me.dynamiccomponent.enableFly then false else newFlying
  if s.flying == newFlying then s
  else
    let s := { s with flying := newFlying }
    let s :=
      if s.flying then s.withBody (s.me.rigidbody.setMass 0)
      else
        let s := s.withBody (s.me.rigidbody.setMass avatarMass)
        s.withBody (s.me.rigidbody.ApplyImpulse (pushVec s))
    ServerSetAnimationState s

/-- Script function `SimpleAvatar.prototype.ServerHandleToggleFly` (lines 272-274). -/
def ServerHandleToggleFly (s : SimpleAvatar) : SimpleAvatar :=
  ServerSetFlying s (!s.flying)

/-- Script function `SimpleAvatar.prototype.ServerHandleSetRotation` (lines 301-307). -/
def ServerHandleSetRotation (s : SimpleAvatar) (param : String) : SimpleAvatar :=
  if s.me.dynamiccomponent.enableRotate then s.withBody (s.me.rigidbody.SetRotation param)
  else s

/-- Script function `SimpleAvatar.prototype.ServerHandleCollision` (lines 174-179); only the
`newCollision` argument is read. -/
def ServerHandleCollision (s : SimpleAvatar) (newCollision : Bool) : SimpleAvatar :=
  if s.falling && newCollision then ServerSetAnimationState { s with falling := false }
  else s

/-- The jump impulse `new float3(0, 75, 0)` (line 199). -/
def jumpVec : Vec := Vec.lit ⟨0, 75, 0⟩

/-- Script function `SimpleAvatar.prototype.ServerUpdatePhysics` (lines 181-232). -/
def ServerUpdatePhysics (s : SimpleAvatar) (_frametime : ℚ) : SimpleAvatar :=
  if !s.flying then
    let s :=
      if s.motionX != 0 || s.motionZ != 0 then
        s.withBody (s.me.rigidbody.ApplyImpulse
          (Vec.MulDir (Vec.NormalizedMul ⟨s.motionX, 0, -s.motionZ⟩ moveForce)))
      else s
    let s :=
      if s.motionY == 1 && !s.falling then
        if s.me.dynamiccomponent.enableJump then
          let s := { s with motionY := 0, falling := true }
          s.withBody (s.me.rigidbody.ApplyImpulse jumpVec)
        else s
      else s
    let s :=
      if s.me.rigidbody.active then
        let v := s.me.rigidbody.linearVelocity
        s.withBody (s.me.rigidbody.ApplyImpulse
          (Vec.lit ⟨-dampingForce * v.x, 0, -dampingForce * v.z⟩))
      else s
    s
  else
    let moveVec : float3 :=
      ⟨s.motionX * flySpeedFactor, s.motionY * flySpeedFactor, -s.motionZ * flySpeedFactor⟩
    { s with
      me := { s.me with
        placeable := { offsets := s.me.placeable.offsets ++ [Vec.MulDir (Vec.lit moveVec)] } } }

/-! ## Both roles: animation resolver -/

/-- Script function `SimpleAvatar.prototype.CommonFindAnimations` (lines 784-809); the `print`
of a missing name is console output and is not recorded. -/
def CommonFindAnimations (s : SimpleAvatar) : SimpleAvatar :=
  match s.me.animationcontroller with
  | none => s
  | some animcontrol =>
    let availableAnimations := animcontrol.availableAnimations
    if availableAnimations.length > 0 then
      let animList :=
        s.animList.map (fun animName => if animName ∈ availableAnimations then animName else "")
      { s with
        animList := animList
        standAnimName := animList.getD 0 ""
        walkAnimName := animList.getD 1 ""
        flyAnimName := animList.getD 2 ""
        hoverAnimName := animList.getD 3 ""
        animsDetected := true }
    else s

/-- The loop of lines 831-834: disable every named move animation. -/
def disableAll (animList : List String) (ac : AnimationController) : AnimationController :=
  animList.foldl (fun ac n => if n != "" then ac.DisableAnimation n (25 / 100) else ac) ac

/-- The loop of lines 851-854: disable the other move animations that are active. -/
def disableOthers (animList : List String) (animName : String) (ac : AnimationController) :
    AnimationController :=
  animList.foldl
    (fun ac n =>
      if n != animName && n != "" && ac.IsAnimationActive n then ac.DisableAnimation n (25 / 100)
      else ac)
    ac

/-- The block of lines 841-855: give the hover clip its fixed rate, enable the
replicated move animation unless it is active already, disable the others. -/
def enableMoveAnimation (s : SimpleAvatar) (animName : String)
    (animcontroller : AnimationController) : AnimationController :=
  let ac :=
    if animName == s.hoverAnimName then
      animcontroller.SetAnimationSpeed animName (Speed.lit (25 / 100))
    else animcontroller
  let ac :=
    if !ac.IsAnimationActive animName then ac.EnableAnimation animName true (25 / 100) false
    else ac
  disableOthers s.animList animName ac

/-- Script function `SimpleAvatar.prototype.CommonUpdateAnimation` (lines 811-863);
`IsHeadless` is `framework.IsHeadless()`.  The entity always carries its rigid
body, so of the guard `animcontroller == null || rigidbody == null` only the
first half can fire. -/
def CommonUpdateAnimation (s : SimpleAvatar) (_frametime : ℚ) (IsHeadless : Bool) :
    SimpleAvatar :=
  if !s.animsDetected then s
  else
    match s.me.animationcontroller with
    | none => s
    | some animcontroller =>
      if !s.me.dynamiccomponent.enableAnimation then
        s.withAnim (disableAll s.animList animcontroller)
      else
        let animName := animcontroller.animationState
        let ac :=
          if animName != "" && !IsHeadless then enableMoveAnimation s animName animcontroller
          else animcontroller
        let ac :=
          if animName != "" && ac.IsAnimationActive s.walkAnimName then
            ac.SetAnimationSpeed s.walkAnimName
              (Speed.horizontal s.me.rigidbody.linearVelocity walkAnimSpeed)
          else ac
        s.withAnim ac

/-- Script function `SimpleAvatar.prototype.ServerUpdate` (lines 154-172). -/
def ServerUpdate (s : SimpleAvatar) (frametime : ℚ) (IsHeadless : Bool) : SimpleAvatar :=
  let s := if !s.animsDetected then CommonFindAnimations s else s
  let s := if !s.me.dynamiccomponent.enableWalk then { s with motionX := 0, motionZ := 0 } else s
  let s := if s.flying && !s.me.dynamiccomponent.enableFly then ServerSetFlying s false else s
  CommonUpdateAnimation s frametime IsHeadless

/-! ## Client side: zoom -/

/-- A camera component. -/
structure Camera where
  active : Bool
deriving DecidableEq, Repr

/-- The entity found by `scene.EntityByName("AvatarCamera")`. -/
structure CameraEntity where
  camera : Option Camera
deriving DecidableEq, Repr

/-- The part of the global `scene` the script looks at. -/
structure Scene where
  AvatarCamera : Option CameraEntity
deriving DecidableEq, Repr

/-- Script function `SimpleAvatar.prototype.IsCameraActive` (lines 389-395). -/
def IsCameraActive (scene : Scene) : Bool :=
  match scene.AvatarCamera with
  | none => false
  | some cameraEntity =>
    match cameraEntity.camera with
    | none => false
    | some camera => camera.active

/-- Script function `SimpleAvatar.prototype.ClientZoom` (lines 586-621). -/
def ClientZoom (s : SimpleAvatar) (scene : Scene) (relativeScroll : ℚ) : SimpleAvatar :=
  let attrs := s.me.dynamiccomponent
  if !attrs.enableZoom then s
  else
    let avatarCameraDistance := attrs.cameraDistance
    if !IsCameraActive scene then s
    else
      let moveAmount : ℚ :=
        if relativeScroll < 0 && avatarCameraDistance < 500 then
          (if relativeScroll < -50 then 2 else 1)
        else if relativeScroll > 0 && avatarCameraDistance > 0 then
          (if relativeScroll > 50 then -2 else -1)
        else 0
      if moveAmount != 0 then
        let avatarCameraDistance := avatarCameraDistance + moveAmount
        let avatarCameraDistance :=
          if avatarCameraDistance < -(1 / 2) then -(1 / 2)
          else if avatarCameraDistance > 500 then 500
          else avatarCameraDistance
        s.withAttrs (attrs.setCameraDistance avatarCameraDistance)
      else s

/-! ## Construction -/

/-- The field initialisation of the constructor `SimpleAvatar(entity, comp)`
(lines 12-52), before the role-specific initialisation. -/
def construct (entity : Entity) (isServer : Bool) : SimpleAvatar :=
  { me := entity
    motionX := 0
    motionY := 0
    motionZ := 0
    yaw := Yaw.number 0
    pitch := 0
    rotate := 0
    isServer := isServer
    ownAvatar := false
    flying := false
    falling := false
    crosshair := none
    isMouseLookLockedOnX := true
    standAnimName := "Stand"
    walkAnimName := "Walk"
    flyAnimName := "Fly"
    hoverAnimName := "Hover"
    animList := ["Stand", "Walk", "Fly", "Hover"]
    animsDetected := false
    listenGesture := false }

/-- Script function `SimpleAvatar.prototype.ServerInitialize` (lines 79-152): the body gets the
avatar mass and the capability attributes get their defaults.  The appearance
reference, the collision shape and the signal connections have no state here. -/
def ServerInitialize (s : SimpleAvatar) : SimpleAvatar :=
  let s := s.withBody (s.me.rigidbody.setMass avatarMass)
  s.withAttrs
    { s.me.dynamiccomponent with
      enableWalk := true
      enableJump := true
      enableFly := true
      enableRotate := true
      enableAnimation := true
      enableZoom := true
      cameraDistance := 7 }

/-- The server's script object right after construction on `entity`. -/
def serverInit (entity : Entity) : SimpleAvatar :=
  ServerInitialize (construct entity true)

/-! ## Server runs -/

/-- What can happen to a server-side avatar: the four actions of the action
channel, the two periodic updates, the collision signal, and the writes that
other parties make to the entity's components. -/
inductive ServerEvent where
  /-- Action `Move(param)`. -/
  | Move (param : String)
  /-- Action `Stop(param)`. -/
  | Stop (param : String)
  /-- Action `ToggleFly()`. -/
  | ToggleFly
  /-- Action `SetRotation(param)`. -/
  | SetRotation (param : String)
  /-- Signal `frame.Updated`. -/
  | Update (frametime : ℚ) (IsHeadless : Bool)
  /-- Signal `scene.physics.Updated`. -/
  | UpdatePhysics (frametime : ℚ)
  /-- Signal `rigidbody.PhysicsCollision`. -/
  | Collision (newCollision : Bool)
  /-- Either side writes the capability flags and the camera distance. -/
  | WriteCapabilities (enableWalk enableJump enableFly enableRotate enableAnimation
      enableZoom : Bool) (cameraDistance : ℚ)
  /-- The physics engine integrates the body: new velocity and activity. -/
  | PhysicsEngine (linearVelocity : float3) (active : Bool)
  /-- The avatar asset creates the animation controller (no clips yet). -/
  | CreateAnimationController
  /-- The skeleton finishes loading: the clips it contains become available. -/
  | SkeletonLoaded (availableAnimations : List String)
deriving DecidableEq, Repr

/-- One step of a server run. -/
def ServerEvent.apply (s : SimpleAvatar) : ServerEvent → SimpleAvatar
  | ServerEvent.Move param => ServerHandleMove s param
  | ServerEvent.Stop param => ServerHandleStop s param
  | ServerEvent.ToggleFly => ServerHandleToggleFly s
  | ServerEvent.SetRotation param => ServerHandleSetRotation s param
  | ServerEvent.Update frametime IsHeadless => ServerUpdate s frametime IsHeadless
  | ServerEvent.UpdatePhysics frametime => ServerUpdatePhysics s frametime
  | ServerEvent.Collision newCollision => ServerHandleCollision s newCollision
  | ServerEvent.WriteCapabilities w j f r a z d =>
    s.withAttrs
      { s.me.dynamiccomponent with
        enableWalk := w
        enableJump := j
        enableFly := f
        enableRotate := r
        enableAnimation := a
        enableZoom := z
        cameraDistance := d }
  | ServerEvent.PhysicsEngine v a =>
    s.withBody { s.me.rigidbody with linearVelocity := v, active := a }
  | ServerEvent.CreateAnimationController =>
    match s.me.animationcontroller with
    | none =>
      s.withAnim
        { animationState := "", availableAnimations := [], activeAnimations := [], calls := [] }
    | some _ => s
  | ServerEvent.SkeletonLoaded names =>
    match s.me.animationcontroller with
    | none => s
    | some ac => s.withAnim { ac with availableAnimations := names }

/-- A server run: the events are handled one after the other. -/
def serverRun (s : SimpleAvatar) (events : List ServerEvent) : SimpleAvatar :=
  events.foldl ServerEvent.apply s

/-! ## Client side: view controller -/

/-- Remote invocations issued with `this.me.Exec(EntityAction.Server, ...)`. -/
inductive EntityAction where
  | Move (param : String)
  | Stop (param : String)
  | ToggleFly
  /-- The action `SetRotation` with parameter `yaw.toString()`. -/
  | SetRotation (yaw : Yaw)
deriving DecidableEq, Repr

/-- The transform assigned to the camera entity's placeable. -/
structure CameraTransform where
  rot : float3
  pos : float3
deriving DecidableEq, Repr

/-- A viewer: the script object of an avatar on a client, together with the
globals its client-side functions read and write.  `mouseCursorVisible` is
`input.IsMouseCursorVisible()`; `overrideCursor` tells whether the application
shows the crosshair cursor; `headBone` is the derived position of the bone
`Bip01_Head` when the avatar has a mesh; `cameraTransform` is the last transform
written to the camera; `sent` lists the remote invocations in order;
`listenGesture` is the script engine's global variable of that name. -/
structure Client where
  avatar : SimpleAvatar
  scene : Scene
  IsHeadless : Bool
  mouseCursorVisible : Bool
  overrideCursor : Bool
  headBone : Option float3
  cameraTransform : Option CameraTransform
  sent : List EntityAction
  listenGesture : Option Bool
deriving DecidableEq, Repr

/-- Key codes the script distinguishes. -/
inductive Key where
  | W | S | A | D | Up | Down | F | Space | C | Plus | Minus | Left | Right | Other
deriving DecidableEq, Repr

/-- Kinds of key event. -/
inductive KeyEventType where
  | KeyEventInvalid | KeyPressed | KeyDown | KeyReleased
deriving DecidableEq, Repr

/-- A key event of the input context. -/
structure KeyEvent where
  keyCode : Key
  eventType : KeyEventType
deriving DecidableEq, Repr

/-- A mouse-move event; `rightButtonDown` is `IsRightButtonDown()`. -/
structure MouseEvent where
  relativeX : Int
  relativeY : Int
  rightButtonDown : Bool
deriving DecidableEq, Repr

/-- Kinds of gesture. -/
inductive GestureType where
  | PanGesture | PinchGesture | Other
deriving DecidableEq, Repr

/-- A gesture event: the pan gesture's total offset as a point, the pinch
gesture's scale factors.  Of the pan gesture's last delta the script reads only
the property `delta.x`, which is the point's method and not a coordinate. -/
structure GestureEvent where
  gestureType : GestureType
  offsetX : Int
  offsetY : Int
  scaleFactor : ℚ
  lastScaleFactor : ℚ
deriving DecidableEq, Repr

/-- The call `this.me.Exec(EntityAction.Server, ...)`. -/
def Client.Exec (c : Client) (a : EntityAction) : Client :=
  { c with sent := c.sent ++ [a] }

/-- Modelled from the spec: `crosshair.hide()` of `crosshair.js`, which is not
among the sources.  Leaving first person the viewer is to "restore the cursor
and hide the crosshair". -/
def Client.hideCrosshair (c : Client) : Client :=
  { c with
    avatar := { c.avatar with
      crosshair := c.avatar.crosshair.map (fun ch => { ch with active := false }) }
    mouseCursorVisible := true
    overrideCursor := false }

/-- Modelled from the spec: `crosshair.show()` of `crosshair.js`, which is not
among the sources; the crosshair visual becomes active. -/
def Client.showCrosshair (c : Client) : Client :=
  { c with
    avatar := { c.avatar with
      crosshair := c.avatar.crosshair.map (fun ch => { ch with active := true }) } }

/-- Script function `SimpleAvatar.prototype.ClientHandleRotate` (lines 623-628). -/
def ClientHandleRotate (s : SimpleAvatar) (param : String) : SimpleAvatar :=
  let s := if param == "left" then { s with rotate := -1 } else s
  let s := if param == "right" then { s with rotate := 1 } else s
  s

/-- Script function `SimpleAvatar.prototype.ClientHandleStopRotate` (lines 630-635). -/
def ClientHandleStopRotate (s : SimpleAvatar) (param : String) : SimpleAvatar :=
  let s := if param == "left" && s.rotate == -1 then { s with rotate := 0 } else s
  let s := if param == "right" && s.rotate == 1 then { s with rotate := 0 } else s
  s

/-- Script function `SimpleAvatar.prototype.ClientHandleKeyboardZoom` (lines 573-578). -/
def ClientHandleKeyboardZoom (c : Client) (direction : String) : Client :=
  if direction == "in" then { c with avatar := ClientZoom c.avatar c.scene 10 }
  else if direction == "out" then { c with avatar := ClientZoom c.avatar c.scene (-10) }
  else c

/-- Script function `SimpleAvatar.prototype.ClientHandleMouseScrollEvent` (lines 580-584). -/
def ClientHandleMouseScrollEvent (c : Client) (relativeZ : Int) : Client :=
  if IsCameraActive c.scene then { c with avatar := ClientZoom c.avatar c.scene relativeZ }
  else c

/-- The pattern shared by the movement keys of `ClientHandleKeyEvent`: a press
sends `Move(direction)`, a release sends `Stop(direction)`. -/
def moveKey (c : Client) (e : KeyEvent) (direction : String) : Client :=
  if e.eventType == KeyEventType.KeyPressed then c.Exec (EntityAction.Move direction)
  else if e.eventType == KeyEventType.KeyReleased then c.Exec (EntityAction.Stop direction)
  else c

/-- Script function `SimpleAvatar.prototype.ClientHandleKeyEvent` (lines 426-485). -/
def ClientHandleKeyEvent (c : Client) (e : KeyEvent) : Client :=
  if !IsCameraActive c.scene then c
  else
    match e.keyCode with
    | Key.W => moveKey c e "forward"
    | Key.S => moveKey c e "back"
    | Key.A => moveKey c e "left"
    | Key.D => moveKey c e "right"
    | Key.Up => moveKey c e "forward"
    | Key.Down => moveKey c e "back"
    | Key.F =>
      if e.eventType == KeyEventType.KeyPressed then c.Exec EntityAction.ToggleFly else c
    | Key.Space => moveKey c e "up"
    | Key.C => moveKey c e "down"
    | Key.Plus =>
      if e.eventType == KeyEventType.KeyPressed then ClientHandleKeyboardZoom c "in" else c
    | Key.Minus =>
      if e.eventType == KeyEventType.KeyPressed then ClientHandleKeyboardZoom c "out" else c
    | Key.Left =>
      if e.eventType == KeyEventType.KeyPressed then
        { c with avatar := ClientHandleRotate c.avatar "left" }
      else if e.eventType == KeyEventType.KeyReleased then
        { c with avatar := ClientHandleStopRotate c.avatar "left" }
      else c
    | Key.Right =>
      if e.eventType == KeyEventType.KeyPressed then
        { c with avatar := ClientHandleRotate c.avatar "right" }
      else if e.eventType == KeyEventType.KeyReleased then
        { c with avatar := ClientHandleStopRotate c.avatar "right" }
      else c
    | Key.Other => c

/-- Script function `SimpleAvatar.prototype.ClientUpdateRotation` (lines 637-647). -/
def ClientUpdateRotation (c : Client) (frametime : ℚ) : Client :=
  if !c.avatar.me.dynamiccomponent.enableRotate then c
  else if c.avatar.rotate != 0 then
    let c := { c with avatar := { c.avatar with
      yaw := c.avatar.yaw.sub (rotateSpeed * c.avatar.rotate * frametime) } }
    c.Exec (EntityAction.SetRotation c.avatar.yaw)
  else c

/-- Script function `SimpleAvatar.prototype.ClientCheckState` (lines 682-722).
The result is `error` when the script engine raises a TypeError, which happens
at `cameraentity.camera.IsActive()` when the camera entity has no camera
component; the state carried is the one reached. -/
def ClientCheckState (c : Client) : Except Client Client :=
  let firstPerson := c.avatar.me.dynamiccomponent.cameraDistance < 0
  match c.avatar.crosshair with
  | none => Except.ok c
  | some crosshair =>
    match c.scene.AvatarCamera with
    | none => Except.ok (if crosshair.active then c.hideCrosshair else c)
    | some cameraentity =>
      if !firstPerson then Except.ok (if crosshair.active then c.hideCrosshair else c)
      else
        match cameraentity.camera with
        | none => Except.error c
        | some camera =>
          if !camera.active then Except.ok (if crosshair.active then c.hideCrosshair else c)
          else Except.ok (if !crosshair.active then c.showCrosshair else c)

/-- Script function `SimpleAvatar.prototype.ClientUpdateAvatarCamera` (lines
649-680); a TypeError of `ClientCheckState` ends it. -/
def ClientUpdateAvatarCamera (c : Client) : Except Client Client :=
  match ClientCheckState c with
  | Except.error c => Except.error c
  | Except.ok c =>
    let avatarCameraDistance := c.avatar.me.dynamiccomponent.cameraDistance
    let firstPerson := avatarCameraDistance < 0
    match c.scene.AvatarCamera with
    | none => Except.ok c
    | some _ =>
      let rot : float3 := ⟨c.avatar.pitch, 0, 0⟩
      let pos : float3 := ⟨0, avatarCameraHeight, avatarCameraDistance⟩
      let pos : float3 :=
        match c.headBone with
        | some headPos =>
          if firstPerson then ⟨headPos.x, headPos.y - 7 / 10, headPos.z - 5 / 10⟩ else pos
        | none => pos
      Except.ok { c with cameraTransform := some { rot := rot, pos := pos } }

/-- The lines 405-408 of `ClientUpdate`: detect the clips if that is still to do,
then update the move animation. -/
def updateAnimation (c : Client) (frametime : ℚ) : Client :=
  let s := if !c.avatar.animsDetected then CommonFindAnimations c.avatar else c.avatar
  { c with avatar := CommonUpdateAnimation s frametime c.IsHeadless }

/-- Script function `SimpleAvatar.prototype.ClientUpdate` (lines 397-409); a
TypeError in the camera update ends the frame handler. -/
def ClientUpdate (c : Client) (frametime : ℚ) : Client :=
  let r :=
    if c.avatar.ownAvatar then ClientUpdateAvatarCamera (ClientUpdateRotation c frametime)
    else Except.ok c
  match r with
  | Except.error c => c
  | Except.ok c => updateAnimation c frametime

/-- Script function `SimpleAvatar.prototype.LockMouseMove` (lines 777-782). -/
def LockMouseMove (s : SimpleAvatar) (x y : Int) : SimpleAvatar :=
  if |y| > |x| then { s with isMouseLookLockedOnX := false }
  else { s with isMouseLookLockedOnX := true }

/-- The pitch update of lines 767-773: subtract the scaled vertical delta, then
keep the pitch within 90 degrees either way. -/
def lookUpDown (s : SimpleAvatar) (relativeY : Int) : SimpleAvatar :=
  let s := { s with pitch := s.pitch - mouseRotateSensitivity * relativeY }
  let s := if s.pitch < -90 then { s with pitch := -90 } else s
  let s := if s.pitch > 90 then { s with pitch := 90 } else s
  s

/-- The block of lines 728-733 of `ClientHandleMouseMove`: entering first
person hides the cursor.  The read `this.crosshair.isUsingLabel` raises a
TypeError when there is no crosshair object (`error`, with the state reached).
Modelled from the spec: the call `QApplication.setOverrideCursor(crosshair.cursor)`
"substitutes a crosshair visual" (`crosshair.js` is not among the sources). -/
def enterFirstPerson (c : Client) (firstPerson : Bool) : Except Client Client :=
  if firstPerson && c.mouseCursorVisible then
    let c := { c with mouseCursorVisible := false }
    match c.avatar.crosshair with
    | none => Except.error c
    | some crosshair =>
      if !crosshair.isUsingLabel then Except.ok { c with overrideCursor := true }
      else Except.ok c
  else Except.ok c

/-- The block of lines 756-774 of `ClientHandleMouseMove`: a horizontal delta
turns the avatar, a vertical delta changes the pitch unless the look is locked
on the horizontal axis in third person. -/
def rotateAndLook (c : Client) (firstPerson : Bool) (mouseevent : MouseEvent) : Client :=
  let c :=
    if mouseevent.relativeX != 0 then
      let c := { c with avatar := { c.avatar with
        yaw := c.avatar.yaw.sub (mouseRotateSensitivity * mouseevent.relativeX) } }
      c.Exec (EntityAction.SetRotation c.avatar.yaw)
    else c
  if mouseevent.relativeY != 0 && (firstPerson || !c.avatar.isMouseLookLockedOnX) then
    { c with avatar := lookUpDown c.avatar mouseevent.relativeY }
  else c

/-- The lines 743-746 of `ClientHandleMouseMove`: decide the axis lock. -/
def decideLock (c : Client) (mouseevent : MouseEvent) : Client :=
  if mouseevent.rightButtonDown then
    { c with avatar := LockMouseMove c.avatar mouseevent.relativeX mouseevent.relativeY }
  else { c with avatar := { c.avatar with isMouseLookLockedOnX := true } }

/-- Script function `SimpleAvatar.prototype.ClientHandleMouseMove` (lines 724-775).
A TypeError (no crosshair object, or a camera entity without camera component)
ends the handler with the state reached. -/
def ClientHandleMouseMove (c : Client) (mouseevent : MouseEvent) : Client :=
  let attrs := c.avatar.me.dynamiccomponent
  let firstPerson : Bool := attrs.cameraDistance < 0
  match enterFirstPerson c firstPerson with
  | Except.error c => c
  | Except.ok c =>
    if !attrs.enableRotate then c
    else if !firstPerson && c.mouseCursorVisible then c
    else
      let c := decideLock c mouseevent
      match c.scene.AvatarCamera with
      | none => c
      | some cameraentity =>
        match cameraentity.camera with
        | none => c
        | some camera =>
          if !camera.active then c
          else rotateAndLook c firstPerson mouseevent

/-- Script function `SimpleAvatar.prototype.GestureStarted` (lines 509-526). -/
def GestureStarted (c : Client) (gestureEvent : GestureEvent) : Client :=
  if !IsCameraActive c.scene then c
  else if gestureEvent.gestureType == GestureType.PanGesture then
    let c := { c with avatar := { c.avatar with listenGesture := true } }
    if c.avatar.me.dynamiccomponent.enableRotate then
      let c := { c with avatar := { c.avatar with yaw := c.avatar.yaw.add gestureEvent.offsetX } }
      c.Exec (EntityAction.SetRotation c.avatar.yaw)
    else c
  else c

/-- Script function `SimpleAvatar.prototype.GestureUpdated` (lines 528-571).  The
read `this.me.animationcontroller.animationState` raises a TypeError when the
entity has no animation controller; the handler ends with the state reached.
Line 536 adds the method `delta.x` itself to the yaw, which becomes a string.
Line 551 assigns the global variable `listenGesture`, line 560 the field
`this.listenGesture`. -/
def GestureUpdated (c : Client) (gestureEvent : GestureEvent) : Client :=
  if !IsCameraActive c.scene then c
  else if gestureEvent.gestureType == GestureType.PanGesture && c.avatar.listenGesture == true then
    let c := { c with avatar := { c.avatar with yaw := c.avatar.yaw.addMethod } }
    let c := c.Exec (EntityAction.SetRotation c.avatar.yaw)
    match c.avatar.me.animationcontroller with
    | none => c
    | some animationcontroller =>
      let walking := animationcontroller.animationState == c.avatar.walkAnimName
      if gestureEvent.offsetY < -100 then
        let c :=
          if walking then
            (c.Exec (EntityAction.Stop "forward")).Exec (EntityAction.Stop "back")
          else c.Exec (EntityAction.Move "forward")
        { c with listenGesture := some false }
      else if gestureEvent.offsetY > 100 then
        let c :=
          if walking then
            (c.Exec (EntityAction.Stop "forward")).Exec (EntityAction.Stop "back")
          else c.Exec (EntityAction.Move "back")
        { c with avatar := { c.avatar with listenGesture := false } }
      else c
  else if gestureEvent.gestureType == GestureType.PinchGesture then
    let scaleChange := gestureEvent.scaleFactor - gestureEvent.lastScaleFactor
    if scaleChange > 1 / 10 || scaleChange < -(1 / 10) then
      { c with avatar := ClientZoom c.avatar c.scene (scaleChange * 100) }
    else c
  else c

/-- Script function `SimpleAvatar.prototype.ClientCreateAvatarCamera` (lines
487-507): the camera entity exists afterwards, has a camera component, and that
camera is active; the camera transform gets its first value. -/
def ClientCreateAvatarCamera (c : Client) : Client :=
  let c := { c with scene := { AvatarCamera := some { camera := some { active := true } } } }
  match ClientUpdateAvatarCamera c with
  | Except.error c => c
  | Except.ok c => c

/-- Script function `SimpleAvatar.prototype.ClientInitialize` (lines 334-387);
`connectionId` is `client.connectionId`.  The input context, the sound listener
and the name tag of other users' avatars have no state here. -/
def ClientInitialize (c : Client) (connectionId : Nat) : Client :=
  if c.avatar.me.name == "Avatar" ++ toString connectionId then
    let c := { c with avatar := { c.avatar with ownAvatar := true } }
    let c := ClientCreateAvatarCamera c
    if !c.IsHeadless then
      { c with avatar := { c.avatar with
          crosshair := some { active := false, isUsingLabel := true } } }
    else c
  else c

/-- The viewer right after the script object is constructed on `entity`, on a
client whose globals are `world` (its `avatar` field is replaced). -/
def clientInit (entity : Entity) (connectionId : Nat) (world : Client) : Client :=
  ClientInitialize { world with avatar := construct entity false } connectionId

/-! ## Client runs -/

/-- What can happen to a viewer: the input signals the script connects to, the
frame update, and changes made by other parties (replication of the avatar
entity from the server, other scripts changing the scene, the cursor or the
mesh). -/
inductive ClientEvent where
  /-- Signal `KeyEventReceived`. -/
  | KeyEventReceived (e : KeyEvent)
  /-- Signal `MouseMove`. -/
  | MouseMove (e : MouseEvent)
  /-- Signal `MouseRightPressed`. -/
  | MouseRightPressed
  /-- Signal `MouseRightReleased`. -/
  | MouseRightReleased
  /-- Signal `MouseScroll`. -/
  | MouseScroll (relativeZ : Int)
  /-- Signal `GestureStarted`. -/
  | GestureStarted (e : GestureEvent)
  /-- Signal `GestureUpdated`. -/
  | GestureUpdated (e : GestureEvent)
  /-- Signal `frame.Updated`. -/
  | Update (frametime : ℚ)
  /-- The avatar entity's components change by replication. -/
  | Replicated (entity : Entity)
  /-- Another party changes the scene's camera entity. -/
  | SceneChanged (scene : Scene)
  /-- Another party shows or hides the mouse cursor. -/
  | CursorChanged (visible : Bool)
  /-- The avatar's mesh, and with it the head bone position, changes. -/
  | MeshChanged (headBone : Option float3)
deriving DecidableEq, Repr

/-- One step of a client run; the right-button handlers are the two anonymous
functions of lines 419-420. -/
def ClientEvent.apply (c : Client) : ClientEvent → Client
  | ClientEvent.KeyEventReceived e => ClientHandleKeyEvent c e
  | ClientEvent.MouseMove e => ClientHandleMouseMove c e
  | ClientEvent.MouseRightPressed =>
    if IsCameraActive c.scene then { c with mouseCursorVisible := false } else c
  | ClientEvent.MouseRightReleased =>
    if IsCameraActive c.scene then { c with mouseCursorVisible := true } else c
  | ClientEvent.MouseScroll relativeZ => ClientHandleMouseScrollEvent c relativeZ
  | ClientEvent.GestureStarted e => Tundra.GestureStarted c e
  | ClientEvent.GestureUpdated e => Tundra.GestureUpdated c e
  | ClientEvent.Update frametime => ClientUpdate c frametime
  | ClientEvent.Replicated entity => { c with avatar := { c.avatar with me := entity } }
  | ClientEvent.SceneChanged scene => { c with scene := scene }
  | ClientEvent.CursorChanged visible => { c with mouseCursorVisible := visible }
  | ClientEvent.MeshChanged headBone => { c with headBone := headBone }

/-- A client run: the events are handled one after the other. -/
def clientRun (c : Client) (events : List ClientEvent) : Client :=
  events.foldl ClientEvent.apply c

/-! ## Vocabulary of the statements -/

/-- The three motion axes of the locomotion state. -/
inductive Axis where
  | X | Y | Z
deriving DecidableEq, Repr

/-- The direction label whose Move sets the component to `1`. -/
def Axis.positive : Axis → String
  | Axis.X => "right"
  | Axis.Y => "up"
  | Axis.Z => "forward"

/-- The direction label whose Move sets the component to `-1`. -/
def Axis.negative : Axis → String
  | Axis.X => "left"
  | Axis.Y => "down"
  | Axis.Z => "back"

/-- The motion component of an axis. -/
def Axis.component : Axis → SimpleAvatar → Int
  | Axis.X, s => s.motionX
  | Axis.Y, s => s.motionY
  | Axis.Z, s => s.motionZ

/-- The sign associated with a direction label of the axis. -/
def Axis.sign (a : Axis) (param : String) : Int :=
  if param = a.positive then 1 else if param = a.negative then -1 else 0

/-- The label is one of the two directions of the axis. -/
def Axis.names (a : Axis) (param : String) : Bool :=
  param == a.positive || param == a.negative

/-- The event is a `Move` action. -/
def ServerEvent.isMove : ServerEvent → Bool
  | ServerEvent.Move _ => true
  | _ => false

/-- The event is a `Move` or `Stop` action naming a direction of the axis. -/
def ServerEvent.onAxis (a : Axis) : ServerEvent → Bool
  | ServerEvent.Move param => a.names param
  | ServerEvent.Stop param => a.names param
  | _ => false

/-- An entity as the scene hands it to the script: attributes and body not yet set up. -/
def exampleEntity : Entity :=
  { name := "Avatar1"
    dynamiccomponent :=
      { enableWalk := false, enableJump := false, enableFly := false, enableRotate := false,
        enableAnimation := false, enableZoom := false, cameraDistance := 0, calls := [] }
    animationcontroller := none
    rigidbody := { mass := 0, linearVelocity := ⟨0, 0, 0⟩, active := false, calls := [] }
    placeable := { offsets := [] } }

/-- State `t` differs from `s` at most in the motion intents and the animation controller. -/
def MotionFrame (s t : SimpleAvatar) : Prop :=
  ∃ x y z oc, t = { s with motionX := x, motionY := y, motionZ := z,
                           me := { s.me with animationcontroller := oc } }

/-- One zoom request: the value of `enableZoom` when the call is made, the
scene at that moment, and the scroll magnitude. -/
structure ZoomCall where
  enableZoom : Bool
  scene : Scene
  relativeScroll : ℚ
deriving DecidableEq, Repr

/-- A sequence of `ClientZoom` calls; `enableZoom` may have been rewritten before each. -/
def zoomRun (s : SimpleAvatar) (calls : List ZoomCall) : SimpleAvatar :=
  calls.foldl
    (fun s c =>
      ClientZoom (s.withAttrs { s.me.dynamiccomponent with enableZoom := c.enableZoom })
        c.scene c.relativeScroll)
    s

/-- The camera distance lies in `[-0.5, 500]`. -/
def cameraDistanceInRange (s : SimpleAvatar) : Prop :=
  -(1 / 2) ≤ s.me.dynamiccomponent.cameraDistance ∧ s.me.dynamiccomponent.cameraDistance ≤ 500

/-- A scene whose avatar camera exists and is the active camera. -/
def activeScene : Scene := { AvatarCamera := some { camera := some { active := true } } }

/-- The owning client's script object on the replicated avatar entity. -/
def clientExample : SimpleAvatar := construct (serverInit exampleEntity).me false


/-- The four move clips. -/
def moveClips : List String := ["Stand", "Walk", "Fly", "Hover"]

/-- The move clips the animation player reports as active. -/
def activeMoveClips (ac : AnimationController) : List String :=
  moveClips.filter (fun n => ac.IsAnimationActive n)

/-- A server avatar whose animation controller exists and whose skeleton, with
all four move clips, has been loaded and detected. -/
def detectedAvatar : SimpleAvatar :=
  serverRun (serverInit exampleEntity)
    [ServerEvent.CreateAnimationController,
     ServerEvent.SkeletonLoaded ["Stand", "Walk", "Fly", "Hover"],
     ServerEvent.Update 0 false]

/-- The detected avatar while it walks forward, the stand clip still playing. -/
def walkingAvatar : SimpleAvatar :=
  (serverRun detectedAvatar [ServerEvent.Move "forward"]).withAnim
    { animationState := "Walk"
      availableAnimations := ["Stand", "Walk", "Fly", "Hover"]
      activeAnimations := ["Stand"]
      calls := [] }

/-- The number of jump impulses `(0, 75, 0)` the body has received. -/
def jumpImpulses (s : SimpleAvatar) : Nat :=
  s.me.rigidbody.calls.count (BodyCall.ApplyImpulse jumpVec)

/-- The event is a fly toggle or a collision notification. -/
def ServerEvent.isToggleOrCollision : ServerEvent → Bool
  | ServerEvent.ToggleFly => true
  | ServerEvent.Collision _ => true
  | _ => false

/-- The event is a Move or a Stop call. -/
def ServerEvent.isMoveOrStop : ServerEvent → Bool
  | ServerEvent.Move _ => true
  | ServerEvent.Stop _ => true
  | _ => false

/-- A run in which a Move is handled between the creation of the animation
controller and the arrival of a skeleton that has no walk clip. -/
def staleWalkRun : List ServerEvent :=
  [ServerEvent.CreateAnimationController,
   ServerEvent.Move "forward",
   ServerEvent.SkeletonLoaded ["Stand", "Fly", "Hover"],
   ServerEvent.Update 0 false]

/-- The event is a capability write that sets `enableFly` to false. -/
def ServerEvent.turnsFlyOff : ServerEvent → Bool
  | ServerEvent.WriteCapabilities _ _ enableFly _ _ _ _ => !enableFly
  | _ => false

/-- The event is a fly toggle or a frame update, the two places where the
script compares `flying` with `enableFly`. -/
def ServerEvent.checksFly : ServerEvent → Bool
  | ServerEvent.ToggleFly => true
  | ServerEvent.Update _ _ => true
  | _ => false

/-- The role the resolver is specified to pick, by name: Fly or Hover when flying
or falling, Walk or Stand otherwise. -/
def specifiedRole (s : SimpleAvatar) : String :=
  if s.flying = true ∨ s.falling = true then
    (if s.motionZ ≠ 0 then "Fly" else "Hover")
  else if s.motionX ≠ 0 ∨ s.motionZ ≠ 0 then "Walk"
  else "Stand"

/-- The replicated `animationState`, empty when there is no animation controller. -/
def animationState (s : SimpleAvatar) : String :=
  match s.me.animationcontroller with
  | none => ""
  | some ac => ac.animationState

/-- The gate on flight: `flying` is true only if `enableFly` is true. -/
def flyingGated (s : SimpleAvatar) : Prop :=
  s.flying = true → s.me.dynamiccomponent.enableFly = true

/-- The client's script object with the camera distance set to `d`. -/
def clientAt (d : ℚ) : SimpleAvatar :=
  clientExample.withAttrs { clientExample.me.dynamiccomponent with cameraDistance := d }

/-- The step the zoom is specified to add for a scroll magnitude: one unit, two
when the magnitude exceeds 50, positive for a negative scroll. -/
def zoomStep (r : ℚ) : ℚ :=
  if r < 0 then (if r < -50 then 2 else 1)
  else if 0 < r then (if 50 < r then -2 else -1)
  else 0

/-- The clamp of a distance to `[-0.5, 500]`. -/
def clampDistance (d : ℚ) : ℚ :=
  if d < -(1 / 2) then -(1 / 2) else if 500 < d then 500 else d

/-- A server avatar whose skeleton was loaded without a walk clip and detected. -/
def noWalkAvatar : SimpleAvatar :=
  serverRun (serverInit exampleEntity)
    [ServerEvent.CreateAnimationController,
     ServerEvent.SkeletonLoaded ["Stand", "Fly", "Hover"],
     ServerEvent.Update 0 false]

/-- The state a script function reached, whether it finished or was stopped. -/
def reached : Except Client Client → Client
  | Except.ok c => c
  | Except.error c => c

/-- The globals of a client before any avatar script runs: an empty scene, a
visible cursor, no mesh yet.  The `avatar` field is a placeholder. -/
def exampleWorld : Client :=
  { avatar := construct exampleEntity false
    scene := { AvatarCamera := none }
    IsHeadless := false
    mouseCursorVisible := true
    overrideCursor := false
    headBone := none
    cameraTransform := none
    sent := []
    listenGesture := none }

/-- The viewer of the user's own avatar, all four move clips loaded, the
controller's replicated state being Stand. -/
def ownClient : Client :=
  clientInit
    { (serverInit exampleEntity).me with
      animationcontroller := some
        { animationState := "Stand", availableAnimations := ["Stand", "Walk", "Fly", "Hover"],
          activeAnimations := [], calls := [] } }
    1 exampleWorld

/-- A pan gesture event with the given total vertical offset. -/
def panEvent (offsetY : Int) : GestureEvent :=
  { gestureType := GestureType.PanGesture, offsetX := 0, offsetY := offsetY,
    scaleFactor := 1, lastScaleFactor := 1 }

/-- The remote invocation is a `Move` or a `Stop`. -/
def EntityAction.isMoveOrStop : EntityAction → Bool
  | EntityAction.Move _ => true
  | EntityAction.Stop _ => true
  | _ => false

/-- The `Move` and `Stop` invocations a viewer has sent, in order. -/
def Client.movesSent (c : Client) : List EntityAction :=
  c.sent.filter EntityAction.isMoveOrStop

/-- A motion intent is one of -1, 0, 1. -/
def isUnit (m : Int) : Prop := m = -1 ∨ m = 0 ∨ m = 1

/-- Each of the three motion components is one of -1, 0, 1. -/
def motionUnit (s : SimpleAvatar) : Prop :=
  isUnit s.motionX ∧ isUnit s.motionY ∧ isUnit s.motionZ

/-- The body's mass is 0 while flying and `avatarMass` otherwise. -/
def massTracksFlying (s : SimpleAvatar) : Prop :=
  s.me.rigidbody.mass = if s.flying then 0 else avatarMass

/-- The outcome of clip detection held by the script object: the four role
names, the animation list and the detection flag. -/
def roleNames (s : SimpleAvatar) : String × String × String × String × List String × Bool :=
  (s.standAnimName, s.walkAnimName, s.flyAnimName, s.hoverAnimName, s.animList, s.animsDetected)

/-- Until detection has run, the animation list still holds the four expected names. -/
def detectionPending (s : SimpleAvatar) : Prop :=
  s.animsDetected = false → s.animList = ["Stand", "Walk", "Fly", "Hover"]

/-! ## Frame lemmas -/

theorem MotionFrame.refl (s : SimpleAvatar) : MotionFrame s s :=
  ⟨s.motionX, s.motionY, s.motionZ, s.me.animationcontroller, rfl⟩

theorem MotionFrame.trans {s t u : SimpleAvatar} (h₁ : MotionFrame s t) (h₂ : MotionFrame t u) :
    MotionFrame s u := by
  obtain ⟨x, y, z, oc, rfl⟩ := h₁
  obtain ⟨x', y', z', oc', rfl⟩ := h₂
  exact ⟨x', y', z', oc', rfl⟩

theorem ServerSetAnimationState_shape (s : SimpleAvatar) :
    ServerSetAnimationState s = s ∨ ∃ ac, ServerSetAnimationState s = s.withAnim ac := by
  unfold ServerSetAnimationState
  dsimp only
  generalize resolveAnimName s = animName
  split_ifs
  · exact Or.inl rfl
  · split
    · exact Or.inl rfl
    · split_ifs
      · exact Or.inr ⟨_, rfl⟩
      · exact Or.inl rfl

theorem ServerSetAnimationState_anim (s : SimpleAvatar) :
    ∃ oc, ServerSetAnimationState s = { s with me := { s.me with animationcontroller := oc } } := by
  rcases ServerSetAnimationState_shape s with h | ⟨ac, h⟩
  · exact ⟨s.me.animationcontroller, h⟩
  · exact ⟨some ac, h⟩

theorem ServerSetAnimationState_frame (s : SimpleAvatar) :
    MotionFrame s (ServerSetAnimationState s) := by
  obtain ⟨oc, h⟩ := ServerSetAnimationState_anim s
  exact ⟨s.motionX, s.motionY, s.motionZ, oc, h⟩

@[simp] theorem ServerSetAnimationState_motionX (s : SimpleAvatar) :
    (ServerSetAnimationState s).motionX = s.motionX := by
  obtain ⟨oc, h⟩ := ServerSetAnimationState_anim s; rw [h]
@[simp] theorem ServerSetAnimationState_motionY (s : SimpleAvatar) :
    (ServerSetAnimationState s).motionY = s.motionY := by
  obtain ⟨oc, h⟩ := ServerSetAnimationState_anim s; rw [h]
@[simp] theorem ServerSetAnimationState_motionZ (s : SimpleAvatar) :
    (ServerSetAnimationState s).motionZ = s.motionZ := by
  obtain ⟨oc, h⟩ := ServerSetAnimationState_anim s; rw [h]

theorem MotionFrame.setX (s : SimpleAvatar) (x : Int) : MotionFrame s { s with motionX := x } :=
  ⟨x, s.motionY, s.motionZ, s.me.animationcontroller, rfl⟩
theorem MotionFrame.setY (s : SimpleAvatar) (y : Int) : MotionFrame s { s with motionY := y } :=
  ⟨s.motionX, y, s.motionZ, s.me.animationcontroller, rfl⟩
theorem MotionFrame.setZ (s : SimpleAvatar) (z : Int) : MotionFrame s { s with motionZ := z } :=
  ⟨s.motionX, s.motionY, z, s.me.animationcontroller, rfl⟩

theorem MotionFrame.ite {s a b : SimpleAvatar} (c : Prop) [Decidable c]
    (ha : MotionFrame s a) (hb : MotionFrame s b) : MotionFrame s (if c then a else b) := by
  split_ifs <;> assumption

theorem param_cases (p : String) :
    p = "forward" ∨ p = "back" ∨ p = "right" ∨ p = "left" ∨ p = "up" ∨ p = "down" ∨
      (p ≠ "forward" ∧ p ≠ "back" ∧ p ≠ "right" ∧ p ≠ "left" ∧ p ≠ "up" ∧ p ≠ "down") := by
  tauto

theorem ServerHandleStop_frame (s : SimpleAvatar) (p : String) :
    MotionFrame s (ServerHandleStop s p) := by
  rcases param_cases p with rfl | rfl | rfl | rfl | rfl | rfl | ⟨h1, h2, h3, h4, h5, h6⟩
  · simp only [ServerHandleStop]; simp
    exact MotionFrame.trans (MotionFrame.ite _ (MotionFrame.setZ _ _) (MotionFrame.refl _)) (ServerSetAnimationState_frame _)
  · simp only [ServerHandleStop]; simp
    exact MotionFrame.trans (MotionFrame.ite _ (MotionFrame.setZ _ _) (MotionFrame.refl _)) (ServerSetAnimationState_frame _)
  · simp only [ServerHandleStop]; simp
    exact MotionFrame.trans (MotionFrame.ite _ (MotionFrame.setX _ _) (MotionFrame.refl _)) (ServerSetAnimationState_frame _)
  · simp only [ServerHandleStop]; simp
    exact MotionFrame.trans (MotionFrame.ite _ (MotionFrame.setX _ _) (MotionFrame.refl _)) (ServerSetAnimationState_frame _)
  · simp only [ServerHandleStop]; simp
    exact MotionFrame.trans (MotionFrame.ite _ (MotionFrame.setY _ _) (MotionFrame.refl _)) (ServerSetAnimationState_frame _)
  · simp only [ServerHandleStop]; simp
    exact MotionFrame.trans (MotionFrame.ite _ (MotionFrame.setY _ _) (MotionFrame.refl _)) (ServerSetAnimationState_frame _)
  · simp [ServerHandleStop, h1, h2, h3, h4, h5, h6]; exact ServerSetAnimationState_frame _



theorem ServerHandleMove_frame (s : SimpleAvatar) (p : String) :
    MotionFrame s (ServerHandleMove s p) := by
  rcases param_cases p with rfl | rfl | rfl | rfl | rfl | rfl | ⟨h1, h2, h3, h4, h5, h6⟩
  · simp only [ServerHandleMove]; simp
    exact MotionFrame.trans (MotionFrame.ite _ (MotionFrame.setZ _ _) (MotionFrame.refl _)) (ServerSetAnimationState_frame _)
  · simp only [ServerHandleMove]; simp
    exact MotionFrame.trans (MotionFrame.ite _ (MotionFrame.setZ _ _) (MotionFrame.refl _)) (ServerSetAnimationState_frame _)
  · simp only [ServerHandleMove]; simp
    exact MotionFrame.trans (MotionFrame.ite _ (MotionFrame.setX _ _) (MotionFrame.refl _)) (ServerSetAnimationState_frame _)
  · simp only [ServerHandleMove]; simp
    exact MotionFrame.trans (MotionFrame.ite _ (MotionFrame.setX _ _) (MotionFrame.refl _)) (ServerSetAnimationState_frame _)
  · simp only [ServerHandleMove]; simp
    exact MotionFrame.trans (MotionFrame.setY _ _) (ServerSetAnimationState_frame _)
  · simp only [ServerHandleMove]; simp
    exact MotionFrame.trans (MotionFrame.setY _ _) (ServerSetAnimationState_frame _)
  · simp [ServerHandleMove, h1, h2, h3, h4, h5, h6]; exact ServerSetAnimationState_frame _

theorem MotionFrame.attrs {s t : SimpleAvatar} (h : MotionFrame s t) :
    t.me.dynamiccomponent = s.me.dynamiccomponent := by
  obtain ⟨x, y, z, oc, rfl⟩ := h; rfl

theorem names_iff (a : Axis) (p : String) :
    a.names p = true ↔ p = a.positive ∨ p = a.negative := by
  simp [Axis.names]

theorem stop_component (a : Axis) (t : SimpleAvatar) (p : String) (hp : a.names p) :
    a.component (ServerHandleStop t p) = if a.component t = a.sign p then 0 else a.component t := by
  cases a <;> rcases (names_iff _ _).1 hp with rfl | rfl <;>
    simp [ServerHandleStop, Axis.component, Axis.sign, Axis.positive, Axis.negative] <;>
    split_ifs <;> rfl



theorem move_component (a : Axis) (t : SimpleAvatar) (p : String) (hp : a.names p)
    (hw : t.me.dynamiccomponent.enableWalk = true) :
    a.component (ServerHandleMove t p) = a.sign p := by
  cases a <;> rcases (names_iff _ _).1 hp with rfl | rfl <;>
    simp [ServerHandleMove, Axis.component, Axis.sign, Axis.positive, Axis.negative, hw]

theorem serverRun_append (s : SimpleAvatar) (l₁ l₂ : List ServerEvent) :
    serverRun s (l₁ ++ l₂) = serverRun (serverRun s l₁) l₂ := by
  simp [serverRun, List.foldl_append]

theorem serverRun_cons (s : SimpleAvatar) (e : ServerEvent) (l : List ServerEvent) :
    serverRun s (e :: l) = serverRun (ServerEvent.apply s e) l := rfl

theorem onAxis_attrs (a : Axis) : ∀ (events : List ServerEvent) (s : SimpleAvatar),
    (∀ e ∈ events, e.onAxis a) →
    (serverRun s events).me.dynamiccomponent = s.me.dynamiccomponent := by
  intro events
  induction events with
  | nil => intro s _; rfl
  | cons e rest ih =>
    intro s h
    rw [serverRun_cons, ih _ (fun e he => h e (List.mem_cons_of_mem _ he))]
    have he := h e (List.mem_cons_self _ _)
    cases e <;> simp [ServerEvent.onAxis] at he
    · exact (ServerHandleMove_frame s _).attrs
    · exact (ServerHandleStop_frame s _).attrs

theorem sign_ne (a : Axis) (p d : String) (hp : a.names p) (hd : a.names d) (hne : p ≠ d) :
    a.sign d ≠ a.sign p ∧ (0 : Int) ≠ a.sign p := by
  cases a <;> rcases (names_iff _ _).1 hp with rfl | rfl <;> rcases (names_iff _ _).1 hd with rfl | rfl <;>
    simp [Axis.sign, Axis.positive, Axis.negative] at hne ⊢

theorem sign_ne_zero (a : Axis) (d : String) (hd : a.names d) : a.sign d ≠ 0 := by
  cases a <;> rcases (names_iff _ _).1 hd with rfl | rfl <;> simp [Axis.sign, Axis.positive, Axis.negative]

theorem stops_component (a : Axis) (d : String) (hd : a.names d) :
    ∀ (events : List ServerEvent) (t : SimpleAvatar),
      (∀ e ∈ events, e.onAxis a ∧ e.isMove = false) →
      (a.component t = a.sign d ∨ a.component t = 0) →
      a.component (serverRun t events) =
        if a.component t = 0 ∨ ServerEvent.Stop d ∈ events then 0 else a.sign d := by
  intro events
  induction events with
  | nil =>
    intro t _ ht
    rcases ht with ht | ht
    · simp [serverRun, ht, sign_ne_zero a d hd]
    · simp [serverRun, ht]
  | cons e rest ih =>
    intro t h ht
    have he := h e (List.mem_cons_self _ _)
    have hrest := fun e he => h e (List.mem_cons_of_mem _ he)
    rw [serverRun_cons]
    cases e <;> simp [ServerEvent.onAxis, ServerEvent.isMove] at he
    rename_i p
    have hstop := stop_component a t p he
    simp only [ServerEvent.apply]
    by_cases hpd : p = d
    · subst hpd
      have h0 : a.component (ServerHandleStop t p) = 0 := by
        rw [hstop]; rcases ht with ht | ht
        · simp [ht]
        · rw [ht]; split_ifs <;> rfl
      rw [ih _ hrest (Or.inr h0)]
      simp [h0]
    · obtain ⟨h1, h2⟩ := sign_ne a p d he hd hpd
      have hsame : a.component (ServerHandleStop t p) = a.component t := by
        rw [hstop]; rcases ht with ht | ht
        · rw [ht, if_neg h1]
        · rw [ht, if_neg h2]
      rw [ih _ hrest (hsame ▸ ht), hsame]
      have : ServerEvent.Stop d ∈ ServerEvent.Stop p :: rest ↔ ServerEvent.Stop d ∈ rest := by
        simp [List.mem_cons, Ne.symm hpd]
      simp only [this]

/-- C1. Move/Stop calls on one axis, walking enabled, component initially 0:
with no Move in the run the component stays 0; otherwise, splitting the run at
its last Move `d`, the component ends at 0 if a Stop naming `d` follows and at
the sign of `d` if not.  A Stop whose direction's sign is not the one the
component holds (in particular the opposite one) leaves the component as it is. -/
theorem moveStop_same_axis (a : Axis) (s : SimpleAvatar)
    (hwalk : s.me.dynamiccomponent.enableWalk = true) (h0 : a.component s = 0) :
    (∀ events : List ServerEvent, (∀ e ∈ events, e.onAxis a ∧ e.isMove = false) →
        a.component (serverRun s events) = 0) ∧
    (∀ (before after : List ServerEvent) (d : String),
        (∀ e ∈ before, e.onAxis a) → a.names d →
        (∀ e ∈ after, e.onAxis a ∧ e.isMove = false) →
        a.component (serverRun s (before ++ ServerEvent.Move d :: after)) =
          if ServerEvent.Stop d ∈ after then 0 else a.sign d) ∧
    (∀ (t : SimpleAvatar) (d : String), a.names d → a.component t ≠ a.sign d →
        a.component (ServerHandleStop t d) = a.component t) := by
  refine ⟨?_, ?_, ?_⟩
  · intro events h
    have := stops_component a a.positive ((names_iff _ _).2 (Or.inl rfl)) events s h (Or.inr h0)
    simpa [h0] using this
  · intro before after d hb hd ha
    rw [serverRun_append, serverRun_cons]
    have hw : (serverRun s before).me.dynamiccomponent.enableWalk = true := by
      rw [onAxis_attrs a before s hb]; exact hwalk
    have hm := move_component a (serverRun s before) d hd hw
    show a.component (serverRun (ServerHandleMove (serverRun s before) d) after) = _
    rw [stops_component a d hd after _ ha (Or.inl hm)]
    simp [hm, sign_ne_zero a d hd]
  · intro t d hd hne
    rw [stop_component a t d hd, if_neg hne]



theorem moveStop_same_axis_witness :
    (serverInit exampleEntity).me.dynamiccomponent.enableWalk = true ∧
    Axis.Z.component (serverInit exampleEntity) = 0 ∧
    Axis.Z.component (serverRun (serverInit exampleEntity)
      [ServerEvent.Move "forward", ServerEvent.Stop "forward", ServerEvent.Move "back",
       ServerEvent.Stop "forward"]) = -1 :=
  ⟨by decide, by decide,
    (moveStop_same_axis Axis.Z (serverInit exampleEntity) (by decide) (by decide)).2.1
      [ServerEvent.Move "forward", ServerEvent.Stop "forward"] [ServerEvent.Stop "forward"] "back"
      (by decide) (by decide) (by decide)⟩

/-! ## Zoom -/

theorem ClientZoom_inRange (s : SimpleAvatar) (scene : Scene) (r : ℚ)
    (h : cameraDistanceInRange s) : cameraDistanceInRange (ClientZoom s scene r) := by
  unfold cameraDistanceInRange at h ⊢
  obtain ⟨h1, h2⟩ := h
  unfold ClientZoom
  dsimp only
  split_ifs <;>
    simp only [SimpleAvatar.withAttrs, DynamicComponent.setCameraDistance,
      Bool.and_eq_true, decide_eq_true_eq, not_and, not_lt] at * <;>
    constructor <;> linarith

theorem zoomRun_inRange : ∀ (calls : List ZoomCall) (s : SimpleAvatar),
    cameraDistanceInRange s → cameraDistanceInRange (zoomRun s calls) := by
  intro calls
  induction calls with
  | nil => intro s h; exact h
  | cons c rest ih =>
    intro s h
    exact ih _ (ClientZoom_inRange _ _ _ h)

/-- C2. Starting with the camera distance in `[-0.5, 500]`, after any sequence
of `ClientZoom` calls, with any scroll magnitudes and with `enableZoom` and the
camera's activity taking any values at each call, the camera distance is still
in `[-0.5, 500]`. -/
theorem cameraDistance_stays_in_range (s : SimpleAvatar) (calls : List ZoomCall)
    (h : -(1 / 2) ≤ s.me.dynamiccomponent.cameraDistance ∧
      s.me.dynamiccomponent.cameraDistance ≤ 500) :
    -(1 / 2) ≤ (zoomRun s calls).me.dynamiccomponent.cameraDistance ∧
      (zoomRun s calls).me.dynamiccomponent.cameraDistance ≤ 500 :=
  zoomRun_inRange calls s h

theorem cameraDistance_stays_in_range_witness :
    clientExample.me.dynamiccomponent.cameraDistance = 7 ∧
    (-(1 / 2) ≤ clientExample.me.dynamiccomponent.cameraDistance ∧
      clientExample.me.dynamiccomponent.cameraDistance ≤ 500) ∧
    (-(1 / 2) ≤ (zoomRun clientExample
        [⟨true, activeScene, 60⟩, ⟨true, activeScene, 60⟩, ⟨true, activeScene, 60⟩,
         ⟨true, activeScene, 60⟩, ⟨false, activeScene, -60⟩]).me.dynamiccomponent.cameraDistance ∧
      (zoomRun clientExample
        [⟨true, activeScene, 60⟩, ⟨true, activeScene, 60⟩, ⟨true, activeScene, 60⟩,
         ⟨true, activeScene, 60⟩, ⟨false, activeScene, -60⟩]).me.dynamiccomponent.cameraDistance
        ≤ 500) :=
  ⟨rfl, by rw [show clientExample.me.dynamiccomponent.cameraDistance = 7 from rfl]; norm_num,
    cameraDistance_stays_in_range clientExample
      [⟨true, activeScene, 60⟩, ⟨true, activeScene, 60⟩, ⟨true, activeScene, 60⟩,
       ⟨true, activeScene, 60⟩, ⟨false, activeScene, -60⟩]
      (by rw [show clientExample.me.dynamiccomponent.cameraDistance = 7 from rfl]; norm_num)⟩


/-! ## Move animations -/

theorem mem_disableAll (n : String) : ∀ (animList : List String) (ac : AnimationController),
    n ∈ (disableAll animList ac).activeAnimations ↔
      n ∈ ac.activeAnimations ∧ ¬ (n ∈ animList ∧ n ≠ "") := by
  intro animList
  induction animList with
  | nil => intro ac; simp [disableAll]
  | cons m rest ih =>
    intro ac
    have hstep : disableAll (m :: rest) ac =
        disableAll rest (if m != "" then ac.DisableAnimation m (25 / 100) else ac) := rfl
    rw [hstep, ih]
    by_cases hm : m = ""
    · subst hm
      by_cases hn : n = "" <;> simp [hn]
    · by_cases hnm : n = m
      · subst hnm; simp [hm, AnimationController.DisableAnimation]
      · simp [hm, hnm, AnimationController.DisableAnimation]

theorem mem_disableOthers (n a : String) : ∀ (animList : List String) (ac : AnimationController),
    n ∈ (disableOthers animList a ac).activeAnimations ↔
      n ∈ ac.activeAnimations ∧ ¬ (n ∈ animList ∧ n ≠ a ∧ n ≠ "") := by
  intro animList
  induction animList with
  | nil => intro ac; simp [disableOthers]
  | cons m rest ih =>
    intro ac
    have hstep : disableOthers (m :: rest) a ac =
        disableOthers rest a
          (if m != a && m != "" && ac.IsAnimationActive m then ac.DisableAnimation m (25 / 100)
           else ac) := rfl
    rw [hstep, ih]
    by_cases hc : (m != a && m != "" && ac.IsAnimationActive m) = true
    · rw [if_pos hc]
      simp [AnimationController.IsAnimationActive] at hc
      obtain ⟨⟨hma, hme⟩, hact⟩ := hc
      by_cases hnm : n = m
      · subst hnm; simp [hma, hme, AnimationController.DisableAnimation]
      · simp [hnm, AnimationController.DisableAnimation]
    · rw [if_neg hc]
      simp [AnimationController.IsAnimationActive] at hc
      by_cases hnm : n = m
      · subst hnm
        by_cases hact : n ∈ ac.activeAnimations
        · by_cases hna : n = a
          · simp [hna]
          · have hne := by_contra (fun h => hc hna h hact)
            simp [hne]
        · simp [hact]
      · simp [hnm]



theorem activeMoveClips_congr {ac₁ ac₂ : AnimationController}
    (h : ac₁.activeAnimations = ac₂.activeAnimations) :
    activeMoveClips ac₁ = activeMoveClips ac₂ := by
  simp [activeMoveClips, AnimationController.IsAnimationActive, h]

theorem activeMoveClips_eq_nil (ac : AnimationController)
    (h : ∀ n ∈ moveClips, n ∉ ac.activeAnimations) : activeMoveClips ac = [] := by
  simp only [activeMoveClips, List.filter_eq_nil_iff, AnimationController.IsAnimationActive,
    decide_eq_true_eq]
  exact h

theorem activeMoveClips_only (ac : AnimationController) (a : String)
    (h : ∀ n ∈ moveClips, (n ∈ ac.activeAnimations ↔ n = a)) :
    (activeMoveClips ac).length ≤ 1 ∧ (a ∈ moveClips → activeMoveClips ac = [a]) := by
  have hfilter : activeMoveClips ac = moveClips.filter (fun n => decide (n = a)) := by
    unfold activeMoveClips
    apply List.filter_congr
    intro n hn
    simp [AnimationController.IsAnimationActive, h n hn]
  rw [hfilter]
  by_cases h1 : a = "Stand"
  · subst h1; simp [moveClips, List.filter]
  by_cases h2 : a = "Walk"
  · subst h2; simp [moveClips, List.filter]
  by_cases h3 : a = "Fly"
  · subst h3; simp [moveClips, List.filter]
  by_cases h4 : a = "Hover"
  · subst h4; simp [moveClips, List.filter]
  simp [moveClips, List.filter, h1, h2, h3, h4, Ne.symm h1, Ne.symm h2, Ne.symm h3, Ne.symm h4]

theorem mem_moveClips_ne_empty {n : String} (h : n ∈ moveClips) : n ≠ "" := by
  simp [moveClips] at h
  rcases h with rfl | rfl | rfl | rfl <;> decide

theorem mem_enableMoveAnimation (s : SimpleAvatar) (a n : String) (ac : AnimationController) :
    n ∈ (enableMoveAnimation s a ac).activeAnimations ↔
      (n ∈ ac.activeAnimations ∨ n = a) ∧ ¬ (n ∈ s.animList ∧ n ≠ a ∧ n ≠ "") := by
  unfold enableMoveAnimation
  dsimp only
  rw [mem_disableOthers]
  apply and_congr_left
  intro _
  by_cases hh : (a == s.hoverAnimName) = true <;> simp only [hh, if_true, if_false] <;>
    by_cases hact : a ∈ ac.activeAnimations <;>
    by_cases hna : n = a <;>
    simp [AnimationController.IsAnimationActive, AnimationController.SetAnimationSpeed,
      AnimationController.EnableAnimation, hact, hna]

/-- C3. With the four move clips detected (the animation list holds all four
names) and at most one of them active before, after `CommonUpdateAnimation`,
for every locomotion state, replicated `animationState`, `enableAnimation`
value and headless flag, at most one of the four is active; and when
`animationState` is one of the four, animation is enabled and the framework is
not headless, the active one is exactly that clip. -/
theorem moveClips_exclusive (s : SimpleAvatar) (frametime : ℚ) (IsHeadless : Bool)
    (ac : AnimationController)
    (hdet : s.animsDetected = true)
    (hlist : s.animList = ["Stand", "Walk", "Fly", "Hover"])
    (hac : s.me.animationcontroller = some ac)
    (hone : (activeMoveClips ac).length ≤ 1) :
    ∃ ac', (CommonUpdateAnimation s frametime IsHeadless).me.animationcontroller = some ac' ∧
      (activeMoveClips ac').length ≤ 1 ∧
      (ac.animationState ∈ moveClips → s.me.dynamiccomponent.enableAnimation = true →
        IsHeadless = false → activeMoveClips ac' = [ac.animationState]) := by
  unfold CommonUpdateAnimation
  simp only [hdet, hac, Bool.not_true, Bool.false_eq_true, if_false]
  by_cases hen : s.me.dynamiccomponent.enableAnimation = true
  · simp only [hen, Bool.not_true, Bool.false_eq_true, if_false, SimpleAvatar.withAnim]
    refine ⟨_, rfl, ?_⟩
    have hspeed : ∀ (c : Bool) (x : AnimationController) (nm : String) (sp : Speed),
        activeMoveClips (if c = true then x.SetAnimationSpeed nm sp else x) = activeMoveClips x := by
      intro c x nm sp
      cases c <;> simp [activeMoveClips_congr, AnimationController.SetAnimationSpeed]
      exact activeMoveClips_congr rfl
    rw [hspeed]
    by_cases hc : (ac.animationState != "" && !IsHeadless) = true
    · rw [if_pos hc]
      have hmem : ∀ n ∈ moveClips,
          (n ∈ (enableMoveAnimation s ac.animationState ac).activeAnimations ↔
            n = ac.animationState) := by
        intro n hn
        rw [mem_enableMoveAnimation, hlist]
        have hne := mem_moveClips_ne_empty hn
        have hn' : n ∈ ["Stand", "Walk", "Fly", "Hover"] := hn
        by_cases hna : n = ac.animationState <;> simp [hna, hne, hn']
      obtain ⟨h1, h2⟩ := activeMoveClips_only _ _ hmem
      exact ⟨h1, fun h _ _ => h2 h⟩
    · rw [if_neg hc]
      refine ⟨hone, ?_⟩
      intro hmem _ hh
      exfalso
      apply hc
      simp [hh, mem_moveClips_ne_empty hmem]
  · simp only [Bool.not_eq_true] at hen
    simp only [hen, Bool.not_false, if_true, SimpleAvatar.withAnim]
    refine ⟨_, rfl, ?_, ?_⟩
    · rw [activeMoveClips_eq_nil]
      · simp
      · intro n hn
        rw [mem_disableAll, hlist]
        rintro ⟨_, h2⟩
        exact h2 ⟨hn, mem_moveClips_ne_empty hn⟩
    · intro _ h; simp at h



theorem moveClips_exclusive_witness :
    walkingAvatar.animsDetected = true ∧
    walkingAvatar.animList = ["Stand", "Walk", "Fly", "Hover"] ∧
    ∃ ac', (CommonUpdateAnimation walkingAvatar 0 false).me.animationcontroller = some ac' ∧
      (activeMoveClips ac').length ≤ 1 ∧
      ("Walk" ∈ moveClips → walkingAvatar.me.dynamiccomponent.enableAnimation = true →
        false = false → activeMoveClips ac' = ["Walk"]) :=
  ⟨by decide, by decide,
    moveClips_exclusive walkingAvatar 0 false
      { animationState := "Walk"
        availableAnimations := ["Stand", "Walk", "Fly", "Hover"]
        activeAnimations := ["Stand"]
        calls := [] }
      (by decide) (by decide) rfl (by decide)⟩

@[simp] theorem ServerSetAnimationState_flying (s : SimpleAvatar) :
    (ServerSetAnimationState s).flying = s.flying := by
  obtain ⟨oc, h⟩ := ServerSetAnimationState_anim s; rw [h]
@[simp] theorem ServerSetAnimationState_falling (s : SimpleAvatar) :
    (ServerSetAnimationState s).falling = s.falling := by
  obtain ⟨oc, h⟩ := ServerSetAnimationState_anim s; rw [h]
@[simp] theorem ServerSetAnimationState_body (s : SimpleAvatar) :
    (ServerSetAnimationState s).me.rigidbody = s.me.rigidbody := by
  obtain ⟨oc, h⟩ := ServerSetAnimationState_anim s; rw [h]
@[simp] theorem ServerSetAnimationState_attrs (s : SimpleAvatar) :
    (ServerSetAnimationState s).me.dynamiccomponent = s.me.dynamiccomponent := by
  obtain ⟨oc, h⟩ := ServerSetAnimationState_anim s; rw [h]

theorem MotionFrame.flying {s t : SimpleAvatar} (h : MotionFrame s t) : t.flying = s.flying := by
  obtain ⟨x, y, z, oc, rfl⟩ := h; rfl
theorem MotionFrame.falling {s t : SimpleAvatar} (h : MotionFrame s t) :
    t.falling = s.falling := by
  obtain ⟨x, y, z, oc, rfl⟩ := h; rfl
theorem MotionFrame.body {s t : SimpleAvatar} (h : MotionFrame s t) :
    t.me.rigidbody = s.me.rigidbody := by
  obtain ⟨x, y, z, oc, rfl⟩ := h; rfl

theorem CommonUpdateAnimation_anim (s : SimpleAvatar) (frametime : ℚ) (IsHeadless : Bool) :
    ∃ oc, CommonUpdateAnimation s frametime IsHeadless =
      { s with me := { s.me with animationcontroller := oc } } := by
  unfold CommonUpdateAnimation
  by_cases hd : (!s.animsDetected) = true
  · rw [if_pos hd]; exact ⟨s.me.animationcontroller, rfl⟩
  · rw [if_neg hd]
    cases s.me.animationcontroller with
    | none => exact ⟨s.me.animationcontroller, rfl⟩
    | some ac =>
      dsimp only
      by_cases he : (!s.me.dynamiccomponent.enableAnimation) = true
      · rw [if_pos he]; exact ⟨_, rfl⟩
      · rw [if_neg he]; exact ⟨_, rfl⟩

@[simp] theorem CommonUpdateAnimation_flying (s : SimpleAvatar) (frametime : ℚ) (h : Bool) :
    (CommonUpdateAnimation s frametime h).flying = s.flying := by
  obtain ⟨oc, e⟩ := CommonUpdateAnimation_anim s frametime h; rw [e]
@[simp] theorem CommonUpdateAnimation_falling (s : SimpleAvatar) (frametime : ℚ) (h : Bool) :
    (CommonUpdateAnimation s frametime h).falling = s.falling := by
  obtain ⟨oc, e⟩ := CommonUpdateAnimation_anim s frametime h; rw [e]
@[simp] theorem CommonUpdateAnimation_body (s : SimpleAvatar) (frametime : ℚ) (h : Bool) :
    (CommonUpdateAnimation s frametime h).me.rigidbody = s.me.rigidbody := by
  obtain ⟨oc, e⟩ := CommonUpdateAnimation_anim s frametime h; rw [e]
@[simp] theorem CommonUpdateAnimation_attrs (s : SimpleAvatar) (frametime : ℚ) (h : Bool) :
    (CommonUpdateAnimation s frametime h).me.dynamiccomponent = s.me.dynamiccomponent := by
  obtain ⟨oc, e⟩ := CommonUpdateAnimation_anim s frametime h; rw [e]
@[simp] theorem CommonUpdateAnimation_motionX (s : SimpleAvatar) (frametime : ℚ) (h : Bool) :
    (CommonUpdateAnimation s frametime h).motionX = s.motionX := by
  obtain ⟨oc, e⟩ := CommonUpdateAnimation_anim s frametime h; rw [e]
@[simp] theorem CommonUpdateAnimation_motionY (s : SimpleAvatar) (frametime : ℚ) (h : Bool) :
    (CommonUpdateAnimation s frametime h).motionY = s.motionY := by
  obtain ⟨oc, e⟩ := CommonUpdateAnimation_anim s frametime h; rw [e]
@[simp] theorem CommonUpdateAnimation_motionZ (s : SimpleAvatar) (frametime : ℚ) (h : Bool) :
    (CommonUpdateAnimation s frametime h).motionZ = s.motionZ := by
  obtain ⟨oc, e⟩ := CommonUpdateAnimation_anim s frametime h; rw [e]

theorem CommonFindAnimations_shape (s : SimpleAvatar) :
    ∃ l a b c d f, CommonFindAnimations s =
      { s with animList := l, standAnimName := a, walkAnimName := b, flyAnimName := c,
               hoverAnimName := d, animsDetected := f } := by
  unfold CommonFindAnimations
  split
  · exact ⟨_, _, _, _, _, _, rfl⟩
  · dsimp only
    split_ifs
    · exact ⟨_, _, _, _, _, _, rfl⟩
    · exact ⟨_, _, _, _, _, _, rfl⟩

@[simp] theorem CommonFindAnimations_flying (s : SimpleAvatar) :
    (CommonFindAnimations s).flying = s.flying := by
  obtain ⟨l, a, b, c, d, f, e⟩ := CommonFindAnimations_shape s; rw [e]
@[simp] theorem CommonFindAnimations_falling (s : SimpleAvatar) :
    (CommonFindAnimations s).falling = s.falling := by
  obtain ⟨l, a, b, c, d, f, e⟩ := CommonFindAnimations_shape s; rw [e]
@[simp] theorem CommonFindAnimations_me (s : SimpleAvatar) :
    (CommonFindAnimations s).me = s.me := by
  obtain ⟨l, a, b, c, d, f, e⟩ := CommonFindAnimations_shape s; rw [e]
@[simp] theorem CommonFindAnimations_motionX (s : SimpleAvatar) :
    (CommonFindAnimations s).motionX = s.motionX := by
  obtain ⟨l, a, b, c, d, f, e⟩ := CommonFindAnimations_shape s; rw [e]
@[simp] theorem CommonFindAnimations_motionY (s : SimpleAvatar) :
    (CommonFindAnimations s).motionY = s.motionY := by
  obtain ⟨l, a, b, c, d, f, e⟩ := CommonFindAnimations_shape s; rw [e]
@[simp] theorem CommonFindAnimations_motionZ (s : SimpleAvatar) :
    (CommonFindAnimations s).motionZ = s.motionZ := by
  obtain ⟨l, a, b, c, d, f, e⟩ := CommonFindAnimations_shape s; rw [e]

theorem ServerSetFlying_of_same (s : SimpleAvatar) (v : Bool)
    (h : s.flying = (s.me.dynamiccomponent.enableFly && v)) : ServerSetFlying s v = s := by
  unfold ServerSetFlying
  cases hf : s.me.dynamiccomponent.enableFly <;> simp [hf] at h ⊢ <;> simp [h]

@[simp] theorem ServerSetFlying_flying (s : SimpleAvatar) (v : Bool) :
    (ServerSetFlying s v).flying = (s.me.dynamiccomponent.enableFly && v) := by
  unfold ServerSetFlying
  cases hf : s.me.dynamiccomponent.enableFly <;> cases hv : v <;> cases hs : s.flying <;>
    simp [SimpleAvatar.withBody, hs]

@[simp] theorem ServerSetFlying_falling (s : SimpleAvatar) (v : Bool) :
    (ServerSetFlying s v).falling = s.falling := by
  unfold ServerSetFlying
  cases hf : s.me.dynamiccomponent.enableFly <;> cases hv : v <;> cases hs : s.flying <;>
    simp [SimpleAvatar.withBody, hs]

@[simp] theorem ServerSetFlying_attrs (s : SimpleAvatar) (v : Bool) :
    (ServerSetFlying s v).me.dynamiccomponent = s.me.dynamiccomponent := by
  unfold ServerSetFlying
  cases hf : s.me.dynamiccomponent.enableFly <;> cases hv : v <;> cases hs : s.flying <;>
    simp [SimpleAvatar.withBody, hs]

/-! ## Jumping -/

theorem count_jump_append (calls : List BodyCall) (c : BodyCall) :
    (calls ++ [c]).count (BodyCall.ApplyImpulse jumpVec) =
      calls.count (BodyCall.ApplyImpulse jumpVec) +
        (if c = BodyCall.ApplyImpulse jumpVec then 1 else 0) := by
  rw [List.count_append, List.count_singleton]
  by_cases h : c = BodyCall.ApplyImpulse jumpVec
  · subst h; simp
  · rw [if_neg h]; simp [h]

theorem ServerUpdatePhysics_falling (s : SimpleAvatar) (frametime : ℚ)
    (hfly : s.flying = false) (hfall : s.falling = true) :
    (ServerUpdatePhysics s frametime).flying = false ∧
    (ServerUpdatePhysics s frametime).falling = true ∧
    jumpImpulses (ServerUpdatePhysics s frametime) = jumpImpulses s := by
  unfold ServerUpdatePhysics
  simp only [hfly, hfall, Bool.not_false, Bool.not_true, Bool.and_false, if_true,
    Bool.false_eq_true, if_false]
  by_cases hm : (s.motionX != 0 || s.motionZ != 0) = true <;>
    by_cases ha : s.me.rigidbody.active = true <;>
    simp [hm, ha, SimpleAvatar.withBody, RigidBody.ApplyImpulse, jumpImpulses, hfly, hfall,
      count_jump_append, jumpVec]

theorem ServerUpdatePhysics_jump (s : SimpleAvatar) (frametime : ℚ)
    (hfly : s.flying = false) (hfall : s.falling = false) (hy : s.motionY = 1)
    (hj : s.me.dynamiccomponent.enableJump = true) :
    (ServerUpdatePhysics s frametime).flying = false ∧
    (ServerUpdatePhysics s frametime).falling = true ∧
    (ServerUpdatePhysics s frametime).motionY = 0 ∧
    jumpImpulses (ServerUpdatePhysics s frametime) = jumpImpulses s + 1 := by
  unfold ServerUpdatePhysics
  simp only [hfly, hfall, Bool.not_false, if_true]
  by_cases hm : (s.motionX != 0 || s.motionZ != 0) = true <;>
    by_cases ha : s.me.rigidbody.active = true <;>
    simp [hm, ha, hy, hj, SimpleAvatar.withBody, RigidBody.ApplyImpulse, jumpImpulses, hfly, hfall,
      count_jump_append, jumpVec]

theorem ServerUpdate_not_flying (s : SimpleAvatar) (frametime : ℚ) (IsHeadless : Bool)
    (hfly : s.flying = false) :
    (ServerUpdate s frametime IsHeadless).flying = false ∧
    (ServerUpdate s frametime IsHeadless).falling = s.falling ∧
    (ServerUpdate s frametime IsHeadless).me.rigidbody = s.me.rigidbody := by
  unfold ServerUpdate
  simp only [CommonUpdateAnimation_flying, CommonUpdateAnimation_falling,
    CommonUpdateAnimation_body]
  by_cases hd : (!s.animsDetected) = true <;>
    by_cases hw : (!s.me.dynamiccomponent.enableWalk) = true <;>
    simp [hd, hw, hfly]



theorem airborne_step (s : SimpleAvatar) (e : ServerEvent) (he : e.isToggleOrCollision = false)
    (hfly : s.flying = false) (hfall : s.falling = true) :
    (ServerEvent.apply s e).flying = false ∧ (ServerEvent.apply s e).falling = true ∧
      jumpImpulses (ServerEvent.apply s e) = jumpImpulses s := by
  cases e with
  | Move p =>
    have h := ServerHandleMove_frame s p
    exact ⟨h.flying.trans hfly, h.falling.trans hfall, by simp [jumpImpulses, ServerEvent.apply, h.body]⟩
  | Stop p =>
    have h := ServerHandleStop_frame s p
    exact ⟨h.flying.trans hfly, h.falling.trans hfall, by simp [jumpImpulses, ServerEvent.apply, h.body]⟩
  | ToggleFly => simp [ServerEvent.isToggleOrCollision] at he
  | SetRotation p =>
    simp only [ServerEvent.apply, ServerHandleSetRotation]
    split_ifs <;>
      simp [SimpleAvatar.withBody, RigidBody.SetRotation, jumpImpulses, hfly, hfall,
        count_jump_append]
  | Update ft hl =>
    obtain ⟨h1, h2, h3⟩ := ServerUpdate_not_flying s ft hl hfly
    exact ⟨h1, h2.trans hfall, by simp [jumpImpulses, ServerEvent.apply, h3]⟩
  | UpdatePhysics ft => exact ServerUpdatePhysics_falling s ft hfly hfall
  | Collision n => simp [ServerEvent.isToggleOrCollision] at he
  | WriteCapabilities w j f r a z d =>
    simp [ServerEvent.apply, SimpleAvatar.withAttrs, jumpImpulses, hfly, hfall]
  | PhysicsEngine v a =>
    simp [ServerEvent.apply, SimpleAvatar.withBody, jumpImpulses, hfly, hfall]
  | CreateAnimationController =>
    simp only [ServerEvent.apply]
    split <;> simp [SimpleAvatar.withAnim, jumpImpulses, hfly, hfall]
  | SkeletonLoaded names =>
    simp only [ServerEvent.apply]
    split <;> simp [SimpleAvatar.withAnim, jumpImpulses, hfly, hfall]

theorem airborne_run : ∀ (events : List ServerEvent) (s : SimpleAvatar),
    (∀ e ∈ events, e.isToggleOrCollision = false) → s.flying = false → s.falling = true →
    (serverRun s events).flying = false ∧ (serverRun s events).falling = true ∧
      jumpImpulses (serverRun s events) = jumpImpulses s := by
  intro events
  induction events with
  | nil => intro s _ h1 h2; exact ⟨h1, h2, rfl⟩
  | cons e rest ih =>
    intro s h h1 h2
    obtain ⟨a, b, c⟩ := airborne_step s e (h e (List.mem_cons_self _ _)) h1 h2
    obtain ⟨a', b', c'⟩ := ih _ (fun e he => h e (List.mem_cons_of_mem _ he)) a b
    exact ⟨a', b', c'.trans c⟩

theorem ServerUpdatePhysics_count (s : SimpleAvatar) (frametime : ℚ)
    (hfly : s.flying = false) (hfall : s.falling = false) :
    (ServerUpdatePhysics s frametime).flying = false ∧
    (((ServerUpdatePhysics s frametime).falling = false ∧
        jumpImpulses (ServerUpdatePhysics s frametime) = jumpImpulses s) ∨
      ((ServerUpdatePhysics s frametime).falling = true ∧
        jumpImpulses (ServerUpdatePhysics s frametime) = jumpImpulses s + 1)) := by
  unfold ServerUpdatePhysics
  simp only [hfly, hfall, Bool.not_false, if_true]
  by_cases hm : (s.motionX != 0 || s.motionZ != 0) = true <;>
    by_cases hy : s.motionY = 1 <;>
    by_cases hj : s.me.dynamiccomponent.enableJump = true <;>
    by_cases ha : s.me.rigidbody.active = true <;>
    simp [hm, ha, hy, hj, SimpleAvatar.withBody, RigidBody.ApplyImpulse, jumpImpulses, hfly,
      hfall, count_jump_append, jumpVec]

theorem grounded_step (s : SimpleAvatar) (e : ServerEvent) (he : e.isToggleOrCollision = false)
    (hfly : s.flying = false) (hfall : s.falling = false) :
    (ServerEvent.apply s e).flying = false ∧
    (((ServerEvent.apply s e).falling = false ∧
        jumpImpulses (ServerEvent.apply s e) = jumpImpulses s) ∨
      ((ServerEvent.apply s e).falling = true ∧
        jumpImpulses (ServerEvent.apply s e) = jumpImpulses s + 1)) := by
  cases e with
  | Move p =>
    have h := ServerHandleMove_frame s p
    exact ⟨h.flying.trans hfly,
      Or.inl ⟨h.falling.trans hfall, by simp [jumpImpulses, ServerEvent.apply, h.body]⟩⟩
  | Stop p =>
    have h := ServerHandleStop_frame s p
    exact ⟨h.flying.trans hfly,
      Or.inl ⟨h.falling.trans hfall, by simp [jumpImpulses, ServerEvent.apply, h.body]⟩⟩
  | ToggleFly => simp [ServerEvent.isToggleOrCollision] at he
  | SetRotation p =>
    simp only [ServerEvent.apply, ServerHandleSetRotation]
    split_ifs <;>
      simp [SimpleAvatar.withBody, RigidBody.SetRotation, jumpImpulses, hfly, hfall,
        count_jump_append]
  | Update ft hl =>
    obtain ⟨h1, h2, h3⟩ := ServerUpdate_not_flying s ft hl hfly
    exact ⟨h1, Or.inl ⟨h2.trans hfall, by simp [jumpImpulses, ServerEvent.apply, h3]⟩⟩
  | UpdatePhysics ft => exact ServerUpdatePhysics_count s ft hfly hfall
  | Collision n => simp [ServerEvent.isToggleOrCollision] at he
  | WriteCapabilities w j f r a z d =>
    simp [ServerEvent.apply, SimpleAvatar.withAttrs, jumpImpulses, hfly, hfall]
  | PhysicsEngine v a =>
    simp [ServerEvent.apply, SimpleAvatar.withBody, jumpImpulses, hfly, hfall]
  | CreateAnimationController =>
    simp only [ServerEvent.apply]
    split <;> simp [SimpleAvatar.withAnim, jumpImpulses, hfly, hfall]
  | SkeletonLoaded names =>
    simp only [ServerEvent.apply]
    split <;> simp [SimpleAvatar.withAnim, jumpImpulses, hfly, hfall]

theorem grounded_run : ∀ (events : List ServerEvent) (s : SimpleAvatar),
    (∀ e ∈ events, e.isToggleOrCollision = false) → s.flying = false → s.falling = false →
    jumpImpulses (serverRun s events) = jumpImpulses s ∨
      jumpImpulses (serverRun s events) = jumpImpulses s + 1 := by
  intro events
  induction events with
  | nil => intro s _ _ _; exact Or.inl rfl
  | cons e rest ih =>
    intro s h h1 h2
    have hrest : ∀ e ∈ rest, e.isToggleOrCollision = false :=
      fun e he => h e (List.mem_cons_of_mem _ he)
    obtain ⟨a, b | b⟩ := grounded_step s e (h e (List.mem_cons_self _ _)) h1 h2
    · rw [serverRun_cons, ← b.2]
      exact ih _ hrest a b.1
    · obtain ⟨_, _, c⟩ := airborne_run rest _ hrest a b.1
      rw [serverRun_cons, c]
      exact Or.inr b.2


theorem moveStop_run_frame : ∀ (events : List ServerEvent) (s : SimpleAvatar),
    (∀ e ∈ events, e.isMoveOrStop = true) → MotionFrame s (serverRun s events) := by
  intro events
  induction events with
  | nil => intro s _; exact MotionFrame.refl s
  | cons e rest ih =>
    intro s h
    have hrest := ih (ServerEvent.apply s e) (fun e he => h e (List.mem_cons_of_mem _ he))
    have he := h e (List.mem_cons_self _ _)
    rw [serverRun_cons]
    cases e with
    | Move p => exact MotionFrame.trans (ServerHandleMove_frame s p) hrest
    | Stop p => exact MotionFrame.trans (ServerHandleStop_frame s p) hrest
    | ToggleFly => simp [ServerEvent.isMoveOrStop] at he
    | SetRotation p => simp [ServerEvent.isMoveOrStop] at he
    | Update ft hl => simp [ServerEvent.isMoveOrStop] at he
    | UpdatePhysics ft => simp [ServerEvent.isMoveOrStop] at he
    | Collision n => simp [ServerEvent.isMoveOrStop] at he
    | WriteCapabilities w j f r a z d => simp [ServerEvent.isMoveOrStop] at he
    | PhysicsEngine v a => simp [ServerEvent.isMoveOrStop] at he
    | CreateAnimationController => simp [ServerEvent.isMoveOrStop] at he
    | SkeletonLoaded names => simp [ServerEvent.isMoveOrStop] at he

theorem ServerUpdatePhysics_no_jump (s : SimpleAvatar) (frametime : ℚ)
    (hfly : s.flying = false) (hfall : s.falling = false) (hy : s.motionY ≠ 1) :
    (ServerUpdatePhysics s frametime).falling = false ∧
    jumpImpulses (ServerUpdatePhysics s frametime) = jumpImpulses s := by
  unfold ServerUpdatePhysics
  simp only [hfly, hfall, Bool.not_false, if_true]
  by_cases hm : (s.motionX != 0 || s.motionZ != 0) = true <;>
    by_cases ha : s.me.rigidbody.active = true <;>
    simp [hm, ha, hy, SimpleAvatar.withBody, RigidBody.ApplyImpulse, jumpImpulses, hfly,
      hfall, count_jump_append, jumpVec]

/-- C4. From a grounded state with vertical intent up and jumping enabled, a
physics tick handled in that state applies the jump impulse `(0, 75, 0)`, sets
`falling` and clears `motionY`; through any later events other than fly toggles
and collision notifications (physics ticks, Move and Stop calls, repeated
`Move("up")` included) `falling` stays true and no further jump impulse is
applied: the body has received exactly one more jump impulse than before the
run.  When Move and Stop calls come before the first tick, the same holds if the
vertical intent is still up at that tick; if it is not, the first tick applies
no jump impulse and leaves `falling` false; and in either case the whole run
applies no or one jump impulse. -/
theorem jump_edge_triggered (s : SimpleAvatar) (frametime : ℚ)
    (before later : List ServerEvent)
    (hfly : s.flying = false) (hfall : s.falling = false) (hy : s.motionY = 1)
    (hjump : s.me.dynamiccomponent.enableJump = true)
    (hbefore : ∀ e ∈ before, e.isMoveOrStop = true)
    (hlater : ∀ e ∈ later, e.isToggleOrCollision = false) :
    (ServerUpdatePhysics s frametime).falling = true ∧
    (ServerUpdatePhysics s frametime).motionY = 0 ∧
    jumpImpulses (ServerUpdatePhysics s frametime) = jumpImpulses s + 1 ∧
    (serverRun s (ServerEvent.UpdatePhysics frametime :: later)).falling = true ∧
    jumpImpulses (serverRun s (ServerEvent.UpdatePhysics frametime :: later)) =
      jumpImpulses s + 1 ∧
    ((serverRun s before).motionY = 1 →
      (serverRun s (before ++ ServerEvent.UpdatePhysics frametime :: later)).falling = true ∧
      jumpImpulses (serverRun s (before ++ ServerEvent.UpdatePhysics frametime :: later)) =
        jumpImpulses s + 1) ∧
    ((serverRun s before).motionY ≠ 1 →
      (serverRun s (before ++ [ServerEvent.UpdatePhysics frametime])).falling = false ∧
      jumpImpulses (serverRun s (before ++ [ServerEvent.UpdatePhysics frametime])) =
        jumpImpulses s) ∧
    (jumpImpulses (serverRun s (before ++ ServerEvent.UpdatePhysics frametime :: later)) =
        jumpImpulses s ∨
      jumpImpulses (serverRun s (before ++ ServerEvent.UpdatePhysics frametime :: later)) =
        jumpImpulses s + 1) := by
  obtain ⟨h1, h2, h3, h4⟩ := ServerUpdatePhysics_jump s frametime hfly hfall hy hjump
  obtain ⟨_, b, c⟩ := airborne_run later (ServerUpdatePhysics s frametime) hlater h1 h2
  have hf := moveStop_run_frame before s hbefore
  have hfly1 : (serverRun s before).flying = false := hf.flying.trans hfly
  have hfall1 : (serverRun s before).falling = false := hf.falling.trans hfall
  have hjump1 : (serverRun s before).me.dynamiccomponent.enableJump = true := by
    rw [hf.attrs]; exact hjump
  have hcount : jumpImpulses (serverRun s before) = jumpImpulses s := by
    simp [jumpImpulses, hf.body]
  refine ⟨h2, h3, h4, b, c.trans h4, ?_, ?_, ?_⟩
  · intro hy1
    obtain ⟨g1, g2, _, g4⟩ :=
      ServerUpdatePhysics_jump (serverRun s before) frametime hfly1 hfall1 hy1 hjump1
    obtain ⟨_, b1, c1⟩ :=
      airborne_run later (ServerUpdatePhysics (serverRun s before) frametime) hlater g1 g2
    rw [serverRun_append, serverRun_cons]
    exact ⟨b1, by rw [← hcount, ← g4]; exact c1⟩
  · intro hy1
    obtain ⟨g1, g2⟩ :=
      ServerUpdatePhysics_no_jump (serverRun s before) frametime hfly1 hfall1 hy1
    rw [serverRun_append]
    exact ⟨g1, by rw [← hcount]; exact g2⟩
  · have hall : ∀ e ∈ ServerEvent.UpdatePhysics frametime :: later,
        e.isToggleOrCollision = false := by
      intro e he
      rcases List.mem_cons.mp he with rfl | he
      · rfl
      · exact hlater e he
    rw [serverRun_append, ← hcount]
    exact grounded_run _ (serverRun s before) hall hfly1 hfall1

/-- C4, the original statement at a failing sequence.  The start state is
grounded with vertical intent up and jumping enabled, and no jump impulse has
been applied.  When `Stop("up")` is handled before the first physics tick, two
ticks apply no jump impulse and `falling` stays false; likewise when
`Move("down")` is handled before the tick. -/
theorem jump_lost_before_first_tick :
    (serverRun (serverInit exampleEntity) [ServerEvent.Move "up"]).flying = false ∧
    (serverRun (serverInit exampleEntity) [ServerEvent.Move "up"]).falling = false ∧
    (serverRun (serverInit exampleEntity) [ServerEvent.Move "up"]).motionY = 1 ∧
    (serverRun (serverInit exampleEntity)
      [ServerEvent.Move "up"]).me.dynamiccomponent.enableJump = true ∧
    jumpImpulses (serverRun (serverInit exampleEntity) [ServerEvent.Move "up"]) = 0 ∧
    jumpImpulses (serverRun (serverRun (serverInit exampleEntity) [ServerEvent.Move "up"])
      [ServerEvent.Stop "up", ServerEvent.UpdatePhysics 0, ServerEvent.UpdatePhysics 0]) = 0 ∧
    (serverRun (serverRun (serverInit exampleEntity) [ServerEvent.Move "up"])
      [ServerEvent.Stop "up", ServerEvent.UpdatePhysics 0,
       ServerEvent.UpdatePhysics 0]).falling = false ∧
    jumpImpulses (serverRun (serverRun (serverInit exampleEntity) [ServerEvent.Move "up"])
      [ServerEvent.Move "down", ServerEvent.UpdatePhysics 0]) = 0 := by
  refine ⟨by decide, by decide, by decide, by decide, by decide, ?_, ?_, ?_⟩
  · decide!
  · decide!
  · decide!

theorem jump_edge_triggered_witness :
    (serverRun (serverInit exampleEntity) [ServerEvent.Move "up"]).motionY = 1 ∧
    jumpImpulses (serverRun (serverInit exampleEntity) [ServerEvent.Move "up"]) = 0 ∧
    jumpImpulses (serverRun (serverRun (serverInit exampleEntity) [ServerEvent.Move "up"])
      (ServerEvent.UpdatePhysics 0 ::
        [ServerEvent.Move "up", ServerEvent.UpdatePhysics 0, ServerEvent.Stop "up",
         ServerEvent.Move "up", ServerEvent.UpdatePhysics 0])) = 0 + 1 ∧
    jumpImpulses (serverRun (serverRun (serverInit exampleEntity) [ServerEvent.Move "up"])
      ([ServerEvent.Move "forward", ServerEvent.Stop "down"] ++
        ServerEvent.UpdatePhysics 0 ::
        [ServerEvent.Move "up", ServerEvent.UpdatePhysics 0, ServerEvent.Stop "up",
         ServerEvent.Move "up", ServerEvent.UpdatePhysics 0])) = 0 + 1 :=
  ⟨by decide, by decide,
    (jump_edge_triggered (serverRun (serverInit exampleEntity) [ServerEvent.Move "up"]) 0
      [ServerEvent.Move "forward", ServerEvent.Stop "down"]
      [ServerEvent.Move "up", ServerEvent.UpdatePhysics 0, ServerEvent.Stop "up",
       ServerEvent.Move "up", ServerEvent.UpdatePhysics 0]
      (by decide) (by decide) (by decide) (by decide) (by decide) (by decide)).2.2.2.2.1,
    ((jump_edge_triggered (serverRun (serverInit exampleEntity) [ServerEvent.Move "up"]) 0
      [ServerEvent.Move "forward", ServerEvent.Stop "down"]
      [ServerEvent.Move "up", ServerEvent.UpdatePhysics 0, ServerEvent.Stop "up",
       ServerEvent.Move "up", ServerEvent.UpdatePhysics 0]
      (by decide) (by decide) (by decide) (by decide) (by decide) (by decide)).2.2.2.2.2.1
      (by decide)).2⟩

/-! ## Detection, flight and the resolved role -/

/-- C5, the code at a failing input.  A Move is handled while the animation
controller exists but the skeleton has not loaded; the skeleton then arrives
without a walk clip.  After the detecting update the walk role is disabled
(`walkAnimName` is empty), yet `animationState` still holds `"Walk"` and
`CommonUpdateAnimation` has called `EnableAnimation("Walk", ...)`. -/
theorem absent_clip_still_activated :
    (serverRun (serverInit exampleEntity) staleWalkRun).animsDetected = true ∧
    (serverRun (serverInit exampleEntity) staleWalkRun).walkAnimName = "" ∧
    (serverRun (serverInit exampleEntity) staleWalkRun).me.animationcontroller =
      some
        { animationState := "Walk"
          availableAnimations := ["Stand", "Fly", "Hover"]
          activeAnimations := ["Walk"]
          calls := [AnimCall.EnableAnimation "Walk" true (25 / 100) false] } := by
  refine ⟨by decide, by decide, ?_⟩
  rfl



theorem ServerUpdatePhysics_flying (s : SimpleAvatar) (frametime : ℚ) :
    (ServerUpdatePhysics s frametime).flying = s.flying := by
  unfold ServerUpdatePhysics
  by_cases hf : s.flying = true
  · simp [hf]
  · simp only [Bool.not_eq_true] at hf
    simp only [hf, Bool.not_false, if_true]
    by_cases hm : (s.motionX != 0 || s.motionZ != 0) = true <;>
      by_cases hj : (s.motionY == 1 && !s.falling) = true <;>
      by_cases he : s.me.dynamiccomponent.enableJump = true <;>
      by_cases ha : s.me.rigidbody.active = true <;>
      simp [hm, hj, he, ha, hf, SimpleAvatar.withBody, RigidBody.ApplyImpulse]

theorem ServerUpdatePhysics_attrs (s : SimpleAvatar) (frametime : ℚ) :
    (ServerUpdatePhysics s frametime).me.dynamiccomponent = s.me.dynamiccomponent := by
  unfold ServerUpdatePhysics
  by_cases hf : s.flying = true
  · simp [hf]
  · simp only [Bool.not_eq_true] at hf
    simp only [hf, Bool.not_false, if_true]
    by_cases hm : (s.motionX != 0 || s.motionZ != 0) = true <;>
      by_cases hj : (s.motionY == 1 && !s.falling) = true <;>
      by_cases he : s.me.dynamiccomponent.enableJump = true <;>
      by_cases ha : s.me.rigidbody.active = true <;>
      simp [hm, hj, he, ha, hf, SimpleAvatar.withBody, RigidBody.ApplyImpulse]

theorem ServerHandleCollision_flying (s : SimpleAvatar) (n : Bool) :
    (ServerHandleCollision s n).flying = s.flying := by
  unfold ServerHandleCollision
  split_ifs <;> simp

theorem ServerHandleCollision_attrs (s : SimpleAvatar) (n : Bool) :
    (ServerHandleCollision s n).me.dynamiccomponent = s.me.dynamiccomponent := by
  unfold ServerHandleCollision
  split_ifs <;> simp

theorem ServerUpdate_flying (s : SimpleAvatar) (frametime : ℚ) (IsHeadless : Bool) :
    (ServerUpdate s frametime IsHeadless).flying =
      (s.flying && s.me.dynamiccomponent.enableFly) := by
  unfold ServerUpdate
  simp only [CommonUpdateAnimation_flying]
  by_cases hd : (!s.animsDetected) = true <;>
    by_cases hw : (!s.me.dynamiccomponent.enableWalk) = true <;>
    cases hf : s.flying <;> cases he : s.me.dynamiccomponent.enableFly <;>
    simp [hd, hw, hf, he]

theorem ServerUpdate_attrs (s : SimpleAvatar) (frametime : ℚ) (IsHeadless : Bool) :
    (ServerUpdate s frametime IsHeadless).me.dynamiccomponent = s.me.dynamiccomponent := by
  unfold ServerUpdate
  simp only [CommonUpdateAnimation_attrs]
  by_cases hd : (!s.animsDetected) = true <;>
    by_cases hw : (!s.me.dynamiccomponent.enableWalk) = true <;>
    cases hf : s.flying <;> cases he : s.me.dynamiccomponent.enableFly <;>
    simp [hd, hw, hf, he]

theorem flyingGated_of_check (s : SimpleAvatar) (e : ServerEvent) (he : e.checksFly = true) :
    flyingGated (ServerEvent.apply s e) := by
  unfold flyingGated
  cases e <;> simp [ServerEvent.checksFly] at he
  · simp only [ServerEvent.apply, ServerHandleToggleFly, ServerSetFlying_flying,
      ServerSetFlying_attrs]
    intro h; simp at h; exact h.1
  · simp only [ServerEvent.apply, ServerUpdate_flying, ServerUpdate_attrs]
    intro h; simp at h; exact h.2

theorem flyingGated_step (s : SimpleAvatar) (e : ServerEvent) (he : e.turnsFlyOff = false)
    (h : flyingGated s) : flyingGated (ServerEvent.apply s e) := by
  cases e with
  | Move p =>
    have hf := ServerHandleMove_frame s p
    intro h'; rw [show (ServerEvent.apply s (ServerEvent.Move p)) = ServerHandleMove s p from rfl] at *
    rw [hf.attrs]; rw [hf.flying] at h'; exact h h'
  | Stop p =>
    have hf := ServerHandleStop_frame s p
    intro h'; rw [show (ServerEvent.apply s (ServerEvent.Stop p)) = ServerHandleStop s p from rfl] at *
    rw [hf.attrs]; rw [hf.flying] at h'; exact h h'
  | ToggleFly => exact flyingGated_of_check s _ rfl
  | SetRotation p =>
    unfold flyingGated at *
    simp only [ServerEvent.apply, ServerHandleSetRotation]
    split_ifs <;> simpa [SimpleAvatar.withBody] using h
  | Update ft hl => exact flyingGated_of_check s _ rfl
  | UpdatePhysics ft =>
    unfold flyingGated at *
    simp only [ServerEvent.apply, ServerUpdatePhysics_flying, ServerUpdatePhysics_attrs]
    exact h
  | Collision n =>
    unfold flyingGated at *
    simp only [ServerEvent.apply, ServerHandleCollision_flying, ServerHandleCollision_attrs]
    exact h
  | WriteCapabilities w j f r a z d =>
    simp [ServerEvent.turnsFlyOff] at he
    unfold flyingGated
    simp [ServerEvent.apply, SimpleAvatar.withAttrs, he]
  | PhysicsEngine v a =>
    unfold flyingGated at *
    simpa [ServerEvent.apply, SimpleAvatar.withBody] using h
  | CreateAnimationController =>
    unfold flyingGated at *
    simp only [ServerEvent.apply]
    split <;> simpa [SimpleAvatar.withAnim] using h
  | SkeletonLoaded names =>
    unfold flyingGated at *
    simp only [ServerEvent.apply]
    split <;> simpa [SimpleAvatar.withAnim] using h

theorem flyingGated_run : ∀ (events : List ServerEvent) (s : SimpleAvatar),
    (∀ e ∈ events, e.turnsFlyOff = false) → flyingGated s → flyingGated (serverRun s events) := by
  intro events
  induction events with
  | nil => intro s _ h; exact h
  | cons e rest ih =>
    intro s h hs
    exact ih _ (fun e he => h e (List.mem_cons_of_mem _ he))
      (flyingGated_step s e (h e (List.mem_cons_self _ _)) hs)

/-- C6 as stated fails: after a fly toggle, a capability write that turns
`enableFly` off leaves a reachable state with `flying` true and `enableFly`
false. -/
theorem flying_with_enableFly_off :
    (serverRun (serverInit exampleEntity)
      [ServerEvent.ToggleFly,
       ServerEvent.WriteCapabilities true true false true true true 7]).flying = true ∧
    (serverRun (serverInit exampleEntity)
      [ServerEvent.ToggleFly,
       ServerEvent.WriteCapabilities true true false true true true 7]).me.dynamiccomponent.enableFly
      = false := by
  decide

/-- C6, amended.  In every server state reached from the initial state by a run
in which no capability write has set `enableFly` to false since the last fly
toggle or frame update (or since the start), `flying` is true only if
`enableFly` is true. -/
theorem flying_only_if_enableFly (entity : Entity) (before quiet : List ServerEvent)
    (hquiet : ∀ e ∈ quiet, e.turnsFlyOff = false)
    (hbefore : before = [] ∨ ∃ l e, before = l ++ [e] ∧ e.checksFly = true) :
    (serverRun (serverInit entity) (before ++ quiet)).flying = true →
      (serverRun (serverInit entity) (before ++ quiet)).me.dynamiccomponent.enableFly = true := by
  rw [serverRun_append]
  apply flyingGated_run quiet _ hquiet
  rcases hbefore with rfl | ⟨l, e, rfl, he⟩
  · intro _; rfl
  · rw [serverRun_append]
    exact flyingGated_of_check _ e he



theorem flying_only_if_enableFly_witness :
    (∀ e ∈ [ServerEvent.Move "forward", ServerEvent.UpdatePhysics 0], e.turnsFlyOff = false) ∧
    (serverRun (serverInit exampleEntity)
      ([ServerEvent.WriteCapabilities true true false true true true 7,
        ServerEvent.WriteCapabilities true true true true true true 7,
        ServerEvent.ToggleFly] ++
       [ServerEvent.Move "forward", ServerEvent.UpdatePhysics 0])).flying = true ∧
    ((serverRun (serverInit exampleEntity)
      ([ServerEvent.WriteCapabilities true true false true true true 7,
        ServerEvent.WriteCapabilities true true true true true true 7,
        ServerEvent.ToggleFly] ++
       [ServerEvent.Move "forward", ServerEvent.UpdatePhysics 0])).flying = true →
     (serverRun (serverInit exampleEntity)
      ([ServerEvent.WriteCapabilities true true false true true true 7,
        ServerEvent.WriteCapabilities true true true true true true 7,
        ServerEvent.ToggleFly] ++
       [ServerEvent.Move "forward", ServerEvent.UpdatePhysics 0])).me.dynamiccomponent.enableFly
      = true) :=
  ⟨by decide, by decide,
    flying_only_if_enableFly exampleEntity
      [ServerEvent.WriteCapabilities true true false true true true 7,
       ServerEvent.WriteCapabilities true true true true true true 7,
       ServerEvent.ToggleFly]
      [ServerEvent.Move "forward", ServerEvent.UpdatePhysics 0]
      (by decide)
      (Or.inr ⟨[ServerEvent.WriteCapabilities true true false true true true 7,
                ServerEvent.WriteCapabilities true true true true true true 7],
               ServerEvent.ToggleFly, rfl, rfl⟩)⟩

/-- C7, the code at two failing inputs, all four clips detected.  A physics
tick performs a jump and the next frame update leaves `animationState` at
`"Stand"` although the state is falling (role Hover); walking is switched off
while moving forward and the next frame update clears the motion but leaves
`animationState` at `"Walk"` (role Stand). -/
theorem animationState_stale_after_update :
    (serverRun detectedAvatar
      [ServerEvent.Move "up", ServerEvent.UpdatePhysics 0, ServerEvent.Update 0 false]).falling
      = true ∧
    specifiedRole (serverRun detectedAvatar
      [ServerEvent.Move "up", ServerEvent.UpdatePhysics 0, ServerEvent.Update 0 false])
      = "Hover" ∧
    animationState (serverRun detectedAvatar
      [ServerEvent.Move "up", ServerEvent.UpdatePhysics 0, ServerEvent.Update 0 false])
      = "Stand" ∧
    (serverRun detectedAvatar
      [ServerEvent.Move "forward",
       ServerEvent.WriteCapabilities false true true true true true 7,
       ServerEvent.Update 0 false]).motionZ = 0 ∧
    specifiedRole (serverRun detectedAvatar
      [ServerEvent.Move "forward",
       ServerEvent.WriteCapabilities false true true true true true 7,
       ServerEvent.Update 0 false]) = "Stand" ∧
    animationState (serverRun detectedAvatar
      [ServerEvent.Move "forward",
       ServerEvent.WriteCapabilities false true true true true true 7,
       ServerEvent.Update 0 false]) = "Walk" := by
  decide

theorem resolveAnimName_eq (s : SimpleAvatar)
    (hstand : s.standAnimName = "Stand") (hwalk : s.walkAnimName = "Walk")
    (hfly : s.flyAnimName = "Fly") (hhover : s.hoverAnimName = "Hover") :
    resolveAnimName s = specifiedRole s := by
  unfold resolveAnimName specifiedRole
  simp only [hstand, hwalk, hfly, hhover]
  cases s.flying <;> cases s.falling <;>
    by_cases hx : s.motionX = 0 <;> by_cases hz : s.motionZ = 0 <;> simp [hx, hz]

theorem specifiedRole_ne_empty (s : SimpleAvatar) : specifiedRole s ≠ "" := by
  unfold specifiedRole
  split_ifs <;> decide

/-- C8. With an animation controller present and the four role names being the
four clips, `ServerSetAnimationState` leaves `animationState` equal to Fly when
flying or falling with `motionZ` nonzero, Hover when flying or falling with
`motionZ` zero, Walk when grounded with `motionX` or `motionZ` nonzero, Stand
otherwise, and changes nothing else in the controller; the value of `motionY`
has no influence on the result. -/
theorem ServerSetAnimationState_role (s : SimpleAvatar) (ac : AnimationController)
    (hstand : s.standAnimName = "Stand") (hwalk : s.walkAnimName = "Walk")
    (hfly : s.flyAnimName = "Fly") (hhover : s.hoverAnimName = "Hover")
    (hac : s.me.animationcontroller = some ac) :
    (ServerSetAnimationState s).me.animationcontroller =
        some { ac with animationState := specifiedRole s } ∧
    ∀ y : Int, (ServerSetAnimationState { s with motionY := y }).me.animationcontroller =
        (ServerSetAnimationState s).me.animationcontroller := by
  have key : ∀ t : SimpleAvatar, t.standAnimName = "Stand" → t.walkAnimName = "Walk" →
      t.flyAnimName = "Fly" → t.hoverAnimName = "Hover" → t.me.animationcontroller = some ac →
      (ServerSetAnimationState t).me.animationcontroller =
        some { ac with animationState := specifiedRole t } := by
    intro t h1 h2 h3 h4 h5
    unfold ServerSetAnimationState
    simp only [resolveAnimName_eq t h1 h2 h3 h4, h5]
    have hne : (specifiedRole t == "") = false := by
      simpa using specifiedRole_ne_empty t
    simp only [hne, Bool.false_eq_true, if_false]
    by_cases hs : ac.animationState = specifiedRole t
    · simp [hs, h5]
      rw [← hs]
    · simp [hs, SimpleAvatar.withAnim]
  refine ⟨key s hstand hwalk hfly hhover hac, ?_⟩
  intro y
  rw [key s hstand hwalk hfly hhover hac, key { s with motionY := y } hstand hwalk hfly hhover hac]
  rfl

theorem ServerSetAnimationState_role_witness :
    detectedAvatar.me.animationcontroller =
      some { animationState := "", availableAnimations := ["Stand", "Walk", "Fly", "Hover"],
             activeAnimations := [], calls := [] } ∧
    (ServerSetAnimationState
      { detectedAvatar with motionX := -1, motionY := 1, falling := true }).me.animationcontroller =
      some { animationState := "Hover", availableAnimations := ["Stand", "Walk", "Fly", "Hover"],
             activeAnimations := [], calls := [] } :=
  ⟨by decide,
    (ServerSetAnimationState_role
      { detectedAvatar with motionX := -1, motionY := 1, falling := true }
      { animationState := "", availableAnimations := ["Stand", "Walk", "Fly", "Hover"],
        activeAnimations := [], calls := [] }
      (by decide) (by decide) (by decide) (by decide) (by decide)).1⟩

/-- C9. If `enableFly` is false, then after `ServerSetFlying(v)`, for every
prior state and every `v`, and after `ServerHandleToggleFly`, `flying` is
false. -/
theorem flying_false_when_enableFly_off (s : SimpleAvatar) (v : Bool)
    (h : s.me.dynamiccomponent.enableFly = false) :
    (ServerSetFlying s v).flying = false ∧ (ServerHandleToggleFly s).flying = false := by
  simp [ServerHandleToggleFly, h]

theorem flying_false_when_enableFly_off_witness :
    (serverRun (serverInit exampleEntity)
      [ServerEvent.ToggleFly,
       ServerEvent.WriteCapabilities true true false true true true 7]).flying = true ∧
    (ServerSetFlying (serverRun (serverInit exampleEntity)
      [ServerEvent.ToggleFly,
       ServerEvent.WriteCapabilities true true false true true true 7]) true).flying = false ∧
    (ServerHandleToggleFly (serverRun (serverInit exampleEntity)
      [ServerEvent.ToggleFly,
       ServerEvent.WriteCapabilities true true false true true true 7])).flying = false :=
  ⟨by decide,
    flying_false_when_enableFly_off (serverRun (serverInit exampleEntity)
      [ServerEvent.ToggleFly,
       ServerEvent.WriteCapabilities true true false true true true 7]) true (by decide)⟩



/-- C10. `ServerSetFlying` against redundant requests: when the gated value
equals the current `flying` flag the call returns the state unchanged (same
flag, mass, animation state, and calls on the body); calling it twice in a row
gives the same state as calling it once; entering flight writes mass `0` once
and applies no impulse; leaving flight writes mass `avatarMass` once and
applies the push impulse once. -/
theorem ServerSetFlying_idempotent (s : SimpleAvatar) (v : Bool) :
    ((s.me.dynamiccomponent.enableFly && v) = s.flying → ServerSetFlying s v = s) ∧
    ServerSetFlying (ServerSetFlying s v) v = ServerSetFlying s v ∧
    (s.flying = false → (s.me.dynamiccomponent.enableFly && v) = true →
      (ServerSetFlying s v).flying = true ∧
      (ServerSetFlying s v).me.rigidbody.mass = 0 ∧
      (ServerSetFlying s v).me.rigidbody.calls = s.me.rigidbody.calls ++ [BodyCall.SetMass 0]) ∧
    (s.flying = true → (s.me.dynamiccomponent.enableFly && v) = false →
      (ServerSetFlying s v).flying = false ∧
      (ServerSetFlying s v).me.rigidbody.mass = avatarMass ∧
      (ServerSetFlying s v).me.rigidbody.calls =
        s.me.rigidbody.calls ++ [BodyCall.SetMass avatarMass, BodyCall.ApplyImpulse (pushVec s)]) := by
  refine ⟨fun h => ServerSetFlying_of_same s v h.symm, ?_, ?_, ?_⟩
  · apply ServerSetFlying_of_same
    simp
  · intro hf hg
    refine ⟨by simp [hg], ?_, ?_⟩ <;>
    · unfold ServerSetFlying
      cases he : s.me.dynamiccomponent.enableFly <;> cases hv : v <;> simp [he, hv] at hg
      simp [hf, SimpleAvatar.withBody, RigidBody.setMass]
  · intro hf hg
    refine ⟨by simp [hg], ?_, ?_⟩ <;>
    · unfold ServerSetFlying
      cases he : s.me.dynamiccomponent.enableFly <;> cases hv : v <;> simp [he, hv] at hg <;>
        simp [hf, SimpleAvatar.withBody, RigidBody.setMass, RigidBody.ApplyImpulse, pushVec]

theorem ServerSetFlying_idempotent_witness :
    (serverRun (serverInit exampleEntity) [ServerEvent.ToggleFly]).flying = true ∧
    (ServerSetFlying (serverRun (serverInit exampleEntity) [ServerEvent.ToggleFly]) false).flying
      = false ∧
    (ServerSetFlying (serverRun (serverInit exampleEntity)
      [ServerEvent.ToggleFly]) false).me.rigidbody.mass = avatarMass ∧
    (ServerSetFlying (serverRun (serverInit exampleEntity)
      [ServerEvent.ToggleFly]) false).me.rigidbody.calls =
      (serverRun (serverInit exampleEntity) [ServerEvent.ToggleFly]).me.rigidbody.calls ++
        [BodyCall.SetMass avatarMass,
         BodyCall.ApplyImpulse
          (pushVec (serverRun (serverInit exampleEntity) [ServerEvent.ToggleFly]))] :=
  ⟨by decide,
    (ServerSetFlying_idempotent (serverRun (serverInit exampleEntity) [ServerEvent.ToggleFly])
      false).2.2.2 (by decide) (by decide)⟩

/-! ## Zoom steps -/

theorem ClientZoom_distance (s : SimpleAvatar) (scene : Scene) (r : ℚ)
    (hz : s.me.dynamiccomponent.enableZoom = true) (hcam : IsCameraActive scene = true) :
    (ClientZoom s scene r).me.dynamiccomponent.cameraDistance =
      if (r < 0 ∧ s.me.dynamiccomponent.cameraDistance < 500) ∨
          (0 < r ∧ 0 < s.me.dynamiccomponent.cameraDistance) then
        clampDistance (s.me.dynamiccomponent.cameraDistance + zoomStep r)
      else s.me.dynamiccomponent.cameraDistance := by
  unfold ClientZoom zoomStep clampDistance
  simp only [hz, hcam, Bool.not_true, Bool.false_eq_true, if_false]
  by_cases h1 : r < 0
  · have h1' : ¬ 0 < r := not_lt.mpr h1.le
    by_cases h2 : s.me.dynamiccomponent.cameraDistance < 500
    · by_cases h3 : r < -50 <;>
        simp [h1, h2, h3, h1', SimpleAvatar.withAttrs, DynamicComponent.setCameraDistance]
    · simp [h1, h2, h1']
  · by_cases h4 : 0 < r
    · by_cases h5 : 0 < s.me.dynamiccomponent.cameraDistance
      · by_cases h6 : 50 < r <;>
          simp [h1, h4, h5, h6, SimpleAvatar.withAttrs, DynamicComponent.setCameraDistance]
      · simp [h1, h4, h5]
    · simp [h1, h4]



theorem zoomStep_facts (r : ℚ) (hr : r ≠ 0) :
    zoomStep r ≠ 0 ∧ (∃ k : ℤ, zoomStep r = k) ∧
    |zoomStep r| = (if 50 < |r| then 2 else 1) ∧ (0 < zoomStep r ↔ r < 0) := by
  unfold zoomStep
  rcases lt_or_gt_of_ne hr with h | h
  · have h' : ¬ 0 < r := not_lt.mpr h.le
    have habs : |r| = -r := abs_of_neg h
    by_cases h3 : r < -50
    · have : 50 < |r| := by rw [habs]; linarith
      simp only [h, h3, if_true, this]
      refine ⟨by norm_num, ⟨2, by norm_num⟩, by norm_num, by norm_num⟩
    · have : ¬ 50 < |r| := by rw [habs]; intro hh; apply h3; linarith
      simp only [h, h3, if_true, if_false, this]
      refine ⟨by norm_num, ⟨1, by norm_num⟩, by norm_num, by norm_num⟩
  · have h' : ¬ r < 0 := not_lt.mpr h.le
    have habs : |r| = r := abs_of_pos h
    by_cases h3 : 50 < r
    · have : 50 < |r| := by rw [habs]; exact h3
      simp only [h, h', h3, if_true, if_false, this]
      refine ⟨by norm_num, ⟨-2, by norm_num⟩, by norm_num, by norm_num⟩
    · have : ¬ 50 < |r| := by rw [habs]; exact h3
      simp only [h, h', h3, if_true, if_false, this]
      refine ⟨by norm_num, ⟨-1, by norm_num⟩, by norm_num, by norm_num⟩

/-- C11 as stated fails: with zoom enabled and the camera active, a zoom-in
request `ClientZoom(10)` at camera distance 0 leaves the distance at 0, which is
not the clamp of `0 + k` for any nonzero integer step `k`. -/
theorem zoom_in_stuck_at_zero :
    (clientAt 0).me.dynamiccomponent.enableZoom = true ∧
    IsCameraActive activeScene = true ∧
    (ClientZoom (clientAt 0) activeScene 10).me.dynamiccomponent.cameraDistance = 0 ∧
    ∀ k : ℤ, k ≠ 0 → clampDistance (0 + (k : ℚ)) ≠ 0 := by
  refine ⟨by decide, by decide, ?_, ?_⟩
  · rw [ClientZoom_distance _ _ _ (by decide) (by decide)]
    have h : (clientAt 0).me.dynamiccomponent.cameraDistance = 0 := rfl
    rw [h]; norm_num
  · intro k hk
    unfold clampDistance
    rcases lt_or_gt_of_ne hk with h | h
    · have h1 : (k : ℚ) ≤ -1 := by exact_mod_cast Int.le_sub_one_of_lt h
      have : (0 : ℚ) + k < -(1 / 2) := by linarith
      rw [if_pos this]; norm_num
    · have h1 : (1 : ℚ) ≤ k := by exact_mod_cast h
      have h2 : ¬ (0 : ℚ) + k < -(1 / 2) := by linarith
      rw [if_neg h2]
      split_ifs
      · norm_num
      · linarith

/-- C11, amended.  For a camera distance `d` in `[-0.5, 500]` and a nonzero
scroll `r`, zoom enabled and camera active, `ClientZoom(r)` leaves the distance
at `clamp(d + s, -0.5, 500)`, where the step `s` is a nonzero integer, positive
exactly for negative `r`, of magnitude 2 if `|r| > 50` and 1 otherwise; except
that a zoom-in request (`r > 0`) at `d ≤ 0` leaves the distance as it is. -/
theorem ClientZoom_step (s : SimpleAvatar) (scene : Scene) (r : ℚ)
    (hz : s.me.dynamiccomponent.enableZoom = true) (hcam : IsCameraActive scene = true)
    (hr : r ≠ 0)
    (hd : -(1 / 2) ≤ s.me.dynamiccomponent.cameraDistance ∧
      s.me.dynamiccomponent.cameraDistance ≤ 500) :
    (ClientZoom s scene r).me.dynamiccomponent.cameraDistance =
      (if 0 < r ∧ s.me.dynamiccomponent.cameraDistance ≤ 0 then
        s.me.dynamiccomponent.cameraDistance
      else clampDistance (s.me.dynamiccomponent.cameraDistance + zoomStep r)) ∧
    zoomStep r ≠ 0 ∧ (∃ k : ℤ, zoomStep r = k) ∧
    |zoomStep r| = (if 50 < |r| then 2 else 1) ∧ (0 < zoomStep r ↔ r < 0) := by
  refine ⟨?_, zoomStep_facts r hr⟩
  rw [ClientZoom_distance s scene r hz hcam]
  obtain ⟨h1, h2⟩ := hd
  rcases lt_or_gt_of_ne hr with h | h
  · have h' : ¬ 0 < r := not_lt.mpr h.le
    by_cases h3 : s.me.dynamiccomponent.cameraDistance < 500
    · simp [h, h', h3]
    · have h500 : s.me.dynamiccomponent.cameraDistance = 500 := le_antisymm h2 (not_lt.mp h3)
      have hpos : 0 < zoomStep r := (zoomStep_facts r hr).2.2.2.2 h
      simp only [h, h', h3, false_and, and_false, or_false, if_false]
      unfold clampDistance
      rw [h500]
      rw [if_neg (by linarith), if_pos (by linarith)]
  · have h' : ¬ r < 0 := not_lt.mpr h.le
    by_cases h3 : 0 < s.me.dynamiccomponent.cameraDistance
    · simp [h, h', h3, not_le.mpr h3]
    · simp [h, h', h3, not_lt.mp h3]

theorem ClientZoom_step_witness :
    (ClientZoom (clientAt 10) activeScene 60).me.dynamiccomponent.cameraDistance =
      (if (0 : ℚ) < 60 ∧ (clientAt 10).me.dynamiccomponent.cameraDistance ≤ 0 then
        (clientAt 10).me.dynamiccomponent.cameraDistance
      else clampDistance ((clientAt 10).me.dynamiccomponent.cameraDistance + zoomStep 60)) :=
  (ClientZoom_step (clientAt 10) activeScene 60 (by decide) (by decide) (by norm_num)
    (by rw [show (clientAt 10).me.dynamiccomponent.cameraDistance = 10 from rfl]; norm_num)).1

/-- C12 as stated fails: with zoom enabled and the camera active,
`ClientZoom(-60)` at camera distance 10 yields 12, not 8. -/
theorem scroll_minus_60_increases :
    (ClientZoom (clientAt 10) activeScene (-60)).me.dynamiccomponent.cameraDistance = 12 := by
  rw [ClientZoom_distance _ _ _ (by decide) (by decide)]
  have h : (clientAt 10).me.dynamiccomponent.cameraDistance = 10 := rfl
  rw [h]; unfold clampDistance zoomStep; norm_num

/-- C12, amended.  A scroll magnitude below -50 increases the camera distance
by 2, up to the bound: with zoom enabled, the camera active and the distance
`d` in `[-0.5, 500]`, `ClientZoom(r)` for `r < -50` yields `min(d + 2, 500)`. -/
theorem ClientZoom_below_minus_50 (s : SimpleAvatar) (scene : Scene) (r : ℚ)
    (hz : s.me.dynamiccomponent.enableZoom = true) (hcam : IsCameraActive scene = true)
    (hr : r < -50)
    (hd : -(1 / 2) ≤ s.me.dynamiccomponent.cameraDistance ∧
      s.me.dynamiccomponent.cameraDistance ≤ 500) :
    (ClientZoom s scene r).me.dynamiccomponent.cameraDistance =
      min (s.me.dynamiccomponent.cameraDistance + 2) 500 := by
  have hne : r ≠ 0 := by linarith
  have h0 : r < 0 := by linarith
  rw [(ClientZoom_step s scene r hz hcam hne hd).1]
  have h' : ¬ 0 < r := not_lt.mpr h0.le
  obtain ⟨h1, h2⟩ := hd
  simp only [h', false_and, if_false]
  unfold clampDistance zoomStep
  simp only [h0, hr, if_true]
  rw [if_neg (by linarith)]
  by_cases h3 : 500 < s.me.dynamiccomponent.cameraDistance + 2
  · rw [if_pos h3, min_eq_right h3.le]
  · rw [if_neg h3, min_eq_left (not_lt.mp h3)]

theorem ClientZoom_below_minus_50_witness :
    (ClientZoom (clientAt 10) activeScene (-60)).me.dynamiccomponent.cameraDistance =
      min ((clientAt 10).me.dynamiccomponent.cameraDistance + 2) 500 :=
  ClientZoom_below_minus_50 (clientAt 10) activeScene (-60) (by decide) (by decide)
    (by norm_num)
    (by rw [show (clientAt 10).me.dynamiccomponent.cameraDistance = 10 from rfl]; norm_num)

/-- C13. If `enableZoom` is false, or the camera entity is missing, or it has
no camera component, or its camera is not active, then `ClientZoom(r)` returns
the state unchanged for every `r`: same camera distance, and no call on the
attribute store. -/
theorem ClientZoom_rejected (s : SimpleAvatar) (scene : Scene) (r : ℚ)
    (h : s.me.dynamiccomponent.enableZoom = false ∨
      scene.AvatarCamera = none ∨
      (∃ e, scene.AvatarCamera = some e ∧ e.camera = none) ∨
      (∃ e cam, scene.AvatarCamera = some e ∧ e.camera = some cam ∧ cam.active = false)) :
    ClientZoom s scene r = s ∧
    (ClientZoom s scene r).me.dynamiccomponent.cameraDistance =
      s.me.dynamiccomponent.cameraDistance ∧
    (ClientZoom s scene r).me.dynamiccomponent.calls = s.me.dynamiccomponent.calls := by
  have key : ClientZoom s scene r = s := by
    unfold ClientZoom
    rcases h with h | h | ⟨e, h, h'⟩ | ⟨e, cam, h, h', h''⟩
    · simp [h]
    · simp [IsCameraActive, h]
    · simp [IsCameraActive, h, h']
    · simp [IsCameraActive, h, h', h'']
  rw [key]; exact ⟨rfl, rfl, rfl⟩

theorem ClientZoom_rejected_witness :
    ClientZoom (clientAt 10) { AvatarCamera := some { camera := none } } (-60) = clientAt 10 :=
  (ClientZoom_rejected (clientAt 10) { AvatarCamera := some { camera := none } } (-60)
    (Or.inr (Or.inr (Or.inl ⟨_, rfl, rfl⟩)))).1

/-! ## Walk gate, animation override, absent roles -/

/-- C18. Walk gating of Move.  With `enableWalk` false a Move naming forward,
back, left or right leaves the three motion components, `flying` and `falling`
as they are.  `Move("up")` sets `motionY = 1` and `Move("down")` sets
`motionY = -1` in every state, leaving `motionX` and `motionZ`.  With
`enableWalk` true each horizontal direction sets its own component to its sign
and leaves the other two. -/
theorem Move_walk_gate (s : SimpleAvatar) :
    (s.me.dynamiccomponent.enableWalk = false →
      ∀ p ∈ ["forward", "back", "left", "right"],
        (ServerHandleMove s p).motionX = s.motionX ∧
        (ServerHandleMove s p).motionY = s.motionY ∧
        (ServerHandleMove s p).motionZ = s.motionZ ∧
        (ServerHandleMove s p).flying = s.flying ∧
        (ServerHandleMove s p).falling = s.falling) ∧
    ((ServerHandleMove s "up").motionY = 1 ∧
      (ServerHandleMove s "up").motionX = s.motionX ∧
      (ServerHandleMove s "up").motionZ = s.motionZ) ∧
    ((ServerHandleMove s "down").motionY = -1 ∧
      (ServerHandleMove s "down").motionX = s.motionX ∧
      (ServerHandleMove s "down").motionZ = s.motionZ) ∧
    (s.me.dynamiccomponent.enableWalk = true →
      ((ServerHandleMove s "forward").motionZ = 1 ∧
        (ServerHandleMove s "forward").motionX = s.motionX ∧
        (ServerHandleMove s "forward").motionY = s.motionY) ∧
      ((ServerHandleMove s "back").motionZ = -1 ∧
        (ServerHandleMove s "back").motionX = s.motionX ∧
        (ServerHandleMove s "back").motionY = s.motionY) ∧
      ((ServerHandleMove s "right").motionX = 1 ∧
        (ServerHandleMove s "right").motionY = s.motionY ∧
        (ServerHandleMove s "right").motionZ = s.motionZ) ∧
      ((ServerHandleMove s "left").motionX = -1 ∧
        (ServerHandleMove s "left").motionY = s.motionY ∧
        (ServerHandleMove s "left").motionZ = s.motionZ)) := by
  refine ⟨?_, ?_, ?_, ?_⟩
  · intro hw p hp
    simp only [List.mem_cons, List.mem_singleton, List.not_mem_nil, or_false] at hp
    rcases hp with rfl | rfl | rfl | rfl <;> simp [ServerHandleMove, hw]
  · simp [ServerHandleMove]
  · simp [ServerHandleMove]
  · intro hw
    simp [ServerHandleMove, hw]

theorem Move_walk_gate_witness :
    (ServerHandleMove (serverRun (serverInit exampleEntity)
      [ServerEvent.WriteCapabilities false false true true true true 7]) "forward").motionZ = 0 ∧
    (ServerHandleMove (serverRun (serverInit exampleEntity)
      [ServerEvent.WriteCapabilities false false true true true true 7]) "up").motionY = 1 ∧
    (ServerHandleMove (serverInit exampleEntity) "left").motionX = -1 :=
  ⟨(((Move_walk_gate (serverRun (serverInit exampleEntity)
        [ServerEvent.WriteCapabilities false false true true true true 7])).1 (by decide)
        "forward" (by decide)).2.2.1).trans (by decide),
    (Move_walk_gate (serverRun (serverInit exampleEntity)
        [ServerEvent.WriteCapabilities false false true true true true 7])).2.1.1,
    ((Move_walk_gate (serverInit exampleEntity)).2.2.2 (by decide)).2.2.2.1⟩

theorem disableAll_animationState : ∀ (animList : List String) (ac : AnimationController),
    (disableAll animList ac).animationState = ac.animationState := by
  intro animList
  induction animList with
  | nil => intro ac; rfl
  | cons m rest ih =>
    intro ac
    have hstep : disableAll (m :: rest) ac =
        disableAll rest (if m != "" then ac.DisableAnimation m (25 / 100) else ac) := rfl
    rw [hstep, ih]
    split_ifs <;> rfl

theorem disableAll_calls : ∀ (animList : List String) (ac : AnimationController),
    (disableAll animList ac).calls =
      ac.calls ++ (animList.filter (fun n => n != "")).map
        (fun n => AnimCall.DisableAnimation n (25 / 100)) := by
  intro animList
  induction animList with
  | nil => intro ac; simp [disableAll]
  | cons m rest ih =>
    intro ac
    have hstep : disableAll (m :: rest) ac =
        disableAll rest (if m != "" then ac.DisableAnimation m (25 / 100) else ac) := rfl
    rw [hstep, ih]
    by_cases hm : m = ""
    · subst hm; simp
    · simp [hm, AnimationController.DisableAnimation]

/-- C19. Global animation override.  Detection done, controller present and
`enableAnimation` false: after `CommonUpdateAnimation` no named clip of the
animation list is active (none of the four move clips when all were detected),
whatever `animationState` holds and whichever clips were active; the only
calls made on the player are `DisableAnimation` calls, so nothing is enabled and
no speed is set; `animationState` is untouched. -/
theorem animation_override (s : SimpleAvatar) (frametime : ℚ) (IsHeadless : Bool)
    (ac : AnimationController)
    (hdet : s.animsDetected = true)
    (hac : s.me.animationcontroller = some ac)
    (hoff : s.me.dynamiccomponent.enableAnimation = false) :
    ∃ ac', (CommonUpdateAnimation s frametime IsHeadless).me.animationcontroller = some ac' ∧
      (∀ n ∈ s.animList, n ≠ "" → ac'.IsAnimationActive n = false) ∧
      (s.animList = ["Stand", "Walk", "Fly", "Hover"] → activeMoveClips ac' = []) ∧
      ac'.animationState = ac.animationState ∧
      ∃ added, ac'.calls = ac.calls ++ added ∧
        ∀ c ∈ added, ∃ n, c = AnimCall.DisableAnimation n (25 / 100) := by
  unfold CommonUpdateAnimation
  simp only [hdet, hac, hoff, Bool.not_true, Bool.not_false, Bool.false_eq_true, if_false,
    if_true, SimpleAvatar.withAnim]
  refine ⟨_, rfl, ?_, ?_, ?_, ?_⟩
  · intro n hn hne
    simp only [AnimationController.IsAnimationActive, decide_eq_false_iff_not, mem_disableAll]
    rintro ⟨_, h⟩
    exact h ⟨hn, hne⟩
  · intro hl
    apply activeMoveClips_eq_nil
    intro n hn
    rw [mem_disableAll, hl]
    rintro ⟨_, h⟩
    exact h ⟨hn, mem_moveClips_ne_empty hn⟩
  · exact disableAll_animationState _ _
  · refine ⟨_, disableAll_calls _ _, ?_⟩
    intro c hc
    simp only [List.mem_map] at hc
    obtain ⟨n, _, rfl⟩ := hc
    exact ⟨n, rfl⟩

/-- C20. When the name resolved from the locomotion state is the empty string
(the role's clip was absent at detection), `ServerSetAnimationState` returns the
state unchanged: `animationState` keeps its value and no other role's clip is
written in its place. -/
theorem absent_role_leaves_state (s : SimpleAvatar) (h : resolveAnimName s = "") :
    ServerSetAnimationState s = s ∧
    (ServerSetAnimationState s).me.animationcontroller = s.me.animationcontroller := by
  have key : ServerSetAnimationState s = s := by
    unfold ServerSetAnimationState
    simp [h]
  rw [key]; exact ⟨rfl, rfl⟩



theorem animation_override_witness :
    ∃ ac', (CommonUpdateAnimation
        (walkingAvatar.withAttrs
          { walkingAvatar.me.dynamiccomponent with enableAnimation := false }) 0 false
        ).me.animationcontroller = some ac' ∧
      (∀ n ∈ ["Stand", "Walk", "Fly", "Hover"], n ≠ "" → ac'.IsAnimationActive n = false) ∧
      (["Stand", "Walk", "Fly", "Hover"] = ["Stand", "Walk", "Fly", "Hover"] →
        activeMoveClips ac' = []) ∧
      ac'.animationState = "Walk" ∧
      ∃ added, ac'.calls = [] ++ added ∧
        ∀ c ∈ added, ∃ n, c = AnimCall.DisableAnimation n (25 / 100) :=
  animation_override
    (walkingAvatar.withAttrs { walkingAvatar.me.dynamiccomponent with enableAnimation := false })
    0 false
    { animationState := "Walk"
      availableAnimations := ["Stand", "Walk", "Fly", "Hover"]
      activeAnimations := ["Stand"]
      calls := [] }
    (by decide) rfl (by decide)

theorem absent_role_leaves_state_witness :
    resolveAnimName { noWalkAvatar with motionZ := 1 } = "" ∧
    ServerSetAnimationState { noWalkAvatar with motionZ := 1 } =
      { noWalkAvatar with motionZ := 1 } :=
  ⟨by decide, (absent_role_leaves_state { noWalkAvatar with motionZ := 1 } (by decide)).1⟩

/-! ## View controller: pitch, axis lock, gestures -/

theorem lookUpDown_pitch (s : SimpleAvatar) (y : Int) :
    -90 ≤ (lookUpDown s y).pitch ∧ (lookUpDown s y).pitch ≤ 90 := by
  unfold lookUpDown
  dsimp only
  generalize s.pitch - mouseRotateSensitivity * (y : ℚ) = p
  by_cases h1 : p < -90
  · simp only [h1, if_true]
    rw [if_neg (by norm_num)]
    constructor <;> norm_num
  · simp only [h1, if_false]
    by_cases h2 : p > 90
    · simp only [h2, if_true]; constructor <;> norm_num
    · simp only [h2, if_false]; exact ⟨not_lt.mp h1, not_lt.mp h2⟩

theorem LockMouseMove_pitch (s : SimpleAvatar) (x y : Int) :
    (LockMouseMove s x y).pitch = s.pitch := by
  unfold LockMouseMove; split_ifs <;> rfl

theorem ClientZoom_pitch (s : SimpleAvatar) (scene : Scene) (r : ℚ) :
    (ClientZoom s scene r).pitch = s.pitch := by
  unfold ClientZoom
  dsimp only
  split_ifs <;> rfl

theorem enterFirstPerson_pitch (c : Client) (fp : Bool) :
    ∀ c', (enterFirstPerson c fp = Except.ok c' ∨ enterFirstPerson c fp = Except.error c') →
      c'.avatar.pitch = c.avatar.pitch := by
  intro c' h
  unfold enterFirstPerson at h
  dsimp only at h
  split_ifs at h with h1
  · cases hc : c.avatar.crosshair with
    | none => simp [hc] at h; rw [← h]
    | some ch =>
      simp only [hc] at h
      split_ifs at h <;> rcases h with h | h <;> simp at h <;> rw [← h]
  · rcases h with h | h <;> simp at h; rw [← h]

theorem decideLock_pitch (c : Client) (e : MouseEvent) :
    (decideLock c e).avatar.pitch = c.avatar.pitch := by
  unfold decideLock; split_ifs
  · exact LockMouseMove_pitch _ _ _
  · rfl

theorem rotateAndLook_pitch (c : Client) (fp : Bool) (e : MouseEvent) :
    (rotateAndLook c fp e).avatar.pitch = c.avatar.pitch ∨
      (-90 ≤ (rotateAndLook c fp e).avatar.pitch ∧ (rotateAndLook c fp e).avatar.pitch ≤ 90) := by
  unfold rotateAndLook
  dsimp only
  split_ifs
  · right; exact lookUpDown_pitch _ _
  · left; rfl
  · right; exact lookUpDown_pitch _ _
  · left; rfl

theorem ClientHandleMouseMove_pitch (c : Client) (e : MouseEvent) :
    (ClientHandleMouseMove c e).avatar.pitch = c.avatar.pitch ∨
      (-90 ≤ (ClientHandleMouseMove c e).avatar.pitch ∧
        (ClientHandleMouseMove c e).avatar.pitch ≤ 90) := by
  unfold ClientHandleMouseMove
  dsimp only
  have hp := enterFirstPerson_pitch c (decide (c.avatar.me.dynamiccomponent.cameraDistance < 0))
  cases hr : enterFirstPerson c (decide (c.avatar.me.dynamiccomponent.cameraDistance < 0)) with
  | error c' => left; exact hp c' (Or.inr hr)
  | ok c' =>
    have h' := hp c' (Or.inl hr)
    dsimp only
    split_ifs
    · left; exact h'
    · left; exact h'
    · have hd := decideLock_pitch c' e
      cases hcam : (decideLock c' e).scene.AvatarCamera with
      | none => left; simp only []; rw [hd, h']
      | some ce =>
        cases hcc : ce.camera with
        | none => left; simp only [hcc]; rw [hd, h']
        | some cam =>
          simp only [hcc]
          split_ifs
          · left; rw [hd, h']
          · rcases rotateAndLook_pitch (decideLock c' e)
                (decide (c.avatar.me.dynamiccomponent.cameraDistance < 0)) e with h | h
            · left; rw [h, hd, h']
            · right; exact h

theorem CommonFindAnimations_pitch (s : SimpleAvatar) :
    (CommonFindAnimations s).pitch = s.pitch := by
  obtain ⟨l, a, b, c, d, f, e⟩ := CommonFindAnimations_shape s; rw [e]

theorem CommonUpdateAnimation_pitch (s : SimpleAvatar) (frametime : ℚ) (h : Bool) :
    (CommonUpdateAnimation s frametime h).pitch = s.pitch := by
  obtain ⟨oc, e⟩ := CommonUpdateAnimation_anim s frametime h; rw [e]

theorem ClientHandleRotate_pitch (s : SimpleAvatar) (p : String) :
    (ClientHandleRotate s p).pitch = s.pitch := by
  unfold ClientHandleRotate; dsimp only; split_ifs <;> rfl

theorem ClientHandleStopRotate_pitch (s : SimpleAvatar) (p : String) :
    (ClientHandleStopRotate s p).pitch = s.pitch := by
  unfold ClientHandleStopRotate; dsimp only; split_ifs <;> rfl

theorem moveKey_avatar (c : Client) (e : KeyEvent) (d : String) :
    (moveKey c e d).avatar = c.avatar := by
  unfold moveKey; split_ifs <;> rfl

theorem ClientHandleKeyboardZoom_pitch (c : Client) (d : String) :
    (ClientHandleKeyboardZoom c d).avatar.pitch = c.avatar.pitch := by
  unfold ClientHandleKeyboardZoom
  split_ifs
  · exact ClientZoom_pitch _ _ _
  · exact ClientZoom_pitch _ _ _
  · rfl

theorem ClientHandleKeyEvent_pitch (c : Client) (e : KeyEvent) :
    (ClientHandleKeyEvent c e).avatar.pitch = c.avatar.pitch := by
  unfold ClientHandleKeyEvent
  by_cases hcam : (!IsCameraActive c.scene) = true
  · rw [if_pos hcam]
  · rw [if_neg hcam]
    cases e.keyCode <;> dsimp only <;>
      first
        | rw [moveKey_avatar]
        | rfl
        | (split_ifs <;>
            first
              | rfl
              | exact ClientHandleKeyboardZoom_pitch _ _
              | exact ClientHandleRotate_pitch _ _
              | exact ClientHandleStopRotate_pitch _ _)

theorem ClientHandleMouseScrollEvent_pitch (c : Client) (z : Int) :
    (ClientHandleMouseScrollEvent c z).avatar.pitch = c.avatar.pitch := by
  unfold ClientHandleMouseScrollEvent
  split_ifs
  · exact ClientZoom_pitch _ _ _
  · rfl

theorem GestureStarted_pitch (c : Client) (e : GestureEvent) :
    (GestureStarted c e).avatar.pitch = c.avatar.pitch := by
  unfold GestureStarted
  dsimp only
  split_ifs <;> rfl

theorem GestureUpdated_pitch (c : Client) (e : GestureEvent) :
    (GestureUpdated c e).avatar.pitch = c.avatar.pitch := by
  unfold GestureUpdated
  dsimp only [Client.Exec]
  by_cases h1 : (!IsCameraActive c.scene) = true
  · rw [if_pos h1]
  · rw [if_neg h1]
    by_cases h2 : (e.gestureType == GestureType.PanGesture && c.avatar.listenGesture == true)
        = true
    · rw [if_pos h2]
      cases c.avatar.me.animationcontroller with
      | none => rfl
      | some ac =>
        dsimp only
        split_ifs <;> rfl
    · rw [if_neg h2]
      split_ifs
      · exact ClientZoom_pitch _ _ _
      · rfl
      · rfl

theorem ClientUpdateRotation_pitch (c : Client) (frametime : ℚ) :
    (ClientUpdateRotation c frametime).avatar.pitch = c.avatar.pitch := by
  unfold ClientUpdateRotation
  dsimp only
  split_ifs <;> rfl

theorem hideCrosshair_pitch (c : Client) : c.hideCrosshair.avatar.pitch = c.avatar.pitch := rfl

theorem showCrosshair_pitch (c : Client) : c.showCrosshair.avatar.pitch = c.avatar.pitch := rfl

theorem ClientCheckState_reached (c : Client) :
    reached (ClientCheckState c) = c ∨ reached (ClientCheckState c) = c.hideCrosshair ∨
      reached (ClientCheckState c) = c.showCrosshair := by
  unfold ClientCheckState
  dsimp only
  cases c.avatar.crosshair with
  | none => left; rfl
  | some ch =>
    cases c.scene.AvatarCamera with
    | none => dsimp only; cases ch.active <;> simp [reached]
    | some ce =>
      dsimp only
      cases decide (c.avatar.me.dynamiccomponent.cameraDistance < 0) <;>
        cases ce.camera with
        | none => dsimp only; cases ch.active <;> simp [reached]
        | some cam => dsimp only; cases ch.active <;> cases cam.active <;> simp [reached]

theorem ClientCheckState_pitch (c : Client) :
    (reached (ClientCheckState c)).avatar.pitch = c.avatar.pitch := by
  rcases ClientCheckState_reached c with h | h | h <;> rw [h] <;> rfl

theorem ClientCheckState_scene (c : Client) :
    (reached (ClientCheckState c)).scene = c.scene := by
  rcases ClientCheckState_reached c with h | h | h <;> rw [h] <;> rfl

theorem ClientUpdateAvatarCamera_pitch (c : Client) :
    (reached (ClientUpdateAvatarCamera c)).avatar.pitch = c.avatar.pitch := by
  unfold ClientUpdateAvatarCamera
  have hp := ClientCheckState_pitch c
  cases hr : ClientCheckState c with
  | error c1 => rw [hr] at hp; exact hp
  | ok c1 =>
    rw [hr] at hp
    dsimp only
    cases c1.scene.AvatarCamera with
    | none => exact hp
    | some ce => exact hp

theorem updateAnimation_pitch (c : Client) (frametime : ℚ) :
    (updateAnimation c frametime).avatar.pitch = c.avatar.pitch := by
  unfold updateAnimation
  simp only [CommonUpdateAnimation_pitch]
  split_ifs
  · exact CommonFindAnimations_pitch _
  · rfl

theorem ClientUpdate_pitch (c : Client) (frametime : ℚ) :
    (ClientUpdate c frametime).avatar.pitch = c.avatar.pitch := by
  unfold ClientUpdate
  dsimp only
  have key : ∀ r : Except Client Client, (reached r).avatar.pitch = c.avatar.pitch →
      (match r with
        | Except.error c => c
        | Except.ok c => updateAnimation c frametime).avatar.pitch = c.avatar.pitch := by
    intro r hr
    cases r with
    | error c1 => exact hr
    | ok c1 => rw [updateAnimation_pitch]; exact hr
  apply key
  split_ifs
  · rw [ClientUpdateAvatarCamera_pitch, ClientUpdateRotation_pitch]
  · rfl

theorem ClientEvent_pitch (c : Client) (e : ClientEvent) (h : ∀ m, e ≠ ClientEvent.MouseMove m) :
    (ClientEvent.apply c e).avatar.pitch = c.avatar.pitch := by
  cases e with
  | KeyEventReceived k => exact ClientHandleKeyEvent_pitch c k
  | MouseMove m => exact absurd rfl (h m)
  | MouseRightPressed => simp only [ClientEvent.apply]; split_ifs <;> rfl
  | MouseRightReleased => simp only [ClientEvent.apply]; split_ifs <;> rfl
  | MouseScroll z => exact ClientHandleMouseScrollEvent_pitch c z
  | GestureStarted g => exact GestureStarted_pitch c g
  | GestureUpdated g => exact GestureUpdated_pitch c g
  | Update ft => exact ClientUpdate_pitch c ft
  | Replicated en => rfl
  | SceneChanged sc => rfl
  | CursorChanged v => rfl
  | MeshChanged hb => rfl

theorem ClientCreateAvatarCamera_pitch (c : Client) :
    (ClientCreateAvatarCamera c).avatar.pitch = c.avatar.pitch := by
  unfold ClientCreateAvatarCamera
  dsimp only
  have hp := ClientUpdateAvatarCamera_pitch
    { c with scene := { AvatarCamera := some { camera := some { active := true } } } }
  cases hr : ClientUpdateAvatarCamera
    { c with scene := { AvatarCamera := some { camera := some { active := true } } } } with
  | error c1 => rw [hr] at hp; exact hp
  | ok c1 => rw [hr] at hp; exact hp

theorem clientInit_pitch (entity : Entity) (connectionId : Nat) (world : Client) :
    (clientInit entity connectionId world).avatar.pitch = 0 := by
  unfold clientInit ClientInitialize
  dsimp only
  split_ifs
  · exact ClientCreateAvatarCamera_pitch _
  · exact ClientCreateAvatarCamera_pitch _
  · rfl

/-- C14, the code at a failing input.  The user's own viewer, camera active, a
pan gesture started, the avatar standing: a pan update with vertical offset
-120 sends one `Move("forward")` but leaves `this.listenGesture` true (the
script's global variable `listenGesture` is what becomes false), and the next
pan update of the same gesture, offset -130, sends `Move("forward")` again.
With offsets 120 and 130 one `Move("back")` is sent and `this.listenGesture`
is false after the first update. -/
theorem pan_forward_trigger_not_reset :
    IsCameraActive ownClient.scene = true ∧
    (clientRun ownClient [ClientEvent.GestureStarted (panEvent 0)]).avatar.listenGesture = true ∧
    (clientRun ownClient [ClientEvent.GestureStarted (panEvent 0),
      ClientEvent.GestureUpdated (panEvent (-120))]).movesSent = [EntityAction.Move "forward"] ∧
    (clientRun ownClient [ClientEvent.GestureStarted (panEvent 0),
      ClientEvent.GestureUpdated (panEvent (-120))]).avatar.listenGesture = true ∧
    (clientRun ownClient [ClientEvent.GestureStarted (panEvent 0),
      ClientEvent.GestureUpdated (panEvent (-120))]).listenGesture = some false ∧
    (clientRun ownClient [ClientEvent.GestureStarted (panEvent 0),
      ClientEvent.GestureUpdated (panEvent (-120)),
      ClientEvent.GestureUpdated (panEvent (-130))]).movesSent =
        [EntityAction.Move "forward", EntityAction.Move "forward"] ∧
    (clientRun ownClient [ClientEvent.GestureStarted (panEvent 0),
      ClientEvent.GestureUpdated (panEvent 120),
      ClientEvent.GestureUpdated (panEvent 130)]).movesSent = [EntityAction.Move "back"] ∧
    (clientRun ownClient [ClientEvent.GestureStarted (panEvent 0),
      ClientEvent.GestureUpdated (panEvent 120)]).avatar.listenGesture = false := by
  decide

/-- C15 as stated fails: with the right button held, a mouse move with deltas
`(10, 1)` locks the look on the horizontal axis and the next one with deltas
`(1, 10)` unlocks it. -/
theorem lock_redecided_while_held :
    (clientRun ownClient [ClientEvent.MouseRightPressed,
      ClientEvent.MouseMove ⟨10, 1, true⟩]).avatar.isMouseLookLockedOnX = true ∧
    (clientRun ownClient [ClientEvent.MouseRightPressed,
      ClientEvent.MouseMove ⟨10, 1, true⟩,
      ClientEvent.MouseMove ⟨1, 10, true⟩]).avatar.isMouseLookLockedOnX = false := by
  decide!

theorem LockMouseMove_lock (s : SimpleAvatar) (x y : Int) :
    (LockMouseMove s x y).isMouseLookLockedOnX = decide (|y| ≤ |x|) := by
  unfold LockMouseMove
  by_cases h : |y| > |x|
  · rw [if_pos h]; simp [not_le.mpr h]
  · rw [if_neg h]; simp [not_lt.mp h]

theorem lookUpDown_lock (s : SimpleAvatar) (y : Int) :
    (lookUpDown s y).isMouseLookLockedOnX = s.isMouseLookLockedOnX := by
  unfold lookUpDown
  dsimp only
  split_ifs <;> rfl

theorem rotateAndLook_lock (c : Client) (fp : Bool) (e : MouseEvent) :
    (rotateAndLook c fp e).avatar.isMouseLookLockedOnX = c.avatar.isMouseLookLockedOnX := by
  unfold rotateAndLook
  dsimp only
  split_ifs <;> first | rfl | exact lookUpDown_lock _ _

theorem decideLock_lock (c : Client) (e : MouseEvent) :
    (decideLock c e).avatar.isMouseLookLockedOnX =
      (if e.rightButtonDown then decide (|e.relativeY| ≤ |e.relativeX|) else true) := by
  unfold decideLock
  split_ifs
  · exact LockMouseMove_lock _ _ _
  · rfl

/-- C15, amended.  For every `ClientHandleMouseMove` event, rotation enabled and
the mouse cursor hidden (as it is while the right button is held): delivered
with the right button down, the event decides `isMouseLookLockedOnX` afresh
from its own deltas (locked exactly when `|Δy| ≤ |Δx|`), whatever earlier
events decided; delivered with the button up it sets the lock to true. -/
theorem lock_decided_by_each_event (c : Client) (e : MouseEvent)
    (hrot : c.avatar.me.dynamiccomponent.enableRotate = true)
    (hcur : c.mouseCursorVisible = false) :
    (ClientHandleMouseMove c e).avatar.isMouseLookLockedOnX =
      (if e.rightButtonDown then decide (|e.relativeY| ≤ |e.relativeX|) else true) := by
  unfold ClientHandleMouseMove
  have hent : enterFirstPerson c (decide (c.avatar.me.dynamiccomponent.cameraDistance < 0))
      = Except.ok c := by
    unfold enterFirstPerson
    simp [hcur]
  dsimp only
  rw [hent]
  dsimp only
  simp only [hrot, hcur, Bool.not_true, Bool.false_eq_true, if_false, Bool.and_false]
  have hd := decideLock_lock c e
  generalize (if e.rightButtonDown = true then decide (|e.relativeY| ≤ |e.relativeX|) else true)
    = rhs at hd ⊢
  cases hs : (decideLock c e).scene.AvatarCamera with
  | none => exact hd
  | some ce =>
    cases hcam : ce.camera with
    | none => simp only [hcam]; exact hd
    | some cam =>
      simp only [hcam]
      split_ifs
      · exact hd
      · rw [rotateAndLook_lock]; exact hd

theorem lock_decided_by_each_event_witness :
    (ClientHandleMouseMove
      (clientRun ownClient [ClientEvent.MouseRightPressed, ClientEvent.MouseMove ⟨10, 1, true⟩])
      ⟨1, 10, true⟩).avatar.isMouseLookLockedOnX =
      (if (true : Bool) then decide (|(10 : Int)| ≤ |(1 : Int)|) else true) :=
  lock_decided_by_each_event
    (clientRun ownClient [ClientEvent.MouseRightPressed, ClientEvent.MouseMove ⟨10, 1, true⟩])
    ⟨1, 10, true⟩ (by decide) (by decide)

/-- C16 as stated fails: on the tie `|x| = |y| = 5`, `LockMouseMove` sets
`isMouseLookLockedOnX` to true. -/
theorem lock_on_tie :
    |(5 : Int)| = |(5 : Int)| ∧ (LockMouseMove clientExample 5 5).isMouseLookLockedOnX = true := by
  decide

/-- C16, amended.  For every pair of deltas `(x, y)`, `LockMouseMove(x, y)`
sets `isMouseLookLockedOnX` to true exactly when `|x| ≥ |y|` (ties included)
and to false exactly when `|x| < |y|`; it changes nothing else. -/
theorem LockMouseMove_decides (s : SimpleAvatar) (x y : Int) :
    ((LockMouseMove s x y).isMouseLookLockedOnX = true ↔ |x| ≥ |y|) ∧
    ((LockMouseMove s x y).isMouseLookLockedOnX = false ↔ |x| < |y|) ∧
    LockMouseMove s x y = { s with isMouseLookLockedOnX := decide (|x| ≥ |y|) } := by
  unfold LockMouseMove
  by_cases h : |y| > |x|
  · rw [if_pos h]
    have : ¬ |x| ≥ |y| := not_le.mpr h
    simp [this, h]
  · rw [if_neg h]
    have : |x| ≥ |y| := not_lt.mp h
    simp [this, h]

/-- C17. In every client state reached from the initial state by any sequence
of key, mouse-move, mouse-button, scroll, gesture and frame-update events (and
changes replicated or made by other parties), with arbitrary integer deltas,
the pitch lies in `[-90, 90]`.  Every event other than a mouse move leaves the
pitch as it is, and a mouse move either leaves it or ends with it clamped. -/
theorem pitch_in_range (entity : Entity) (connectionId : Nat) (world : Client)
    (events : List ClientEvent) :
    (-90 ≤ (clientRun (clientInit entity connectionId world) events).avatar.pitch ∧
      (clientRun (clientInit entity connectionId world) events).avatar.pitch ≤ 90) ∧
    (∀ (c : Client) (e : ClientEvent), (∀ m, e ≠ ClientEvent.MouseMove m) →
      (ClientEvent.apply c e).avatar.pitch = c.avatar.pitch) ∧
    (∀ (c : Client) (m : MouseEvent),
      (ClientHandleMouseMove c m).avatar.pitch = c.avatar.pitch ∨
        (-90 ≤ (ClientHandleMouseMove c m).avatar.pitch ∧
          (ClientHandleMouseMove c m).avatar.pitch ≤ 90)) := by
  refine ⟨?_, ClientEvent_pitch, ClientHandleMouseMove_pitch⟩
  have step : ∀ (c : Client) (e : ClientEvent),
      (-90 ≤ c.avatar.pitch ∧ c.avatar.pitch ≤ 90) →
      (-90 ≤ (ClientEvent.apply c e).avatar.pitch ∧ (ClientEvent.apply c e).avatar.pitch ≤ 90) := by
    intro c e hc
    by_cases hm : ∃ m, e = ClientEvent.MouseMove m
    · obtain ⟨m, rfl⟩ := hm
      rcases ClientHandleMouseMove_pitch c m with h | h
      · have h' : (ClientEvent.apply c (ClientEvent.MouseMove m)).avatar.pitch =
            c.avatar.pitch := h
        rw [h']; exact hc
      · exact h
    · rw [ClientEvent_pitch c e (fun m hm' => hm ⟨m, hm'⟩)]; exact hc
  have run : ∀ (evs : List ClientEvent) (c : Client),
      (-90 ≤ c.avatar.pitch ∧ c.avatar.pitch ≤ 90) →
      (-90 ≤ (clientRun c evs).avatar.pitch ∧ (clientRun c evs).avatar.pitch ≤ 90) := by
    intro evs
    induction evs with
    | nil => intro c hc; exact hc
    | cons e rest ih => intro c hc; exact ih _ (step c e hc)
  apply run
  rw [clientInit_pitch]
  constructor <;> norm_num

/-! ## Collisions, motion intents, mass, first person, clip detection -/

@[simp] theorem ServerSetFlying_motionX (s : SimpleAvatar) (v : Bool) :
    (ServerSetFlying s v).motionX = s.motionX := by
  unfold ServerSetFlying
  cases hf : s.me.dynamiccomponent.enableFly <;> cases hv : v <;> cases hs : s.flying <;>
    simp [SimpleAvatar.withBody, hs]

@[simp] theorem ServerSetFlying_motionY (s : SimpleAvatar) (v : Bool) :
    (ServerSetFlying s v).motionY = s.motionY := by
  unfold ServerSetFlying
  cases hf : s.me.dynamiccomponent.enableFly <;> cases hv : v <;> cases hs : s.flying <;>
    simp [SimpleAvatar.withBody, hs]

@[simp] theorem ServerSetFlying_motionZ (s : SimpleAvatar) (v : Bool) :
    (ServerSetFlying s v).motionZ = s.motionZ := by
  unfold ServerSetFlying
  cases hf : s.me.dynamiccomponent.enableFly <;> cases hv : v <;> cases hs : s.flying <;>
    simp [SimpleAvatar.withBody, hs]

theorem ServerSetFlying_mass (s : SimpleAvatar) (v : Bool) :
    (ServerSetFlying s v).me.rigidbody.mass =
      if s.flying = (s.me.dynamiccomponent.enableFly && v) then s.me.rigidbody.mass
      else if (s.me.dynamiccomponent.enableFly && v) = true then 0 else avatarMass := by
  unfold ServerSetFlying
  cases hf : s.me.dynamiccomponent.enableFly <;> cases hv : v <;> cases hs : s.flying <;>
    simp [SimpleAvatar.withBody, RigidBody.setMass, RigidBody.ApplyImpulse, hs]

theorem ServerHandleCollision_eq (s : SimpleAvatar) (n : Bool) :
    ServerHandleCollision s n =
      if s.falling = true ∧ n = true then ServerSetAnimationState { s with falling := false }
      else s := by
  unfold ServerHandleCollision
  cases s.falling <;> cases n <;> simp

theorem ServerHandleCollision_motion (s : SimpleAvatar) (newCollision : Bool) :
    (ServerHandleCollision s newCollision).motionX = s.motionX ∧
    (ServerHandleCollision s newCollision).motionY = s.motionY ∧
    (ServerHandleCollision s newCollision).motionZ = s.motionZ := by
  rw [ServerHandleCollision_eq]
  by_cases h : s.falling = true ∧ newCollision = true
  · simp [h]
  · simp [h]

/-- C21. A collision notification clears `falling` exactly when the avatar was falling and the
contact is new; in every other case `ServerHandleCollision` returns the state unchanged
(locomotion state and `animationState` included). It never sets `falling`, and it never
changes the motion intents or `flying`. -/
theorem collision_clears_falling (s : SimpleAvatar) (newCollision : Bool) :
    (s.falling = true ∧ newCollision = true →
      (ServerHandleCollision s newCollision).falling = false) ∧
    (¬ (s.falling = true ∧ newCollision = true) → ServerHandleCollision s newCollision = s) ∧
    ((ServerHandleCollision s newCollision).falling = true → s.falling = true) ∧
    (ServerHandleCollision s newCollision).motionX = s.motionX ∧
    (ServerHandleCollision s newCollision).motionY = s.motionY ∧
    (ServerHandleCollision s newCollision).motionZ = s.motionZ ∧
    (ServerHandleCollision s newCollision).flying = s.flying := by
  rw [ServerHandleCollision_eq]
  by_cases h : s.falling = true ∧ newCollision = true
  · simp [h]
  · simp [h]

theorem collision_clears_falling_witness :
    (serverRun (serverInit exampleEntity)
      [ServerEvent.Move "up", ServerEvent.UpdatePhysics 0]).falling = true ∧
    (ServerHandleCollision (serverRun (serverInit exampleEntity)
      [ServerEvent.Move "up", ServerEvent.UpdatePhysics 0]) true).falling = false :=
  ⟨by decide,
    (collision_clears_falling (serverRun (serverInit exampleEntity)
      [ServerEvent.Move "up", ServerEvent.UpdatePhysics 0]) true).1 ⟨by decide, rfl⟩⟩

theorem isUnit_cases : isUnit (-1) ∧ isUnit 0 ∧ isUnit 1 := by
  unfold isUnit; simp

theorem motionUnit_Move (s : SimpleAvatar) (p : String) (h : motionUnit s) :
    motionUnit (ServerHandleMove s p) := by
  obtain ⟨hx, hy, hz⟩ := h
  unfold motionUnit
  rcases param_cases p with rfl | rfl | rfl | rfl | rfl | rfl | ⟨h1, h2, h3, h4, h5, h6⟩
  · simp only [ServerHandleMove]; simp
    split_ifs <;> simp [hx, hy, hz, isUnit_cases]
  · simp only [ServerHandleMove]; simp
    split_ifs <;> simp [hx, hy, hz, isUnit_cases]
  · simp only [ServerHandleMove]; simp
    split_ifs <;> simp [hx, hy, hz, isUnit_cases]
  · simp only [ServerHandleMove]; simp
    split_ifs <;> simp [hx, hy, hz, isUnit_cases]
  · simp only [ServerHandleMove]; simp
    simp [hx, hz, isUnit_cases]
  · simp only [ServerHandleMove]; simp
    simp [hx, hz, isUnit_cases]
  · simp [ServerHandleMove, h1, h2, h3, h4, h5, h6]
    exact ⟨hx, hy, hz⟩

theorem motionUnit_Stop (s : SimpleAvatar) (p : String) (h : motionUnit s) :
    motionUnit (ServerHandleStop s p) := by
  obtain ⟨hx, hy, hz⟩ := h
  unfold motionUnit
  rcases param_cases p with rfl | rfl | rfl | rfl | rfl | rfl | ⟨h1, h2, h3, h4, h5, h6⟩
  · simp only [ServerHandleStop]; simp
    split_ifs <;> simp [hx, hy, hz, isUnit_cases]
  · simp only [ServerHandleStop]; simp
    split_ifs <;> simp [hx, hy, hz, isUnit_cases]
  · simp only [ServerHandleStop]; simp
    split_ifs <;> simp [hx, hy, hz, isUnit_cases]
  · simp only [ServerHandleStop]; simp
    split_ifs <;> simp [hx, hy, hz, isUnit_cases]
  · simp only [ServerHandleStop]; simp
    split_ifs <;> simp [hx, hy, hz, isUnit_cases]
  · simp only [ServerHandleStop]; simp
    split_ifs <;> simp [hx, hy, hz, isUnit_cases]
  · simp [ServerHandleStop, h1, h2, h3, h4, h5, h6]
    exact ⟨hx, hy, hz⟩

theorem ServerUpdate_motion (s : SimpleAvatar) (frametime : ℚ) (IsHeadless : Bool) :
    (ServerUpdate s frametime IsHeadless).motionX =
      (if s.me.dynamiccomponent.enableWalk then s.motionX else 0) ∧
    (ServerUpdate s frametime IsHeadless).motionY = s.motionY ∧
    (ServerUpdate s frametime IsHeadless).motionZ =
      (if s.me.dynamiccomponent.enableWalk then s.motionZ else 0) ∧
    (ServerUpdate s frametime IsHeadless).falling = s.falling := by
  unfold ServerUpdate
  simp only [CommonUpdateAnimation_motionX, CommonUpdateAnimation_motionY,
    CommonUpdateAnimation_motionZ, CommonUpdateAnimation_falling]
  by_cases hd : (!s.animsDetected) = true <;>
    cases hw : s.me.dynamiccomponent.enableWalk <;>
    cases hf : s.flying <;> cases he : s.me.dynamiccomponent.enableFly <;>
    simp [hd, hw, hf, he]

theorem ServerUpdatePhysics_motion (s : SimpleAvatar) (frametime : ℚ) :
    (ServerUpdatePhysics s frametime).motionX = s.motionX ∧
    ((ServerUpdatePhysics s frametime).motionY = s.motionY ∨
      (ServerUpdatePhysics s frametime).motionY = 0) ∧
    (ServerUpdatePhysics s frametime).motionZ = s.motionZ := by
  unfold ServerUpdatePhysics
  by_cases hf : s.flying = true
  · simp [hf]
  · simp only [Bool.not_eq_true] at hf
    simp only [hf, Bool.not_false, if_true]
    by_cases hm : (s.motionX != 0 || s.motionZ != 0) = true <;>
      by_cases hj : (s.motionY == 1 && !s.falling) = true <;>
      by_cases he : s.me.dynamiccomponent.enableJump = true <;>
      by_cases ha : s.me.rigidbody.active = true <;>
      simp [hm, hj, he, ha, hf, SimpleAvatar.withBody, RigidBody.ApplyImpulse]

theorem motionUnit_step (s : SimpleAvatar) (e : ServerEvent) (h : motionUnit s) :
    motionUnit (ServerEvent.apply s e) := by
  cases e with
  | Move p => exact motionUnit_Move s p h
  | Stop p => exact motionUnit_Stop s p h
  | ToggleFly =>
    unfold motionUnit at *
    simpa [ServerEvent.apply, ServerHandleToggleFly] using h
  | SetRotation p =>
    unfold motionUnit at *
    simp only [ServerEvent.apply, ServerHandleSetRotation]
    split_ifs <;> simpa [SimpleAvatar.withBody] using h
  | Update ft hl =>
    obtain ⟨hx, hy, hz⟩ := h
    obtain ⟨h1, h2, h3, _⟩ := ServerUpdate_motion s ft hl
    unfold motionUnit
    simp only [ServerEvent.apply, h1, h2, h3]
    refine ⟨?_, hy, ?_⟩ <;> split_ifs <;> first | assumption | exact isUnit_cases.2.1
  | UpdatePhysics ft =>
    obtain ⟨hx, hy, hz⟩ := h
    obtain ⟨h1, h2, h3⟩ := ServerUpdatePhysics_motion s ft
    unfold motionUnit
    simp only [ServerEvent.apply, h1, h3]
    refine ⟨hx, ?_, hz⟩
    rcases h2 with h2 | h2 <;> rw [h2]
    · exact hy
    · exact isUnit_cases.2.1
  | Collision n =>
    obtain ⟨h1, h2, h3⟩ := ServerHandleCollision_motion s n
    unfold motionUnit at *
    simp only [ServerEvent.apply, h1, h2, h3]
    exact h
  | WriteCapabilities w j f r a z d =>
    unfold motionUnit at *
    simpa [ServerEvent.apply, SimpleAvatar.withAttrs] using h
  | PhysicsEngine v a =>
    unfold motionUnit at *
    simpa [ServerEvent.apply, SimpleAvatar.withBody] using h
  | CreateAnimationController =>
    unfold motionUnit at *
    simp only [ServerEvent.apply]
    split <;> simpa [SimpleAvatar.withAnim] using h
  | SkeletonLoaded names =>
    unfold motionUnit at *
    simp only [ServerEvent.apply]
    split <;> simpa [SimpleAvatar.withAnim] using h

theorem motionUnit_run : ∀ (events : List ServerEvent) (s : SimpleAvatar),
    motionUnit s → motionUnit (serverRun s events) := by
  intro events
  induction events with
  | nil => intro s h; exact h
  | cons e rest ih => intro s h; exact ih _ (motionUnit_step s e h)

/-- C22. In every server state reached from the initial state by any sequence of events
(moves and stops with arbitrary parameters, fly toggles, update ticks, physics ticks,
collisions, and the external writes), each of `motionX`, `motionY`, `motionZ` is one of
-1, 0, 1. -/
theorem motion_components_unit (entity : Entity) (events : List ServerEvent) :
    ((serverRun (serverInit entity) events).motionX = -1 ∨
      (serverRun (serverInit entity) events).motionX = 0 ∨
      (serverRun (serverInit entity) events).motionX = 1) ∧
    ((serverRun (serverInit entity) events).motionY = -1 ∨
      (serverRun (serverInit entity) events).motionY = 0 ∨
      (serverRun (serverInit entity) events).motionY = 1) ∧
    ((serverRun (serverInit entity) events).motionZ = -1 ∨
      (serverRun (serverInit entity) events).motionZ = 0 ∨
      (serverRun (serverInit entity) events).motionZ = 1) := by
  apply motionUnit_run events (serverInit entity)
  exact ⟨Or.inr (Or.inl rfl), Or.inr (Or.inl rfl), Or.inr (Or.inl rfl)⟩

/-- C24. After a `ServerUpdate` tick with `enableWalk` false, `motionX` and `motionZ` are 0
while `motionY` and `falling` are unchanged; with `enableWalk` true the tick leaves the three
motion intents unchanged. -/
theorem walk_off_clears_motion (s : SimpleAvatar) (frametime : ℚ) (IsHeadless : Bool) :
    (s.me.dynamiccomponent.enableWalk = false →
      (ServerUpdate s frametime IsHeadless).motionX = 0 ∧
      (ServerUpdate s frametime IsHeadless).motionZ = 0 ∧
      (ServerUpdate s frametime IsHeadless).motionY = s.motionY ∧
      (ServerUpdate s frametime IsHeadless).falling = s.falling) ∧
    (s.me.dynamiccomponent.enableWalk = true →
      (ServerUpdate s frametime IsHeadless).motionX = s.motionX ∧
      (ServerUpdate s frametime IsHeadless).motionY = s.motionY ∧
      (ServerUpdate s frametime IsHeadless).motionZ = s.motionZ) := by
  obtain ⟨h1, h2, h3, h4⟩ := ServerUpdate_motion s frametime IsHeadless
  constructor
  · intro hw
    rw [h1, h2, h3, h4, hw]
    simp
  · intro hw
    rw [h1, h2, h3, hw]
    simp

theorem walk_off_clears_motion_witness :
    (serverRun (serverInit exampleEntity)
      [ServerEvent.Move "forward", ServerEvent.Move "left", ServerEvent.Move "up",
       ServerEvent.WriteCapabilities false true true true true true 7]).motionZ = 1 ∧
    (ServerUpdate (serverRun (serverInit exampleEntity)
      [ServerEvent.Move "forward", ServerEvent.Move "left", ServerEvent.Move "up",
       ServerEvent.WriteCapabilities false true true true true true 7]) 0 false).motionX = 0 ∧
    (ServerUpdate (serverRun (serverInit exampleEntity)
      [ServerEvent.Move "forward", ServerEvent.Move "left", ServerEvent.Move "up",
       ServerEvent.WriteCapabilities false true true true true true 7]) 0 false).motionZ = 0 :=
  ⟨by decide,
    ((walk_off_clears_motion (serverRun (serverInit exampleEntity)
      [ServerEvent.Move "forward", ServerEvent.Move "left", ServerEvent.Move "up",
       ServerEvent.WriteCapabilities false true true true true true 7]) 0 false).1
       (by decide)).1,
    ((walk_off_clears_motion (serverRun (serverInit exampleEntity)
      [ServerEvent.Move "forward", ServerEvent.Move "left", ServerEvent.Move "up",
       ServerEvent.WriteCapabilities false true true true true true 7]) 0 false).1
       (by decide)).2.1⟩

theorem ServerUpdate_mass (s : SimpleAvatar) (frametime : ℚ) (IsHeadless : Bool) :
    (ServerUpdate s frametime IsHeadless).me.rigidbody.mass =
      if s.flying = true ∧ s.me.dynamiccomponent.enableFly = false then avatarMass
      else s.me.rigidbody.mass := by
  unfold ServerUpdate
  simp only [CommonUpdateAnimation_body]
  by_cases hd : (!s.animsDetected) = true <;>
    by_cases hw : (!s.me.dynamiccomponent.enableWalk) = true <;>
    cases hf : s.flying <;> cases he : s.me.dynamiccomponent.enableFly <;>
    simp [hd, hw, hf, he, ServerSetFlying_mass]

/-- C25. Right after a `ServerUpdate` tick, `flying` implies `enableFly`; and when the tick
turned `flying` off, the body's mass is `avatarMass` again. -/
theorem tick_disables_flight (s : SimpleAvatar) (frametime : ℚ) (IsHeadless : Bool) :
    ((ServerUpdate s frametime IsHeadless).flying = true →
      (ServerUpdate s frametime IsHeadless).me.dynamiccomponent.enableFly = true) ∧
    (s.flying = true → (ServerUpdate s frametime IsHeadless).flying = false →
      (ServerUpdate s frametime IsHeadless).me.rigidbody.mass = avatarMass) := by
  rw [ServerUpdate_flying, ServerUpdate_attrs, ServerUpdate_mass]
  constructor
  · intro h; simp at h; exact h.2
  · intro hf h
    simp [hf] at h
    simp [hf, h]

theorem tick_disables_flight_witness :
    (serverRun (serverInit exampleEntity)
      [ServerEvent.ToggleFly,
       ServerEvent.WriteCapabilities true true false true true true 7]).flying = true ∧
    (ServerUpdate (serverRun (serverInit exampleEntity)
      [ServerEvent.ToggleFly,
       ServerEvent.WriteCapabilities true true false true true true 7]) 0 false).flying = false ∧
    (ServerUpdate (serverRun (serverInit exampleEntity)
      [ServerEvent.ToggleFly,
       ServerEvent.WriteCapabilities true true false true true true 7]) 0 false
      ).me.rigidbody.mass = avatarMass :=
  ⟨by decide, by decide,
    (tick_disables_flight (serverRun (serverInit exampleEntity)
      [ServerEvent.ToggleFly,
       ServerEvent.WriteCapabilities true true false true true true 7]) 0 false).2
      (by decide) (by decide)⟩

theorem ServerUpdatePhysics_mass (s : SimpleAvatar) (frametime : ℚ) :
    (ServerUpdatePhysics s frametime).me.rigidbody.mass = s.me.rigidbody.mass := by
  unfold ServerUpdatePhysics
  by_cases hf : s.flying = true
  · simp [hf]
  · simp only [Bool.not_eq_true] at hf
    simp only [hf, Bool.not_false, if_true]
    by_cases hm : (s.motionX != 0 || s.motionZ != 0) = true <;>
      by_cases hj : (s.motionY == 1 && !s.falling) = true <;>
      by_cases he : s.me.dynamiccomponent.enableJump = true <;>
      by_cases ha : s.me.rigidbody.active = true <;>
      simp [hm, hj, he, ha, hf, SimpleAvatar.withBody, RigidBody.ApplyImpulse]

theorem ServerHandleCollision_body (s : SimpleAvatar) (n : Bool) :
    (ServerHandleCollision s n).me.rigidbody = s.me.rigidbody := by
  unfold ServerHandleCollision
  split_ifs <;> simp

theorem massTracksFlying_of_eq {s t : SimpleAvatar} (hm : t.me.rigidbody.mass = s.me.rigidbody.mass)
    (hf : t.flying = s.flying) (h : massTracksFlying s) : massTracksFlying t := by
  unfold massTracksFlying at *
  rw [hm, hf]; exact h

theorem massTracksFlying_step (s : SimpleAvatar) (e : ServerEvent) (h : massTracksFlying s) :
    massTracksFlying (ServerEvent.apply s e) := by
  cases e with
  | Move p =>
    have hf := ServerHandleMove_frame s p
    exact massTracksFlying_of_eq (congrArg RigidBody.mass hf.body) hf.flying h
  | Stop p =>
    have hf := ServerHandleStop_frame s p
    exact massTracksFlying_of_eq (congrArg RigidBody.mass hf.body) hf.flying h
  | ToggleFly =>
    unfold massTracksFlying at *
    simp only [ServerEvent.apply, ServerHandleToggleFly, ServerSetFlying_mass,
      ServerSetFlying_flying]
    cases hf : s.flying <;> cases he : s.me.dynamiccomponent.enableFly <;>
      (simp [hf] at h ⊢; try exact h)
  | SetRotation p =>
    apply massTracksFlying_of_eq _ _ h
    · simp only [ServerEvent.apply, ServerHandleSetRotation]
      split_ifs <;> rfl
    · simp only [ServerEvent.apply, ServerHandleSetRotation]
      split_ifs <;> rfl
  | Update ft hl =>
    unfold massTracksFlying at *
    simp only [ServerEvent.apply, ServerUpdate_mass, ServerUpdate_flying]
    cases hf : s.flying <;> cases he : s.me.dynamiccomponent.enableFly <;>
      simp [hf] at h ⊢ <;> exact h
  | UpdatePhysics ft =>
    exact massTracksFlying_of_eq (ServerUpdatePhysics_mass s ft) (ServerUpdatePhysics_flying s ft) h
  | Collision n =>
    exact massTracksFlying_of_eq (congrArg RigidBody.mass (ServerHandleCollision_body s n))
      (ServerHandleCollision_flying s n) h
  | WriteCapabilities w j f r a z d => exact massTracksFlying_of_eq rfl rfl h
  | PhysicsEngine v a => exact massTracksFlying_of_eq rfl rfl h
  | CreateAnimationController =>
    apply massTracksFlying_of_eq _ _ h
    · simp only [ServerEvent.apply]; split <;> rfl
    · simp only [ServerEvent.apply]; split <;> rfl
  | SkeletonLoaded names =>
    apply massTracksFlying_of_eq _ _ h
    · simp only [ServerEvent.apply]; split <;> rfl
    · simp only [ServerEvent.apply]; split <;> rfl

theorem massTracksFlying_run : ∀ (events : List ServerEvent) (s : SimpleAvatar),
    massTracksFlying s → massTracksFlying (serverRun s events) := by
  intro events
  induction events with
  | nil => intro s h; exact h
  | cons e rest ih => intro s h; exact ih _ (massTracksFlying_step s e h)

/-- C26. Initialization leaves `flying` false and the mass at `avatarMass`, which is 10; in
every server state reached from it by any sequence of events, none of which writes the mass
from outside the script, the body's mass is 0 when `flying` is true and 10 when it is
false. -/
theorem mass_tracks_flying (entity : Entity) (events : List ServerEvent) :
    (serverInit entity).flying = false ∧ (serverInit entity).me.rigidbody.mass = 10 ∧
    avatarMass = 10 ∧
    (serverRun (serverInit entity) events).me.rigidbody.mass =
      (if (serverRun (serverInit entity) events).flying = true then 0 else 10) := by
  refine ⟨rfl, rfl, rfl, ?_⟩
  have h := massTracksFlying_run events (serverInit entity) (by unfold massTracksFlying; rfl)
  unfold massTracksFlying at h
  rw [h]
  cases (serverRun (serverInit entity) events).flying <;> simp [avatarMass]

theorem ClientZoom_whole (s : SimpleAvatar) (scene : Scene) (r : ℚ) (n : ℕ) (hn : n ≤ 500)
    (hd : s.me.dynamiccomponent.cameraDistance = n) (hr : |r| ≤ 50) :
    ∃ m : ℕ, m ≤ 500 ∧ (ClientZoom s scene r).me.dynamiccomponent.cameraDistance = m := by
  by_cases hz : s.me.dynamiccomponent.enableZoom = true
  · by_cases hc : IsCameraActive scene = true
    · rw [ClientZoom_distance s scene r hz hc, hd]
      obtain ⟨hr1, hr2⟩ := abs_le.mp hr
      by_cases h1 : r < 0
      · have h1' : ¬ 0 < r := not_lt.mpr h1.le
        by_cases h2 : (n : ℚ) < 500
        · have hn' : n + 1 ≤ 500 := by
            have : n < 500 := by exact_mod_cast h2
            omega
          have hq : ((n : ℚ) + 1) ≤ 500 := by exact_mod_cast hn'
          refine ⟨n + 1, hn', ?_⟩
          have h3 : ¬ r < -50 := not_lt.mpr hr1
          have hn0 : (0 : ℚ) ≤ n := Nat.cast_nonneg n
          simp only [h1, h2, and_self, true_or, if_true, zoomStep, h3, if_false, clampDistance]
          rw [if_neg (by linarith), if_neg (by linarith)]
          push_cast; ring
        · refine ⟨n, hn, ?_⟩
          simp [h1, h2, h1']
      · by_cases h4 : 0 < r
        · by_cases h5 : (0 : ℚ) < n
          · have hpos : 1 ≤ n := by
              have : 0 < n := by exact_mod_cast h5
              omega
            have hq : (1 : ℚ) ≤ n := by exact_mod_cast hpos
            have hq2 : (n : ℚ) ≤ 500 := by exact_mod_cast hn
            refine ⟨n - 1, by omega, ?_⟩
            have h6 : ¬ 50 < r := not_lt.mpr hr2
            simp only [h1, h4, h5, and_self, or_true, if_true, zoomStep, h6, if_false,
              clampDistance, false_and]
            rw [if_neg (by linarith), if_neg (by linarith)]
            rw [Nat.cast_sub hpos]; push_cast; ring
          · refine ⟨n, hn, ?_⟩
            simp [h1, h4, h5]
        · refine ⟨n, hn, ?_⟩
          simp [h1, h4]
    · refine ⟨n, hn, ?_⟩
      have : ClientZoom s scene r = s := by
        unfold ClientZoom; simp [hc]
      rw [this, hd]
  · refine ⟨n, hn, ?_⟩
    have : ClientZoom s scene r = s := by
      unfold ClientZoom; simp [hz]
    rw [this, hd]

theorem zoomRun_whole : ∀ (calls : List ZoomCall) (s : SimpleAvatar) (n : ℕ), n ≤ 500 →
    s.me.dynamiccomponent.cameraDistance = n → (∀ c ∈ calls, |c.relativeScroll| ≤ 50) →
    ∃ m : ℕ, m ≤ 500 ∧ (zoomRun s calls).me.dynamiccomponent.cameraDistance = m := by
  intro calls
  induction calls with
  | nil => intro s n hn hd _; exact ⟨n, hn, hd⟩
  | cons c rest ih =>
    intro s n hn hd h
    obtain ⟨m, hm, hdm⟩ := ClientZoom_whole
      (s.withAttrs { s.me.dynamiccomponent with enableZoom := c.enableZoom }) c.scene
      c.relativeScroll n hn hd (h c (List.mem_cons_self _ _))
    exact ih _ m hm hdm (fun c' hc' => h c' (List.mem_cons_of_mem _ hc'))

theorem ClientZoom_zero (s : SimpleAvatar) (scene : Scene) : ClientZoom s scene 0 = s := by
  unfold ClientZoom
  simp

/-- C27. Starting from a whole camera distance in `[0, 500]` (the initial 7 among them), after
any finite sequence of `ClientZoom` calls of magnitude at most 50 the camera distance is again
a whole number in `[0, 500]`, so it is never negative; a zoom-in at distance 0 leaves the
distance at 0; and every keyboard zoom is a `ClientZoom` call of magnitude at most 50. -/
theorem first_person_unreachable (s : SimpleAvatar) (calls : List ZoomCall) (n : ℕ)
    (hn : n ≤ 500) (hd : s.me.dynamiccomponent.cameraDistance = n)
    (hsmall : ∀ c ∈ calls, |c.relativeScroll| ≤ 50) :
    (∃ m : ℕ, m ≤ 500 ∧ (zoomRun s calls).me.dynamiccomponent.cameraDistance = m) ∧
    ¬ (zoomRun s calls).me.dynamiccomponent.cameraDistance < 0 ∧
    (∀ (t : SimpleAvatar) (scene : Scene) (r : ℚ), 0 < r →
      t.me.dynamiccomponent.cameraDistance = 0 →
      (ClientZoom t scene r).me.dynamiccomponent.cameraDistance = 0) ∧
    (∀ (c : Client) (direction : String), ∃ r : ℚ, |r| ≤ 50 ∧
      (ClientHandleKeyboardZoom c direction).avatar = ClientZoom c.avatar c.scene r) := by
  obtain ⟨m, hm, hdm⟩ := zoomRun_whole calls s n hn hd hsmall
  refine ⟨⟨m, hm, hdm⟩, ?_, ?_, ?_⟩
  · rw [hdm]; exact not_lt.mpr (Nat.cast_nonneg m)
  · intro t scene r hr ht
    have h1 : ¬ r < 0 := not_lt.mpr hr.le
    by_cases hz : t.me.dynamiccomponent.enableZoom = true
    · by_cases hc : IsCameraActive scene = true
      · rw [ClientZoom_distance t scene r hz hc, ht]
        simp [h1]
      · have : ClientZoom t scene r = t := by
          unfold ClientZoom; simp [hc]
        rw [this, ht]
    · have : ClientZoom t scene r = t := by
        unfold ClientZoom; simp [hz]
      rw [this, ht]
  · intro c direction
    unfold ClientHandleKeyboardZoom
    split_ifs
    · exact ⟨10, by norm_num [abs_le], rfl⟩
    · exact ⟨-10, by norm_num [abs_le], rfl⟩
    · exact ⟨0, by norm_num, (ClientZoom_zero _ _).symm⟩

theorem first_person_unreachable_witness :
    clientExample.me.dynamiccomponent.cameraDistance = ((7 : ℕ) : ℚ) ∧
    (∃ m : ℕ, m ≤ 500 ∧
      (zoomRun clientExample
        [⟨true, activeScene, 10⟩, ⟨true, activeScene, 10⟩, ⟨true, activeScene, 10⟩,
         ⟨true, activeScene, 10⟩, ⟨true, activeScene, 10⟩, ⟨true, activeScene, 10⟩,
         ⟨true, activeScene, 10⟩, ⟨true, activeScene, 10⟩, ⟨true, activeScene, -10⟩]
        ).me.dynamiccomponent.cameraDistance = m) :=
  ⟨by decide!,
    (first_person_unreachable clientExample
      [⟨true, activeScene, 10⟩, ⟨true, activeScene, 10⟩, ⟨true, activeScene, 10⟩,
       ⟨true, activeScene, 10⟩, ⟨true, activeScene, 10⟩, ⟨true, activeScene, 10⟩,
       ⟨true, activeScene, 10⟩, ⟨true, activeScene, 10⟩, ⟨true, activeScene, -10⟩]
      7 (by norm_num) (by decide!)
      (by
        intro c hc
        simp only [List.mem_cons, List.mem_singleton, List.not_mem_nil, or_false] at hc
        rcases hc with rfl | rfl | rfl | rfl | rfl | rfl | rfl | rfl | rfl <;>
          norm_num [abs_le])).1⟩

theorem ServerSetAnimationState_roleNames (s : SimpleAvatar) :
    roleNames (ServerSetAnimationState s) = roleNames s := by
  obtain ⟨oc, h⟩ := ServerSetAnimationState_anim s; rw [h]; rfl

theorem CommonUpdateAnimation_roleNames (s : SimpleAvatar) (frametime : ℚ) (h : Bool) :
    roleNames (CommonUpdateAnimation s frametime h) = roleNames s := by
  obtain ⟨oc, e⟩ := CommonUpdateAnimation_anim s frametime h; rw [e]; rfl

theorem ServerSetFlying_roleNames (s : SimpleAvatar) (v : Bool) :
    roleNames (ServerSetFlying s v) = roleNames s := by
  unfold ServerSetFlying
  cases hf : s.me.dynamiccomponent.enableFly <;> cases hv : v <;> cases hs : s.flying <;>
    simp [ServerSetAnimationState_roleNames, hs] <;> rfl

theorem ServerUpdate_roleNames_of (s : SimpleAvatar) (frametime : ℚ) (IsHeadless : Bool)
    (e : (if (!s.animsDetected) = true then CommonFindAnimations s else s) = s) :
    roleNames (ServerUpdate s frametime IsHeadless) = roleNames s := by
  unfold ServerUpdate
  dsimp only
  rw [e]
  simp only [CommonUpdateAnimation_roleNames]
  by_cases hw : (!s.me.dynamiccomponent.enableWalk) = true <;>
    cases hf : s.flying <;> cases he : s.me.dynamiccomponent.enableFly <;>
    simp [hw, hf, he, ServerSetFlying_roleNames] <;> simp [roleNames]

theorem ServerUpdate_roleNames (s : SimpleAvatar) (frametime : ℚ) (IsHeadless : Bool)
    (hdet : s.animsDetected = true) :
    roleNames (ServerUpdate s frametime IsHeadless) = roleNames s :=
  ServerUpdate_roleNames_of s frametime IsHeadless (by simp [hdet])

theorem CommonFindAnimations_cases (s : SimpleAvatar) :
    CommonFindAnimations s = s ∨ (CommonFindAnimations s).animsDetected = true := by
  unfold CommonFindAnimations
  cases s.me.animationcontroller with
  | none => exact Or.inl rfl
  | some ac =>
    dsimp only
    by_cases h : ac.availableAnimations.length > 0
    · rw [if_pos h]; exact Or.inr rfl
    · rw [if_neg h]; exact Or.inl rfl

theorem ServerUpdate_detects (s : SimpleAvatar) (frametime : ℚ) (IsHeadless : Bool)
    (h : (CommonFindAnimations s).animsDetected = true) :
    (ServerUpdate s frametime IsHeadless).animsDetected = true := by
  by_cases hd : s.animsDetected = true
  · have := congrArg (fun t => t.2.2.2.2.2) (ServerUpdate_roleNames s frametime IsHeadless hd)
    simp only [roleNames] at this
    rw [this]; exact hd
  · have e : ServerUpdate s frametime IsHeadless =
        ServerUpdate (CommonFindAnimations s) frametime IsHeadless := by
      simp only [Bool.not_eq_true] at hd
      unfold ServerUpdate
      simp only [hd, h, Bool.not_false, Bool.not_true, Bool.false_eq_true, if_true, if_false]
    rw [e]
    have := congrArg (fun t => t.2.2.2.2.2)
      (ServerUpdate_roleNames (CommonFindAnimations s) frametime IsHeadless h)
    simp only [roleNames] at this
    rw [this]; exact h

theorem ServerUpdatePhysics_roleNames (s : SimpleAvatar) (frametime : ℚ) :
    roleNames (ServerUpdatePhysics s frametime) = roleNames s := by
  unfold ServerUpdatePhysics
  by_cases hf : s.flying = true
  · simp [hf, roleNames]
  · simp only [Bool.not_eq_true] at hf
    simp only [hf, Bool.not_false, if_true]
    by_cases hm : (s.motionX != 0 || s.motionZ != 0) = true <;>
      by_cases hj : (s.motionY == 1 && !s.falling) = true <;>
      by_cases he : s.me.dynamiccomponent.enableJump = true <;>
      by_cases ha : s.me.rigidbody.active = true <;>
      simp [hm, hj, he, ha, hf, roleNames, SimpleAvatar.withBody, RigidBody.ApplyImpulse]

theorem detectionPending_of_roleNames {s t : SimpleAvatar} (e : roleNames t = roleNames s)
    (h : detectionPending s) : detectionPending t := by
  unfold detectionPending at *
  have e1 : t.animsDetected = s.animsDetected := congrArg (fun t => t.2.2.2.2.2) e
  have e2 : t.animList = s.animList := congrArg (fun t => t.2.2.2.2.1) e
  rw [e1, e2]; exact h

theorem detectionPending_step (s : SimpleAvatar) (e : ServerEvent) (h : detectionPending s) :
    detectionPending (ServerEvent.apply s e) := by
  cases e with
  | Move p =>
    obtain ⟨x, y, z, oc, hm⟩ := ServerHandleMove_frame s p
    exact detectionPending_of_roleNames (by rw [ServerEvent.apply, hm]; rfl) h
  | Stop p =>
    obtain ⟨x, y, z, oc, hm⟩ := ServerHandleStop_frame s p
    exact detectionPending_of_roleNames (by rw [ServerEvent.apply, hm]; rfl) h
  | ToggleFly => exact detectionPending_of_roleNames (ServerSetFlying_roleNames s _) h
  | SetRotation p =>
    refine detectionPending_of_roleNames ?_ h
    simp only [ServerEvent.apply, ServerHandleSetRotation]
    split_ifs <;> rfl
  | Update ft hl =>
    rcases CommonFindAnimations_cases s with hc | hc
    · exact detectionPending_of_roleNames
        (ServerUpdate_roleNames_of s ft hl (by rw [hc]; simp)) h
    · intro hn
      have := ServerUpdate_detects s ft hl hc
      simp only [ServerEvent.apply] at hn
      rw [this] at hn
      exact absurd hn (by decide)
  | UpdatePhysics ft => exact detectionPending_of_roleNames (ServerUpdatePhysics_roleNames s ft) h
  | Collision n =>
    refine detectionPending_of_roleNames ?_ h
    simp only [ServerEvent.apply, ServerHandleCollision]
    split_ifs
    · rw [ServerSetAnimationState_roleNames]; rfl
    · rfl
  | WriteCapabilities w j f r a z d => exact detectionPending_of_roleNames rfl h
  | PhysicsEngine v a => exact detectionPending_of_roleNames rfl h
  | CreateAnimationController =>
    refine detectionPending_of_roleNames ?_ h
    simp only [ServerEvent.apply]
    cases s.me.animationcontroller <;> rfl
  | SkeletonLoaded names =>
    refine detectionPending_of_roleNames ?_ h
    simp only [ServerEvent.apply]
    cases s.me.animationcontroller <;> rfl

theorem detectionPending_run : ∀ (events : List ServerEvent) (s : SimpleAvatar),
    detectionPending s → detectionPending (serverRun s events) := by
  intro events
  induction events with
  | nil => intro s h; exact h
  | cons e rest ih => intro s h; exact ih _ (detectionPending_step s e h)

theorem ClientUpdateRotation_roleNames (c : Client) (frametime : ℚ) :
    roleNames (ClientUpdateRotation c frametime).avatar = roleNames c.avatar := by
  unfold ClientUpdateRotation
  dsimp only
  split_ifs <;> rfl

theorem ClientCheckState_roleNames (c : Client) :
    roleNames (reached (ClientCheckState c)).avatar = roleNames c.avatar := by
  rcases ClientCheckState_reached c with h | h | h <;> rw [h] <;> rfl

theorem ClientUpdateAvatarCamera_roleNames (c : Client) :
    roleNames (reached (ClientUpdateAvatarCamera c)).avatar = roleNames c.avatar := by
  unfold ClientUpdateAvatarCamera
  have hp := ClientCheckState_roleNames c
  cases hr : ClientCheckState c with
  | error c1 => rw [hr] at hp; exact hp
  | ok c1 =>
    rw [hr] at hp
    dsimp only
    cases c1.scene.AvatarCamera with
    | none => exact hp
    | some ce => exact hp

theorem updateAnimation_roleNames (c : Client) (frametime : ℚ)
    (hdet : c.avatar.animsDetected = true) :
    roleNames (updateAnimation c frametime).avatar = roleNames c.avatar := by
  unfold updateAnimation
  simp only [CommonUpdateAnimation_roleNames, hdet, Bool.not_true, Bool.false_eq_true, if_false]

theorem ClientUpdate_roleNames (c : Client) (frametime : ℚ)
    (hdet : c.avatar.animsDetected = true) :
    roleNames (ClientUpdate c frametime).avatar = roleNames c.avatar := by
  unfold ClientUpdate
  dsimp only
  have key : ∀ r : Except Client Client, roleNames (reached r).avatar = roleNames c.avatar →
      roleNames (match r with
        | Except.error c => c
        | Except.ok c => updateAnimation c frametime).avatar = roleNames c.avatar := by
    intro r hr
    cases r with
    | error c1 => exact hr
    | ok c1 =>
      have hd1 : c1.avatar.animsDetected = true := by
        have := congrArg (fun t => t.2.2.2.2.2) hr
        simp only [roleNames] at this
        rw [show (reached (Except.ok c1 : Except Client Client)) = c1 from rfl] at this
        rw [this]; exact hdet
      rw [updateAnimation_roleNames c1 frametime hd1]; exact hr
  apply key
  split_ifs
  · rw [ClientUpdateAvatarCamera_roleNames, ClientUpdateRotation_roleNames]
  · rfl

/-- C23. Lazy one-time clip detection. (1) `CommonFindAnimations`, called with an animation
controller whose available set is non-empty while the animation list still holds the four
expected names, sets each role name to its expected name (Stand, Walk, Fly, Hover) when that
name is available and to the empty string otherwise, and sets `animsDetected`. (2) On the
server the animation list does hold the four expected names in every reachable state in which
detection has not yet run. (3) With no animation controller, or with an empty available set,
`CommonFindAnimations` returns the state unchanged, so `animsDetected` keeps its value.
(4), (5) Once `animsDetected` is true, a `ServerUpdate` tick and a `ClientUpdate` tick leave
the role names, the animation list and the flag as they were, whatever the available set
holds by then. -/
theorem detection_once (s : SimpleAvatar) :
    (∀ ac : AnimationController, s.me.animationcontroller = some ac →
      ac.availableAnimations ≠ [] → s.animList = ["Stand", "Walk", "Fly", "Hover"] →
      (CommonFindAnimations s).standAnimName =
        (if "Stand" ∈ ac.availableAnimations then "Stand" else "") ∧
      (CommonFindAnimations s).walkAnimName =
        (if "Walk" ∈ ac.availableAnimations then "Walk" else "") ∧
      (CommonFindAnimations s).flyAnimName =
        (if "Fly" ∈ ac.availableAnimations then "Fly" else "") ∧
      (CommonFindAnimations s).hoverAnimName =
        (if "Hover" ∈ ac.availableAnimations then "Hover" else "") ∧
      (CommonFindAnimations s).animsDetected = true) ∧
    (∀ (entity : Entity) (events : List ServerEvent),
      (serverRun (serverInit entity) events).animsDetected = false →
      (serverRun (serverInit entity) events).animList = ["Stand", "Walk", "Fly", "Hover"]) ∧
    ((s.me.animationcontroller = none ∨
        ∃ ac, s.me.animationcontroller = some ac ∧ ac.availableAnimations = []) →
      CommonFindAnimations s = s) ∧
    (s.animsDetected = true → ∀ (frametime : ℚ) (IsHeadless : Bool),
      roleNames (ServerUpdate s frametime IsHeadless) = roleNames s) ∧
    (∀ (c : Client) (frametime : ℚ), c.avatar.animsDetected = true →
      roleNames (ClientUpdate c frametime).avatar = roleNames c.avatar) := by
  refine ⟨?_, ?_, ?_, ?_, ?_⟩
  · intro ac hac hne hl
    have hlen : ac.availableAnimations.length > 0 := List.length_pos.mpr hne
    unfold CommonFindAnimations
    simp only [hac, hlen, if_true, hl]
    simp
  · intro entity events
    exact detectionPending_run events (serverInit entity) (fun _ => rfl)
  · rintro (h | ⟨ac, h, he⟩)
    · unfold CommonFindAnimations; simp [h]
    · unfold CommonFindAnimations; simp [h, he]
  · intro hdet ft hl
    exact ServerUpdate_roleNames s ft hl hdet
  · intro c ft hdet
    exact ClientUpdate_roleNames c ft hdet

theorem detection_once_witness :
    (CommonFindAnimations (serverRun (serverInit exampleEntity)
      [ServerEvent.CreateAnimationController,
       ServerEvent.SkeletonLoaded ["Stand", "Fly", "Hover"]])).walkAnimName =
        (if "Walk" ∈ ["Stand", "Fly", "Hover"] then "Walk" else "") ∧
    roleNames (ServerUpdate (ServerEvent.apply noWalkAvatar
        (ServerEvent.SkeletonLoaded ["Stand", "Walk", "Fly", "Hover"])) 0 false) =
      roleNames noWalkAvatar :=
  ⟨((detection_once (serverRun (serverInit exampleEntity)
      [ServerEvent.CreateAnimationController,
       ServerEvent.SkeletonLoaded ["Stand", "Fly", "Hover"]])).1
      { animationState := "", availableAnimations := ["Stand", "Fly", "Hover"],
        activeAnimations := [], calls := [] } (by decide) (by decide) (by decide)).2.1,
    (detection_once (ServerEvent.apply noWalkAvatar
        (ServerEvent.SkeletonLoaded ["Stand", "Walk", "Fly", "Hover"]))).2.2.2.1
      (by decide) 0 false⟩

end Tundra
